import Mathlib

/-!
# InfiniTime smart alarm: heart-rate log and smart-alarm controller

A shallow embedding of `src/components/heartrate/HeartRateLogger.{h,cpp}` and
`src/components/alarm/SmartAlarmController.{h,cpp}`, followed by the theorems
that settle the specification's claims about them.

Conventions.
* Machine integers are `Nat`/`Int`; a cast or an arithmetic step that can wrap is
  written with an explicit `%`.
* The objects the C++ classes hold by reference (filesystem, clock, settings
  store, system task) are explicit components or parameters of the state.
* The type `float` is IEEE 754 binary32 with round to nearest, ties to even
  (namespace `Binary32`); every operation rounds once.
-/

namespace HeartRateLogger

/-! ## Data model (`HeartRateLogger.h`) -/

/-- The constant `HeartRateLogger::maxEntries`. -/
abbrev maxEntries : Nat := 480

/-- The record `HeartRateLogger::Entry`: `uint32_t timestamp; uint8_t bpm`. -/
structure Entry where
  timestamp : Nat
  bpm : Nat
deriving DecidableEq, Repr

/-- The record `HeartRateLogger::FileHeader` with its default member initialisers. -/
structure FileHeader where
  version : Nat := 1
  writeIndex : Nat := 0
  count : Nat := 0
deriving DecidableEq, Repr

/-- Modelled from the spec: the contents of the backing file `/.system/hrlog.dat`, kept by
the external filesystem (`components/fs/FS.h`, spec 3.3 and 6.1).  The layout is
`[header][entry_0][entry_1]...`; slots are written in place.  `header = none` is a file
shorter than a header (a header read is short); `slots i = none` is a file that holds no
complete record at slot `i` (a read there transfers nothing).  The fields of a stored header
are whatever the file holds, so they are unconstrained naturals. -/
structure HrFile where
  header : Option FileHeader
  slots : Nat → Option Entry

/-- Modelled from the spec: the file that `FileOpen` with `LFS_O_CREAT` creates when there is
none (spec 6.1, open(read-write-create)): it has length zero. -/
def HrFile.empty : HrFile := ⟨none, fun _ => none⟩

end HeartRateLogger

/-- The class `HeartRateLogger`: the members `header` and `lastLogTimestamp`, and, for the
reference member `fs`, the state of the backing file (`none`: there is no such file). -/
structure HeartRateLogger where
  fs : Option HeartRateLogger.HrFile
  header : HeartRateLogger.FileHeader := {}
  lastLogTimestamp : Nat := 0

namespace HeartRateLogger

/-- Storing `e` at `buffer[i]`. -/
def setAt (buffer : Nat → Entry) (i : Nat) (e : Entry) : Nat → Entry :=
  fun j => if j = i then e else buffer j

/-- Modelled from the spec: `FileSeek` to slot `idx` followed by `FileWrite` of one entry
(spec 3.3: slots are written in place), leaving every other part of the file as it was. -/
def HrFile.writeSlot (f : HrFile) (idx : Nat) (e : Entry) : HrFile :=
  { f with slots := fun j => if j = idx then some e else f.slots j }

/-- Modelled from the spec: `FileWrite` of a header at offset 0 of a freshly opened file. -/
def HrFile.writeHeader (f : HrFile) (h : FileHeader) : HrFile :=
  { f with header := some h }

/-- Modelled from the spec: `FileOpen(LFS_O_RDWR | LFS_O_CREAT)` (spec 6.1).  `ok` is the
status the filesystem returns; on success the file exists afterwards, created empty when it
was missing. -/
def openCreate (ok : Bool) (fs : Option HrFile) : Option HrFile :=
  if ok then some (fs.getD HrFile.empty) else none

/-- Modelled from the spec: `FileOpen(LFS_O_RDONLY)` (spec 6.1): it succeeds only on an
existing file, and only when the filesystem reports success (`ok`). -/
def openRead (ok : Bool) (fs : Option HrFile) : Option HrFile :=
  if ok then fs else none

/-! ## Operations (`HeartRateLogger.cpp`) -/

/-- The method `HeartRateLogger::LoadHeader`. -/
def LoadHeader (openOk : Bool) (l : HeartRateLogger) : HeartRateLogger :=
  match openRead openOk l.fs with
  | some file =>
    match file.header with
    | some readHeader =>
      if readHeader.version = 1 ∧ readHeader.writeIndex < maxEntries ∧ readHeader.count ≤ maxEntries then
        { l with header := readHeader }
      else l
    | none => l
  | none => l

/-- The method `HeartRateLogger::Init`. -/
def Init (openOk : Bool) (l : HeartRateLogger) : HeartRateLogger :=
  LoadHeader openOk l

/-- The method `HeartRateLogger::SaveHeader`. -/
def SaveHeader (openOk : Bool) (l : HeartRateLogger) : HeartRateLogger :=
  match openCreate openOk l.fs with
  | some file => { l with fs := some (file.writeHeader l.header) }
  | none => l

/-- The method `HeartRateLogger::WriteEntry`. -/
def WriteEntry (openOk : Bool) (entry : Entry) (l : HeartRateLogger) : HeartRateLogger :=
  match openCreate openOk l.fs with
  | some file => { l with fs := some (file.writeSlot l.header.writeIndex entry) }
  | none => l

/-- The method `HeartRateLogger::AddMeasurement`.  `now` is the clock reading
`to_time_t(dateTime.CurrentDateTime())`; `openWrite` and `openSave` are the statuses of the
two `FileOpen` calls (in `WriteEntry` and in `SaveHeader`). -/
def AddMeasurement (openWrite openSave : Bool) (now bpm : Nat) (l : HeartRateLogger) :
    HeartRateLogger :=
  if bpm = 0 then l
  else
    let nowSeconds := now % 4294967296
    if l.lastLogTimestamp ≠ 0 ∧
        (nowSeconds + 4294967296 - l.lastLogTimestamp) % 4294967296 < 30 then l
    else
      let l1 := { l with lastLogTimestamp := nowSeconds }
      let entry : Entry := ⟨nowSeconds, bpm⟩
      let l2 := WriteEntry openWrite entry l1
      let l3 := { l2 with header :=
        { l2.header with
          writeIndex := (l2.header.writeIndex + 1) % maxEntries
          count := if l2.header.count < maxEntries then l2.header.count + 1 else l2.header.count } }
      SaveHeader openSave l3

/-- The read loop of `GetRecentEntries`: iterations `i = 0 .. n-1` of
`buffer[i] := slot ((startIndex + i) % maxEntries)`. -/
def readLoop (file : HrFile) (startIndex : Nat) : Nat → (Nat → Entry) → (Nat → Entry)
  | 0, buffer => buffer
  | n + 1, buffer =>
    let buffer1 := readLoop file startIndex n buffer
    let idx := (startIndex + n) % maxEntries
    match file.slots idx with
    | some e => setAt buffer1 n e
    | none => buffer1

/-- The method `HeartRateLogger::GetRecentEntries`: the caller's buffer after the call, and
the returned count. -/
def GetRecentEntries (openOk : Bool) (l : HeartRateLogger) (buffer : Nat → Entry)
    (maxCount : Nat) : (Nat → Entry) × Nat :=
  if l.header.count = 0 ∨ maxCount = 0 then (buffer, 0)
  else
    let toRead := if maxCount < l.header.count then maxCount else l.header.count
    match openRead openOk l.fs with
    | none => (buffer, 0)
    | some file =>
      let startIndex :=
        if l.header.count < maxEntries then l.header.count - toRead
        else (l.header.writeIndex + maxEntries - toRead) % maxEntries
      (readLoop file startIndex toRead buffer, toRead)

/-- The entries a call of `GetRecentEntries` hands back: the first `count` buffer cells. -/
def returned (r : (Nat → Entry) × Nat) : List Entry :=
  (List.range r.2).map r.1

/-- The method `HeartRateLogger::GetEntryCount`. -/
def GetEntryCount (l : HeartRateLogger) : Nat :=
  l.header.count

/-- The method `HeartRateLogger::Clear`.  `deleteOk` is the status of `FileDelete`. -/
def Clear (deleteOk openSave : Bool) (l : HeartRateLogger) : HeartRateLogger :=
  let l1 := { l with header := { l.header with writeIndex := 0, count := 0 } }
  let l2 := { l1 with lastLogTimestamp := 0 }
  let l3 := { l2 with fs := if deleteOk then none else l2.fs }
  SaveHeader openSave l3

/-! ## Runs of calls -/

/-- One call of `AddMeasurement`: the filesystem statuses, the clock reading, the value. -/
structure Call where
  openWrite : Bool
  openSave : Bool
  now : Nat
  bpm : Nat
deriving DecidableEq, Repr

/-- Whether `AddMeasurement` gets past its two early returns (`bpm == 0`, throttle). -/
def accepted (l : HeartRateLogger) (now bpm : Nat) : Bool :=
  decide (bpm ≠ 0) &&
    !(decide (l.lastLogTimestamp ≠ 0) &&
      decide ((now % 4294967296 + 4294967296 - l.lastLogTimestamp) % 4294967296 < 30))

/-- A sequence of `AddMeasurement` calls. -/
def addAll : List Call → HeartRateLogger → HeartRateLogger
  | [], l => l
  | c :: cs, l => addAll cs (AddMeasurement c.openWrite c.openSave c.now c.bpm l)

/-- The samples of the accepted calls of a run, in call order. -/
def acceptedSamples : List Call → HeartRateLogger → List Entry
  | [], _ => []
  | c :: cs, l =>
    (if accepted l c.now c.bpm then [(⟨c.now % 4294967296, c.bpm⟩ : Entry)] else []) ++
      acceptedSamples cs (AddMeasurement c.openWrite c.openSave c.now c.bpm l)

/-- Calls `(now, bpm)` during which every filesystem operation succeeds. -/
def succeeding (samples : List (Nat × Nat)) : List Call :=
  samples.map fun s => ⟨true, true, s.1, s.2⟩

/-- A public mutating operation of the logger. -/
inductive Op where
  | add (c : Call)
  | clear (deleteOk openSave : Bool)

/-- One operation. -/
def step (l : HeartRateLogger) : Op → HeartRateLogger
  | .add c => AddMeasurement c.openWrite c.openSave c.now c.bpm l
  | .clear d s => Clear d s l

/-- A sequence of operations. -/
def run (ops : List Op) (l : HeartRateLogger) : HeartRateLogger :=
  ops.foldl step l

/-- The state of a log whose accepted samples so far are `S` and whose filesystem operations
all succeeded: the header counts them, and the file holds the header and, at slot
`j % maxEntries`, each of the last `maxEntries` samples `S[j]`. -/
def RingInv (l : HeartRateLogger) (S : List Entry) : Prop :=
  l.header.version = 1 ∧
  l.header.count = min S.length maxEntries ∧
  l.header.writeIndex = S.length % maxEntries ∧
  (S ≠ [] → ∃ f, l.fs = some f ∧ f.header = some l.header ∧
    ∀ j, j < S.length → S.length ≤ j + maxEntries → f.slots (j % maxEntries) = S[j]?)

end HeartRateLogger

/-! ## The type `float` (IEEE 754 binary32, round to nearest, ties to even)

The classifier computes in `float`.  A finite binary32 value is an integer multiple of
`2^-149` (the smallest subnormal), so a value is held as that integer: the number `a : Int`
stands for `a * 2^-149`.  Every operation computes the exact result and rounds it once to the
nearest value with a 24-bit significand, ties to even.  Overflow to infinity and NaN are not
represented: the classifier divides by counts that are at least 2, takes the root of a sum of
squares, and its values stay below `60 * 255 * 255`. -/

namespace Binary32

/-- The scale: `1.0f` is `2^149` units of `2^-149`. -/
def unitsPerOne : Nat := 2 ^ 149

/-- The number of binary digits of `n`, computed with `fuel` halvings at most. -/
def bitLengthAux : Nat → Nat → Nat
  | 0, _ => 0
  | fuel + 1, n => if n = 0 then 0 else bitLengthAux fuel (n / 2) + 1

/-- The number of binary digits of `n` (0 for 0). -/
def bitLength (n : Nat) : Nat :=
  bitLengthAux n n

/-- The integer nearest to `p / q` for `q > 0`, the even one of the two when `p / q` lies
halfway between two integers. -/
def roundHalfEven (p : Int) (q : Nat) : Int :=
  if 2 * (p % (q : Int)) < (q : Int) then p / (q : Int)
  else if 2 * (p % (q : Int)) > (q : Int) then p / (q : Int) + 1
  else if (p / (q : Int)) % 2 = 0 then p / (q : Int)
  else p / (q : Int) + 1

/-- Rounding of the exact value `p / q` units (`q > 0`) to binary32: when the integer part of
its magnitude has `L` binary digits, the representable values around it are the multiples of
`2^(L - 24)` units (of 1 unit when `L <= 24`, the subnormals and the first normal binade). -/
def round (p : Int) (q : Nat) : Int :=
  let quantum := 2 ^ (bitLength (p.natAbs / q) - 24)
  roundHalfEven p (q * quantum) * (quantum : Int)

/-- The conversion `static_cast<float>` of an unsigned integer, and the `float` literals
`0`, `2.0f`, `3.0f`, `6.0f`, `7.0f`. -/
def ofNat (n : Nat) : Int :=
  round ((n : Int) * (unitsPerOne : Int)) 1

/-- The `float` sum `a + b`. -/
def add (a b : Int) : Int :=
  round (a + b) 1

/-- The `float` difference `a - b`. -/
def sub (a b : Int) : Int :=
  round (a - b) 1

/-- The `float` product `a * b`. -/
def mul (a b : Int) : Int :=
  round (a * b) unitsPerOne

/-- The `float` quotient `a / b` for `b != 0`. -/
def div (a b : Int) : Int :=
  round (a * (unitsPerOne : Int) * b.sign) b.natAbs

/-- The integer square root, bit by bit from bit `b - 1` down to bit 0. -/
def isqrtAux : Nat → Nat → Nat → Nat
  | 0, r, _ => r
  | b + 1, r, n => isqrtAux b (if (r + 2 ^ b) * (r + 2 ^ b) ≤ n then r + 2 ^ b else r) n

/-- The integer square root: the largest `r` with `r * r <= n`. -/
def isqrt (n : Nat) : Nat :=
  isqrtAux (bitLength n / 2 + 1) 0 n

/-- The function `std::sqrt` on a `float` that is not negative, correctly rounded: the root of
`a` units of `2^-149` is the root of `a * 2^149`, in units; it lies between the multiples `t`
and `t + 1` of the quantum of its binade and is compared with their midpoint through the
squares. -/
def sqrt (a : Int) : Int :=
  let y := a.toNat * unitsPerOne
  let k := isqrt y
  let quantum := 2 ^ (bitLength k - 24)
  let t := k / quantum
  if 4 * y < ((2 * t + 1) * quantum) * ((2 * t + 1) * quantum) then
    ((t * quantum : Nat) : Int)
  else if 4 * y > ((2 * t + 1) * quantum) * ((2 * t + 1) * quantum) then
    (((t + 1) * quantum : Nat) : Int)
  else if t % 2 = 0 then ((t * quantum : Nat) : Int)
  else (((t + 1) * quantum : Nat) : Int)

/-- The rational number that the binary32 value `a` stands for. -/
def toRat (a : Int) : ℚ :=
  (a : ℚ) / (unitsPerOne : ℚ)

end Binary32

/-! ## The smart-alarm controller (`SmartAlarmController.h`, `SmartAlarmController.cpp`) -/

namespace SmartAlarmController

/-- The enumeration `SmartAlarmController::SleepPhase`. -/
inductive SleepPhase where
  | Unknown
  | Light
  | Deep
  | REM
deriving DecidableEq, Repr

/-- The record `SmartAlarmController::AlarmSettings` with its default member initialisers. -/
structure AlarmSettings where
  version : Nat := 1
  hours : Nat := 7
  minutes : Nat := 0
  padding : Nat := 0
  enabled : Bool := false
deriving DecidableEq, Repr

/-- The constant `SmartAlarmController::windowMinutes`. -/
abbrev windowMinutes : Nat := 30

/-- The constant `SmartAlarmController::requiredLightSleepChecks`. -/
abbrev requiredLightSleepChecks : Nat := 2

/-- Modelled from the spec: a scheduled timer of the external timer service (FreeRTOS
`TimerHandle_t`, spec 3.5 and 9) as the controller sees it: pending (`active`) or stopped, and
its period in ticks. -/
structure Timer where
  active : Bool := false
  period : Nat := 1
deriving DecidableEq, Repr

/-- Modelled from the spec: `xTimerStop`, cancelling a timer (spec 5, cancellation). -/
def xTimerStop (t : Timer) : Timer :=
  { t with active := false }

/-- Modelled from the spec: `xTimerStart`, (re)starting a timer with its current period. -/
def xTimerStart (t : Timer) : Timer :=
  { t with active := true }

/-- Modelled from the spec: `xTimerChangePeriod`, rescheduling a timer with a new period in
ticks; the timer is pending afterwards. -/
def xTimerChangePeriod (_t : Timer) (ticks : Nat) : Timer :=
  { active := true, period := ticks }

/-- The message a wake posts on the system task (`System::Messages::SetOffSmartAlarm`). -/
inductive Message where
  | SetOffSmartAlarm
deriving DecidableEq, Repr

/-- Modelled from the spec: the fields of the C library's broken-down time that
`ScheduleAlarm` touches (spec 6.2, `brokenDown`).  The calendar date (`tm_year`, `tm_mon`,
`tm_mday`) is held as the number of the local day. -/
structure Tm where
  day : Int
  tm_hour : Int
  tm_min : Int
  tm_sec : Int
deriving DecidableEq, Repr

/-- Modelled from the spec: `std::localtime` (spec 6.2) for a local time that runs at a fixed
offset of `utcOffset` seconds from UTC, i.e. without DST shifts. -/
def localtime (utcOffset : Int) (t : Int) : Tm :=
  { day := (t + utcOffset) / 86400
    tm_hour := (t + utcOffset) % 86400 / 3600
    tm_min := (t + utcOffset) % 3600 / 60
    tm_sec := (t + utcOffset) % 60 }

/-- Modelled from the spec: `std::mktime` (spec 6.2, the inverse of `brokenDown`) for the same
local time; out-of-range fields carry over. -/
def mktime (utcOffset : Int) (tm : Tm) : Int :=
  tm.day * 86400 + tm.tm_hour * 3600 + tm.tm_min * 60 + tm.tm_sec - utcOffset

/-- The cast `static_cast<int32_t>`. -/
def toInt32 (x : Int) : Int :=
  (x + 2147483648) % 4294967296 - 2147483648

/-- The cast `static_cast<TickType_t>` (`uint32_t`). -/
def toTickType (x : Int) : Nat :=
  (x % 4294967296).toNat

end SmartAlarmController

/-- The class `SmartAlarmController`: its data members, the three timers behind its timer
handles (created by `Init`), and the objects it holds by reference: the settings store's
background heart-rate interval (`settings`), the messages pushed to the system task
(`messages`, oldest first), the heart-rate log (`hrLogger`) and the contents of the settings
file `/.system/smartalarm.dat` (`settingsFile`: `none` when there is no such file, `some none`
when it is shorter than a record). -/
structure SmartAlarmController where
  alarmSettings : SmartAlarmController.AlarmSettings := {}
  alerting : Bool := false
  inWindow : Bool := false
  currentPhase : SmartAlarmController.SleepPhase := .Unknown
  consecutiveLightChecks : Nat := 0
  previousPhase : SmartAlarmController.SleepPhase := .Unknown
  savedBackgroundInterval : Nat := 0
  settingsChanged : Bool := false
  windowStartTimer : SmartAlarmController.Timer := {}
  alarmDeadlineTimer : SmartAlarmController.Timer := {}
  phaseCheckTimer : SmartAlarmController.Timer := {}
  settings : Option Nat := none
  messages : List SmartAlarmController.Message := []
  hrLogger : HeartRateLogger := { fs := none }
  settingsFile : Option (Option SmartAlarmController.AlarmSettings) := none

namespace SmartAlarmController

/-- The method `SmartAlarmController::SetAlarmTime`. -/
def SetAlarmTime (hours minutes : Nat) (s : SmartAlarmController) : SmartAlarmController :=
  if s.alarmSettings.hours ≠ hours ∨ s.alarmSettings.minutes ≠ minutes then
    { s with
      alarmSettings := { s.alarmSettings with hours := hours, minutes := minutes }
      settingsChanged := true }
  else s

/-- The method `SmartAlarmController::StopTimers` (the timers exist once `Init` has run). -/
def StopTimers (s : SmartAlarmController) : SmartAlarmController :=
  { s with
    windowStartTimer := xTimerStop s.windowStartTimer
    alarmDeadlineTimer := xTimerStop s.alarmDeadlineTimer
    phaseCheckTimer := xTimerStop s.phaseCheckTimer }

/-- The method `SmartAlarmController::EnableBackgroundHR`. -/
def EnableBackgroundHR (s : SmartAlarmController) : SmartAlarmController :=
  let s1 :=
    if s.savedBackgroundInterval = 0 then
      { s with
        savedBackgroundInterval :=
          match s.settings with
          | some v => v
          | none => 65535 }
    else s
  { s1 with settings := some 60 }

/-- The method `SmartAlarmController::OnWindowStart`. -/
def OnWindowStart (s : SmartAlarmController) : SmartAlarmController :=
  { s with
    inWindow := true
    consecutiveLightChecks := 0
    previousPhase := .Unknown
    currentPhase := .Unknown
    phaseCheckTimer := xTimerStart s.phaseCheckTimer }

/-- The local `alarmEpoch` of `ScheduleAlarm`, after the "already passed today" adjustment.
`ttNow` is the clock reading, `utcOffset` the offset of local time. -/
def alarmEpoch (utcOffset ttNow : Int) (s : SmartAlarmController) : Int :=
  let tmAlarm := localtime utcOffset ttNow
  let tmAlarm :=
    { tmAlarm with
      tm_hour := (s.alarmSettings.hours : Int)
      tm_min := (s.alarmSettings.minutes : Int)
      tm_sec := 0 }
  let alarmEpoch := mktime utcOffset tmAlarm
  if alarmEpoch ≤ ttNow then alarmEpoch + 24 * 60 * 60 else alarmEpoch

/-- The local `secondsToAlarm` of `ScheduleAlarm`. -/
def secondsToAlarm (utcOffset ttNow : Int) (s : SmartAlarmController) : Int :=
  toInt32 (alarmEpoch utcOffset ttNow s - ttNow)

/-- The local `secondsToWindow` of `ScheduleAlarm`, after the clamp at 0. -/
def secondsToWindow (utcOffset ttNow : Int) (s : SmartAlarmController) : Int :=
  let secondsToWindow := secondsToAlarm utcOffset ttNow s - (windowMinutes * 60 : Nat)
  if secondsToWindow < 0 then 0 else secondsToWindow

/-- The method `SmartAlarmController::ScheduleAlarm`.  `configTICK_RATE_HZ` is the tick rate
of the timer service (a constant of the build configuration), `utcOffset` the offset of local
time, `ttNow` the clock reading `to_time_t(dateTime.CurrentDateTime())`. -/
def ScheduleAlarm (configTICK_RATE_HZ : Nat) (utcOffset ttNow : Int)
    (s : SmartAlarmController) : SmartAlarmController :=
  let s1 := StopTimers s
  let secondsToAlarm := secondsToAlarm utcOffset ttNow s1
  let secondsToWindow := secondsToWindow utcOffset ttNow s1
  let s2 :=
    if secondsToAlarm > 0 then
      { s1 with
        alarmDeadlineTimer :=
          xTimerStart (xTimerChangePeriod s1.alarmDeadlineTimer
            (toTickType secondsToAlarm * configTICK_RATE_HZ % 4294967296)) }
    else s1
  let s3 :=
    if secondsToWindow > 0 then
      { s2 with
        windowStartTimer :=
          xTimerStart (xTimerChangePeriod s2.windowStartTimer
            (toTickType secondsToWindow * configTICK_RATE_HZ % 4294967296)) }
    else OnWindowStart s2
  let s4 :=
    if ¬ s3.alarmSettings.enabled then
      { s3 with
        alarmSettings := { s3.alarmSettings with enabled := true }
        settingsChanged := true }
    else s3
  EnableBackgroundHR s4

/-- Spec side (scheduling algorithm): today's `H:M:00` in local time, as epoch seconds: the
local midnight before `nowSec` plus `H` hours and `M` minutes. -/
def todayAt (utcOffset nowSec : Int) (H M : Nat) : Int :=
  nowSec - (nowSec + utcOffset) % 86400 + (H : Int) * 3600 + (M : Int) * 60

/-- Spec side (scheduling algorithm): the next occurrence of `H:M:00`: today's if that is
strictly later than `nowSec`, tomorrow's (24 h later) otherwise. -/
def nextOccurrence (utcOffset nowSec : Int) (H M : Nat) : Int :=
  if nowSec < todayAt utcOffset nowSec H M then todayAt utcOffset nowSec H M
  else todayAt utcOffset nowSec H M + 86400

/-- The method `SmartAlarmController::SetEnabled`. -/
def SetEnabled (enabled : Bool) (s : SmartAlarmController) : SmartAlarmController :=
  if s.alarmSettings.enabled ≠ enabled then
    { s with
      alarmSettings := { s.alarmSettings with enabled := enabled }
      settingsChanged := true }
  else s

/-- The method `SmartAlarmController::RestoreBackgroundHR`. -/
def RestoreBackgroundHR (s : SmartAlarmController) : SmartAlarmController :=
  let s1 :=
    if s.savedBackgroundInterval = 65535 then { s with settings := none }
    else if s.savedBackgroundInterval ≠ 0 then
      { s with settings := some s.savedBackgroundInterval }
    else s
  { s1 with savedBackgroundInterval := 0 }

/-- The method `SmartAlarmController::TriggerWake`. -/
def TriggerWake (s : SmartAlarmController) : SmartAlarmController :=
  let s1 := { s with alerting := true }
  let s2 := RestoreBackgroundHR s1
  { s2 with messages := s2.messages ++ [Message.SetOffSmartAlarm] }

/-- The method `SmartAlarmController::DisableAlarm`. -/
def DisableAlarm (s : SmartAlarmController) : SmartAlarmController :=
  let s1 := StopTimers s
  let s2 := RestoreBackgroundHR s1
  let s3 :=
    { s2 with
      inWindow := false
      currentPhase := .Unknown
      consecutiveLightChecks := 0
      previousPhase := .Unknown }
  if s3.alarmSettings.enabled then
    { s3 with
      alarmSettings := { s3.alarmSettings with enabled := false }
      settingsChanged := true }
  else s3

/-- The method `SmartAlarmController::OnAlarmDeadline`. -/
def OnAlarmDeadline (s : SmartAlarmController) : SmartAlarmController :=
  let s1 := { s with phaseCheckTimer := xTimerStop s.phaseCheckTimer }
  let s2 := { s1 with inWindow := false }
  if ¬ s2.alerting then TriggerWake s2 else s2

/-- The summing loops of `AnalyzeSleepPhase`: `sum += entries[i].bpm` over a run of cells
(at most 60 eight-bit values, so the `uint32_t` accumulator cannot wrap). -/
def sumBpm (es : List HeartRateLogger.Entry) : Nat :=
  (es.map HeartRateLogger.Entry.bpm).sum

/-- The method `SmartAlarmController::AnalyzeSleepPhase`.  Its `float` variables are binary32
values (`Binary32`), every conversion, `+`, `-`, `*`, `/` and `std::sqrt` rounding once, and
`varianceSum` accumulating in index order.  `readOk` and `baselineReadOk` are the statuses of
the `FileOpen` calls of the two `GetRecentEntries` calls; `entries` and `baselineEntries` are
the initial contents of the two local arrays. -/
def AnalyzeSleepPhase (readOk baselineReadOk : Bool)
    (entries baselineEntries : Nat → HeartRateLogger.Entry) (hrLogger : HeartRateLogger) :
    SleepPhase :=
  let analysisWindow := 10
  let minEntries := 5
  let r := HeartRateLogger.GetRecentEntries readOk hrLogger entries analysisWindow
  let count := r.2
  if count < minEntries then .Unknown
  else
    let entries := HeartRateLogger.returned r
    let sum := sumBpm entries
    let mean := Binary32.div (Binary32.ofNat sum) (Binary32.ofNat count)
    let varianceSum :=
      entries.foldl
        (fun varianceSum e =>
          let diff := Binary32.sub (Binary32.ofNat e.bpm) mean
          Binary32.add varianceSum (Binary32.mul diff diff))
        (Binary32.ofNat 0)
    let stddev := Binary32.sqrt (Binary32.div varianceSum (Binary32.ofNat count))
    let half := count / 2
    let firstHalfSum := sumBpm (entries.take half)
    let secondHalfSum := sumBpm (entries.drop half)
    let firstHalfMean := Binary32.div (Binary32.ofNat firstHalfSum) (Binary32.ofNat half)
    let secondHalfMean :=
      Binary32.div (Binary32.ofNat secondHalfSum) (Binary32.ofNat (count - half))
    let trend := Binary32.sub secondHalfMean firstHalfMean
    let baseline :=
      if HeartRateLogger.GetEntryCount hrLogger > analysisWindow then
        let rb := HeartRateLogger.GetRecentEntries baselineReadOk hrLogger baselineEntries 60
        let baselineCount := rb.2
        if baselineCount > analysisWindow then
          Binary32.div (Binary32.ofNat (sumBpm (HeartRateLogger.returned rb)))
            (Binary32.ofNat baselineCount)
        else mean
      else mean
    if mean < Binary32.sub baseline (Binary32.ofNat 6) ∧ stddev < Binary32.ofNat 3 then .Deep
    else if stddev > Binary32.ofNat 7 then .REM
    else if stddev ≥ Binary32.ofNat 3 ∧ stddev ≤ Binary32.ofNat 7 then .Light
    else if trend > Binary32.ofNat 2 ∧ mean > Binary32.sub baseline (Binary32.ofNat 6) then
      .Light
    else if stddev < Binary32.ofNat 3 ∧ mean ≥ Binary32.sub baseline (Binary32.ofNat 6) then
      .Light
    else .Deep

/-- The method `SmartAlarmController::CheckSleepPhase`; the parameters are those of the
`AnalyzeSleepPhase` call.  The counter `consecutiveLightChecks` is a `uint8_t`. -/
def CheckSleepPhase (readOk baselineReadOk : Bool)
    (entries baselineEntries : Nat → HeartRateLogger.Entry) (s : SmartAlarmController) :
    SmartAlarmController :=
  if s.alerting ∨ ¬ s.inWindow then s
  else
    let s1 := { s with previousPhase := s.currentPhase }
    let s2 :=
      { s1 with
        currentPhase := AnalyzeSleepPhase readOk baselineReadOk entries baselineEntries s1.hrLogger }
    if s2.currentPhase = SleepPhase.Light then
      let s3 := { s2 with consecutiveLightChecks := (s2.consecutiveLightChecks + 1) % 256 }
      let transitionToLight :=
        s3.previousPhase = SleepPhase.Deep ∨ s3.previousPhase = SleepPhase.REM
      let sustainedLight := s3.consecutiveLightChecks ≥ requiredLightSleepChecks
      if transitionToLight ∨ sustainedLight then
        let s4 := { s3 with phaseCheckTimer := xTimerStop s3.phaseCheckTimer }
        let s5 := { s4 with alarmDeadlineTimer := xTimerStop s4.alarmDeadlineTimer }
        let s6 := { s5 with inWindow := false }
        TriggerWake s6
      else s3
    else { s2 with consecutiveLightChecks := 0 }

/-- The method `SmartAlarmController::StopAlerting`. -/
def StopAlerting (s : SmartAlarmController) : SmartAlarmController :=
  { s with
    alerting := false
    inWindow := false
    currentPhase := .Unknown
    consecutiveLightChecks := 0
    previousPhase := .Unknown
    alarmSettings := { s.alarmSettings with enabled := false }
    settingsChanged := true }

/-- The method `SmartAlarmController::Hours`. -/
def Hours (s : SmartAlarmController) : Nat :=
  s.alarmSettings.hours

/-- The method `SmartAlarmController::Minutes`. -/
def Minutes (s : SmartAlarmController) : Nat :=
  s.alarmSettings.minutes

/-- The method `SmartAlarmController::IsEnabled`. -/
def IsEnabled (s : SmartAlarmController) : Bool :=
  s.alarmSettings.enabled

/-- The method `SmartAlarmController::IsAlerting`. -/
def IsAlerting (s : SmartAlarmController) : Bool :=
  s.alerting

/-- The method `SmartAlarmController::IsInWindow`. -/
def IsInWindow (s : SmartAlarmController) : Bool :=
  s.inWindow

/-- The method `SmartAlarmController::CurrentPhase`. -/
def CurrentPhase (s : SmartAlarmController) : SleepPhase :=
  s.currentPhase

/-- The method `SmartAlarmController::SaveSettingsToFile`; `openOk` is the status of its
`FileOpen`. -/
def SaveSettingsToFile (openOk : Bool) (s : SmartAlarmController) : SmartAlarmController :=
  if openOk then { s with settingsFile := some (some s.alarmSettings) } else s

/-- The method `SmartAlarmController::SaveSettings`. -/
def SaveSettings (openOk : Bool) (s : SmartAlarmController) : SmartAlarmController :=
  if s.settingsChanged then
    { SaveSettingsToFile openOk s with settingsChanged := false }
  else s

/-- The method `SmartAlarmController::LoadSettingsFromFile`; `openOk` is the status of its
`FileOpen` on an existing file. -/
def LoadSettingsFromFile (openOk : Bool) (s : SmartAlarmController) : SmartAlarmController :=
  match (if openOk then s.settingsFile else none) with
  | none => s
  | some none => s
  | some (some buffer) => if buffer.version = 1 then { s with alarmSettings := buffer } else s

/-! ### Spec side: the classification rules -/

/-- Spec side (sleep-phase classifier): the six ordered rules, first match wins, over any
ordered field of values. -/
def classifyRules {α : Type} [LinearOrderedField α] (mean stddev trend baseline : α) :
    SleepPhase :=
  if mean < baseline - 6 ∧ stddev < 3 then .Deep
  else if stddev > 7 then .REM
  else if 3 ≤ stddev ∧ stddev ≤ 7 then .Light
  else if trend > 2 ∧ mean > baseline - 6 then .Light
  else if stddev < 3 ∧ mean ≥ baseline - 6 then .Light
  else .Deep

/-- Spec side (sleep-phase classifier): `mean = Σ bpm / N`. -/
def specMean (es : List HeartRateLogger.Entry) : ℚ :=
  (es.map fun e => (e.bpm : ℚ)).sum / (es.length : ℚ)

/-- Spec side (sleep-phase classifier): the population variance `Σ (bpm − mean)² / N`, whose
square root is `stddev`. -/
def specVariance (es : List HeartRateLogger.Entry) : ℚ :=
  (es.map fun e => ((e.bpm : ℚ) - specMean es) ^ 2).sum / (es.length : ℚ)

/-- Spec side (sleep-phase classifier): `trend = secondHalfMean − firstHalfMean`, the first
half being the first `N / 2` entries (integer division) and the second half the rest. -/
def specTrend (es : List HeartRateLogger.Entry) : ℚ :=
  specMean (es.drop (es.length / 2)) - specMean (es.take (es.length / 2))

/-- Spec side (sleep-phase classifier): the baseline, the mean of the up-to-60 newest entries
when more than 10 entries are logged, else the mean of the recent entries. -/
def specBaseline (logged : Nat) (recent newest60 : List HeartRateLogger.Entry) : ℚ :=
  if logged > 10 then specMean newest60 else specMean recent

/-- Spec side (sleep-phase classifier): the six ordered rules, first match wins, with the
threshold `low` in the place of `baseline − 6.0`. -/
def classifyRulesAt {α : Type} [LinearOrderedField α] (mean stddev trend low : α) :
    SleepPhase :=
  if mean < low ∧ stddev < 3 then .Deep
  else if stddev > 7 then .REM
  else if 3 ≤ stddev ∧ stddev ≤ 7 then .Light
  else if trend > 2 ∧ mean > low then .Light
  else if stddev < 3 ∧ mean ≥ low then .Light
  else .Deep

/-- Spec side (sleep-phase classifier, in binary32): `mean = Σ bpm / N`, the integer sum and
the count converted to `float` and divided. -/
def roundedMean (es : List HeartRateLogger.Entry) : Int :=
  Binary32.div (Binary32.ofNat (es.map HeartRateLogger.Entry.bpm).sum)
    (Binary32.ofNat es.length)

/-- Spec side (sleep-phase classifier, in binary32): `Σ (bpm − mean)²`, each difference, each
square and each partial sum rounded, the terms added in chronological order. -/
def roundedVarianceSum (es : List HeartRateLogger.Entry) : Int :=
  es.foldl
    (fun acc e =>
      Binary32.add acc
        (Binary32.mul (Binary32.sub (Binary32.ofNat e.bpm) (roundedMean es))
          (Binary32.sub (Binary32.ofNat e.bpm) (roundedMean es))))
    (Binary32.ofNat 0)

/-- Spec side (sleep-phase classifier, in binary32): `stddev = sqrt(Σ (bpm − mean)² / N)`. -/
def roundedStddev (es : List HeartRateLogger.Entry) : Int :=
  Binary32.sqrt (Binary32.div (roundedVarianceSum es) (Binary32.ofNat es.length))

/-- Spec side (sleep-phase classifier, in binary32): `trend = secondHalfMean − firstHalfMean`,
the first half being the first `N / 2` entries (integer division). -/
def roundedTrend (es : List HeartRateLogger.Entry) : Int :=
  Binary32.sub (roundedMean (es.drop (es.length / 2))) (roundedMean (es.take (es.length / 2)))

/-- Spec side (sleep-phase classifier, in binary32): the baseline, the mean of the up-to-60
newest entries when more than 10 entries are logged, else the mean of the recent entries. -/
def roundedBaseline (logged : Nat) (recent newest60 : List HeartRateLogger.Entry) : Int :=
  if logged > 10 then roundedMean newest60 else roundedMean recent

/-! ### Runs of the controller -/

/-- What happens to an armed controller without the user: the window timer's callback, a tick
of the phase-check timer (with the parameters of its `AnalyzeSleepPhase` call), and the sensor
feed changing the heart-rate log. -/
inductive Background where
  | windowStart
  | phaseCheck (readOk baselineReadOk : Bool)
      (entries baselineEntries : Nat → HeartRateLogger.Entry)
  | logUpdate (l : HeartRateLogger)

/-- One background step. -/
def background (s : SmartAlarmController) : Background → SmartAlarmController
  | .windowStart => OnWindowStart s
  | .phaseCheck r b e be => CheckSleepPhase r b e be s
  | .logUpdate l => { s with hrLogger := l }

/-- A sequence of background steps. -/
def backgrounds (bs : List Background) (s : SmartAlarmController) : SmartAlarmController :=
  bs.foldl background s

/-- Modelled from the spec: the controller inside the serialised system of spec 5, with the
clock (epoch seconds, also the time base of the timer service), the clock reading at which the
window timer was last started, and, as a record for the claims, the `alarmEpoch` computed by the
most recent `ScheduleAlarm`. -/
structure Sys where
  ctrl : SmartAlarmController
  clock : Int
  windowStartedAt : Int
  lastAlarmEpoch : Int

/-- An event of the serialised system: time passing, a public operation, the sensor feed
changing the heart-rate log, or the expiry of one of the three timers. -/
inductive Event where
  | advance (seconds : Nat)
  | setAlarmTime (hours minutes : Nat)
  | setEnabled (enabled : Bool)
  | scheduleAlarm
  | disableAlarm
  | stopAlerting
  | saveSettings (openOk : Bool)
  | logUpdate (l : HeartRateLogger)
  | windowTimer
  | deadlineTimer
  | phaseTimer (readOk baselineReadOk : Bool)
      (entries baselineEntries : Nat → HeartRateLogger.Entry)

/-- Modelled from the spec: one event of the serialised system (spec 5 and 9).  A timer's
callback runs only while that timer is pending; the one-shot window timer moreover only once
its period (in ticks, `configTICK_RATE_HZ` per second) has elapsed since it was started, and a
one-shot timer is stopped by its expiry.  The `uint8_t` parameters of `SetAlarmTime` are
reduced modulo 256. -/
def Sys.step (configTICK_RATE_HZ : Nat) (utcOffset : Int) (sys : Sys) : Event → Sys
  | .advance seconds => { sys with clock := sys.clock + seconds }
  | .setAlarmTime hours minutes =>
    { sys with ctrl := SetAlarmTime (hours % 256) (minutes % 256) sys.ctrl }
  | .setEnabled enabled => { sys with ctrl := SetEnabled enabled sys.ctrl }
  | .scheduleAlarm =>
    { sys with
      ctrl := ScheduleAlarm configTICK_RATE_HZ utcOffset sys.clock sys.ctrl
      windowStartedAt := sys.clock
      lastAlarmEpoch := alarmEpoch utcOffset sys.clock sys.ctrl }
  | .disableAlarm => { sys with ctrl := DisableAlarm sys.ctrl }
  | .stopAlerting => { sys with ctrl := StopAlerting sys.ctrl }
  | .saveSettings openOk => { sys with ctrl := SaveSettings openOk sys.ctrl }
  | .logUpdate l => { sys with ctrl := { sys.ctrl with hrLogger := l } }
  | .windowTimer =>
    if sys.ctrl.windowStartTimer.active = true ∧
        sys.ctrl.windowStartTimer.period ≤
          configTICK_RATE_HZ * (sys.clock - sys.windowStartedAt).toNat then
      { sys with
        ctrl := OnWindowStart
          { sys.ctrl with windowStartTimer := xTimerStop sys.ctrl.windowStartTimer } }
    else sys
  | .deadlineTimer =>
    if sys.ctrl.alarmDeadlineTimer.active = true then
      { sys with
        ctrl := OnAlarmDeadline
          { sys.ctrl with alarmDeadlineTimer := xTimerStop sys.ctrl.alarmDeadlineTimer } }
    else sys
  | .phaseTimer r b e be =>
    if sys.ctrl.phaseCheckTimer.active = true then
      { sys with ctrl := CheckSleepPhase r b e be sys.ctrl }
    else sys

/-- A sequence of events of the serialised system. -/
def Sys.run (configTICK_RATE_HZ : Nat) (utcOffset : Int) (evs : List Event) (sys : Sys) : Sys :=
  evs.foldl (Sys.step configTICK_RATE_HZ utcOffset) sys

/-- Modelled from the spec: the FreeRTOS macro `pdMS_TO_TICKS`, milliseconds to ticks in
`TickType_t` arithmetic (spec 4.2: the phase-check timer is periodic every 60 s). -/
def pdMS_TO_TICKS (configTICK_RATE_HZ ms : Nat) : Nat :=
  ms * configTICK_RATE_HZ % 4294967296 / 1000

/-- The method `SmartAlarmController::Init`: the three timers are created stopped, the settings
file is loaded (`openOk` is the status of its `FileOpen`), and an enabled alarm is scheduled. -/
def Init (configTICK_RATE_HZ : Nat) (utcOffset ttNow : Int) (openOk : Bool)
    (s : SmartAlarmController) : SmartAlarmController :=
  let s1 :=
    { s with
      windowStartTimer := { active := false, period := 1 }
      alarmDeadlineTimer := { active := false, period := 1 }
      phaseCheckTimer := { active := false, period := pdMS_TO_TICKS configTICK_RATE_HZ (60 * 1000) } }
  let s2 := LoadSettingsFromFile openOk s1
  if s2.alarmSettings.enabled then ScheduleAlarm configTICK_RATE_HZ utcOffset ttNow s2
  else s2

/-- The method `SmartAlarmController::CheckSleepPhase` with the value returned by its
`AnalyzeSleepPhase` call given as `phase`. -/
def CheckSleepPhaseWith (phase : SleepPhase) (s : SmartAlarmController) : SmartAlarmController :=
  if s.alerting ∨ ¬ s.inWindow then s
  else
    let s1 := { s with previousPhase := s.currentPhase }
    let s2 := { s1 with currentPhase := phase }
    if s2.currentPhase = SleepPhase.Light then
      let s3 := { s2 with consecutiveLightChecks := (s2.consecutiveLightChecks + 1) % 256 }
      let transitionToLight :=
        s3.previousPhase = SleepPhase.Deep ∨ s3.previousPhase = SleepPhase.REM
      let sustainedLight := s3.consecutiveLightChecks ≥ requiredLightSleepChecks
      if transitionToLight ∨ sustainedLight then
        let s4 := { s3 with phaseCheckTimer := xTimerStop s3.phaseCheckTimer }
        let s5 := { s4 with alarmDeadlineTimer := xTimerStop s4.alarmDeadlineTimer }
        let s6 := { s5 with inWindow := false }
        TriggerWake s6
      else s3
    else { s2 with consecutiveLightChecks := 0 }

/-- Successive phase checks to which the classifier delivers the results `phases`, in order. -/
def checksWith (phases : List SleepPhase) (s : SmartAlarmController) : SmartAlarmController :=
  phases.foldl (fun t p => CheckSleepPhaseWith p t) s

/-- Spec side (early-wake characterisation): whether the sequence of classifier results
`phases`, preceded by the result `before`, holds a result `Light` whose predecessor is not
`Unknown`. -/
def hasWakePairFrom (before : SleepPhase) : List SleepPhase → Bool
  | [] => false
  | p :: rest =>
    (decide (before ≠ SleepPhase.Unknown) && decide (p = SleepPhase.Light)) ||
      hasWakePairFrom p rest

/-- The alarm settings a freshly constructed controller holds after `LoadSettingsFromFile` on
the settings file contents `file`, the open succeeding. -/
def loadedSettings (file : Option (Option AlarmSettings)) : AlarmSettings :=
  (LoadSettingsFromFile true { settingsFile := file }).alarmSettings

/-- The constructor `SmartAlarmController::SmartAlarmController`: every data member takes its
default member initialiser; the objects held by reference (the settings store, the system
task's messages, the heart-rate log, the filesystem with the settings file) are given. -/
def create (settings : Option Nat) (messages : List Message) (hrLogger : HeartRateLogger)
    (settingsFile : Option (Option AlarmSettings)) : SmartAlarmController :=
  { settings := settings, messages := messages, hrLogger := hrLogger,
    settingsFile := settingsFile }

/-- Modelled from the spec: the serialised system right after a freshly constructed controller
has run `Init` at clock reading `now`, the open of the settings file succeeding.  The two
records of the window timer's start are those of the `ScheduleAlarm` call of `Init`, if any. -/
def boot (configTICK_RATE_HZ : Nat) (utcOffset now : Int) (settings : Option Nat)
    (messages : List Message) (hrLogger : HeartRateLogger)
    (settingsFile : Option (Option AlarmSettings)) : Sys :=
  { ctrl := Init configTICK_RATE_HZ utcOffset now true
      (create settings messages hrLogger settingsFile)
    clock := now
    windowStartedAt := now
    lastAlarmEpoch :=
      alarmEpoch utcOffset now
        (LoadSettingsFromFile true (create settings messages hrLogger settingsFile)) }

/-- Spec side (dirty flag): the in-RAM record carries version 1, and while `settingsChanged` is
false it equals what a load of the settings file yields (the record of the file, or the
defaults when the file holds no record that a load accepts). -/
def SettingsInv (s : SmartAlarmController) : Prop :=
  s.alarmSettings.version = 1 ∧
    (s.settingsChanged = false → s.alarmSettings = loadedSettings s.settingsFile)

/-- An operation's effect on the persisted settings, from state `s` to state `t`: the file and
the record's version are untouched, and either `settingsChanged` is set afterwards or both it
and the in-RAM record are as before. -/
def SettingsStep (s t : SmartAlarmController) : Prop :=
  t.settingsFile = s.settingsFile ∧ t.alarmSettings.version = s.alarmSettings.version ∧
    (t.settingsChanged = true ∨
      (t.alarmSettings = s.alarmSettings ∧ t.settingsChanged = s.settingsChanged))

/-- An operation's effect on the wake message, from state `s` to state `t`: either nothing is
posted and `alerting` is as before, or `alerting` goes from false to true and exactly one wake
message is posted. -/
def WakeStep (s t : SmartAlarmController) : Prop :=
  (t.messages = s.messages ∧ t.alerting = s.alerting) ∨
    (s.alerting = false ∧ t.alerting = true ∧
      t.messages = s.messages ++ [Message.SetOffSmartAlarm])

/-- An example log: five samples of 60 bpm, one minute apart, in slots 0 to 4 of the file. -/
def steadyLog : HeartRateLogger :=
  { fs := some ⟨some ⟨1, 5, 5⟩, fun i => if i < 5 then some ⟨1000 + 60 * i, 60⟩ else none⟩
    header := ⟨1, 5, 5⟩ }

/-- A log of `bpms.length` samples, one minute apart from epoch second 1000, in slots 0
onwards of the file (fewer than 480 samples). -/
def logOf (bpms : List Nat) : HeartRateLogger :=
  { fs := some ⟨some ⟨1, bpms.length, bpms.length⟩,
      fun i => (bpms[i]?).map fun bpm => ⟨1000 + 60 * i, bpm⟩⟩
    header := ⟨1, bpms.length, bpms.length⟩ }

/-- An example log of 20 samples: ten around 72 bpm, then ten around 60 bpm, whose mean 60.3
is exactly 6 below the mean 66.3 of all twenty. -/
def settlingLog : HeartRateLogger :=
  logOf [72, 72, 72, 72, 72, 72, 72, 73, 73, 73, 60, 60, 60, 61, 60, 60, 61, 60, 60, 61]

/-- An example log of 15 samples: five around 77 bpm, then ten around 59 bpm, whose mean 58.8
is exactly 6 below the mean 64.8 of all fifteen. -/
def restingLog : HeartRateLogger :=
  logOf [76, 77, 77, 77, 77, 58, 58, 59, 59, 59, 59, 59, 59, 59, 59]

end SmartAlarmController

namespace HeartRateLogger

/-! ## Basic facts about `AddMeasurement` -/

theorem AddMeasurement_of_rejected (ow os : Bool) (now bpm : Nat) (l : HeartRateLogger)
    (h : accepted l now bpm = false) : AddMeasurement ow os now bpm l = l := by
  unfold accepted at h
  unfold AddMeasurement
  by_cases hb : bpm = 0
  · simp [hb]
  · simp only [hb, if_false]
    simp [hb] at h
    rw [if_pos]
    exact h

theorem AddMeasurement_of_accepted (ow os : Bool) (now bpm : Nat) (l : HeartRateLogger)
    (h : accepted l now bpm = true) :
    AddMeasurement ow os now bpm l =
      SaveHeader os
        { WriteEntry ow ⟨now % 4294967296, bpm⟩ { l with lastLogTimestamp := now % 4294967296 } with
          header :=
            { l.header with
              writeIndex := (l.header.writeIndex + 1) % maxEntries
              count := if l.header.count < maxEntries then l.header.count + 1 else l.header.count } } := by
  unfold accepted at h
  unfold AddMeasurement
  simp at h
  obtain ⟨hb, ht⟩ := h
  simp only [hb, if_false]
  rw [if_neg]
  · cases ow <;> cases hfs : l.fs <;> simp [WriteEntry, openCreate, hfs]
  · rintro ⟨h0, hlt⟩
    rcases ht with ht | ht
    · exact h0 ht
    · omega

theorem SaveHeader_header (os : Bool) (l : HeartRateLogger) : (SaveHeader os l).header = l.header := by
  unfold SaveHeader
  cases h : openCreate os l.fs <;> simp

theorem SaveHeader_lastLogTimestamp (os : Bool) (l : HeartRateLogger) :
    (SaveHeader os l).lastLogTimestamp = l.lastLogTimestamp := by
  unfold SaveHeader
  cases h : openCreate os l.fs <;> simp

theorem WriteEntry_header (ow : Bool) (e : Entry) (l : HeartRateLogger) :
    (WriteEntry ow e l).header = l.header := by
  unfold WriteEntry
  cases h : openCreate ow l.fs <;> simp

theorem WriteEntry_lastLogTimestamp (ow : Bool) (e : Entry) (l : HeartRateLogger) :
    (WriteEntry ow e l).lastLogTimestamp = l.lastLogTimestamp := by
  unfold WriteEntry
  cases h : openCreate ow l.fs <;> simp

theorem AddMeasurement_accepted_header (ow os : Bool) (now bpm : Nat) (l : HeartRateLogger)
    (h : accepted l now bpm = true) :
    (AddMeasurement ow os now bpm l).header =
      { l.header with
        writeIndex := (l.header.writeIndex + 1) % maxEntries
        count := if l.header.count < maxEntries then l.header.count + 1 else l.header.count } := by
  rw [AddMeasurement_of_accepted ow os now bpm l h, SaveHeader_header]

theorem AddMeasurement_accepted_last (ow os : Bool) (now bpm : Nat) (l : HeartRateLogger)
    (h : accepted l now bpm = true) :
    (AddMeasurement ow os now bpm l).lastLogTimestamp = now % 4294967296 := by
  rw [AddMeasurement_of_accepted ow os now bpm l h, SaveHeader_lastLogTimestamp]
  simp [WriteEntry_lastLogTimestamp]

theorem AddMeasurement_accepted_fs (now bpm : Nat) (l : HeartRateLogger)
    (h : accepted l now bpm = true) :
    (AddMeasurement true true now bpm l).fs =
      some (((l.fs.getD HrFile.empty).writeSlot l.header.writeIndex ⟨now % 4294967296, bpm⟩).writeHeader
        (AddMeasurement true true now bpm l).header) := by
  rw [AddMeasurement_accepted_header true true now bpm l h, AddMeasurement_of_accepted true true now bpm l h]
  simp [SaveHeader, WriteEntry, openCreate]

end HeartRateLogger

namespace HeartRateLogger

/-! ## The ring invariant -/

theorem maxEntries_eq : maxEntries = 480 := rfl

theorem RingInv_fresh (fs : Option HrFile) : RingInv { fs := fs } [] := by
  simp [RingInv]

theorem RingInv_add (l : HeartRateLogger) (S : List Entry) (now bpm : Nat)
    (hinv : RingInv l S) (h : accepted l now bpm = true) :
    RingInv (AddMeasurement true true now bpm l) (S ++ [⟨now % 4294967296, bpm⟩]) := by
  obtain ⟨hv, hc, hw, hf⟩ := hinv
  have hH := AddMeasurement_accepted_header true true now bpm l h
  have hF := AddMeasurement_accepted_fs now bpm l h
  refine ⟨?_, ?_, ?_, ?_⟩
  · rw [hH]; exact hv
  · rw [hH]
    simp only [List.length_append, List.length_singleton, hc]
    split <;> omega
  · rw [hH]
    simp only [List.length_append, List.length_singleton, hw, maxEntries_eq]
    omega
  · intro _
    refine ⟨_, hF, rfl, ?_⟩
    intro j hj hlen
    simp only [List.length_append, List.length_singleton] at hj hlen
    simp only [HrFile.writeHeader, HrFile.writeSlot, hw]
    by_cases hjn : j = S.length
    · subst hjn
      simp
    · have hjlt : j < S.length := by omega
      have hne : j % maxEntries ≠ S.length % maxEntries := by
        simp only [maxEntries_eq] at hlen ⊢
        omega
      rw [if_neg hne, List.getElem?_append_left hjlt]
      have hS : S ≠ [] := by
        intro h0
        simp [h0] at hjlt
      obtain ⟨f, hfs, _, hslots⟩ := hf hS
      rw [hfs]
      simp only [Option.getD_some]
      exact hslots j hjlt (by omega)

theorem RingInv_addAll (samples : List (Nat × Nat)) :
    ∀ (l : HeartRateLogger) (S : List Entry), RingInv l S →
      RingInv (addAll (succeeding samples) l) (S ++ acceptedSamples (succeeding samples) l) := by
  induction samples with
  | nil => intro l S h; simpa [succeeding, addAll, acceptedSamples] using h
  | cons s rest ih =>
    intro l S h
    simp only [succeeding, List.map_cons, addAll, acceptedSamples]
    cases ha : accepted l s.1 s.2
    · rw [AddMeasurement_of_rejected _ _ _ _ _ ha]
      simpa [succeeding] using ih l S h
    · have := ih _ _ (RingInv_add l S s.1 s.2 h ha)
      simpa [succeeding, List.append_assoc] using this

/-! ## The read path -/

theorem readLoop_apply (file : HrFile) (startIndex : Nat) (n : Nat) (buffer : Nat → Entry) (i : Nat) :
    readLoop file startIndex n buffer i =
      if i < n then (file.slots ((startIndex + i) % maxEntries)).getD (buffer i) else buffer i := by
  induction n with
  | zero => simp [readLoop]
  | succ n ih =>
    simp only [readLoop]
    cases hs : file.slots ((startIndex + n) % maxEntries) with
    | none =>
      simp only [ih]
      by_cases hin : i = n
      · subst hin; simp [hs]
      · by_cases hlt : i < n
        · simp [hlt, Nat.lt_succ_of_lt hlt]
        · have : ¬ i < n + 1 := by omega
          simp [hlt, this]
    | some e =>
      simp only [setAt]
      by_cases hin : i = n
      · subst hin; simp [hs]
      · simp only [hin, if_false, ih]
        by_cases hlt : i < n
        · simp [hlt, Nat.lt_succ_of_lt hlt]
        · have : ¬ i < n + 1 := by omega
          simp [hlt, this]

theorem GetRecentEntries_of_RingInv (l : HeartRateLogger) (S : List Entry) (hinv : RingInv l S)
    (buffer : Nat → Entry) (k : Nat) :
    (GetRecentEntries true l buffer k).2 = min k (min S.length maxEntries) ∧
      returned (GetRecentEntries true l buffer k) =
        S.drop (S.length - min k (min S.length maxEntries)) := by
  obtain ⟨hv, hc, hw, hf⟩ := hinv
  unfold GetRecentEntries
  by_cases h0 : l.header.count = 0 ∨ k = 0
  · rw [if_pos h0]
    have hm : min k (min S.length maxEntries) = 0 := by
      rcases h0 with h0 | h0
      · rw [hc] at h0; omega
      · omega
    simp [returned, hm]
  · rw [if_neg h0]
    push_neg at h0
    obtain ⟨hcnt, hk⟩ := h0
    have hS : S ≠ [] := by
      intro h
      simp [h] at hc
      exact hcnt hc
    obtain ⟨f, hfs, _, hslots⟩ := hf hS
    simp only [openRead, if_true, hfs]
    have htr : (if k < l.header.count then k else l.header.count) = min k (min S.length maxEntries) := by
      rw [hc]; split <;> omega
    rw [htr]
    refine ⟨rfl, ?_⟩
    simp only [returned]
    have hmle : min k (min S.length maxEntries) ≤ S.length := by omega
    have hmle2 : min k (min S.length maxEntries) ≤ 480 := by
      simp only [maxEntries_eq]; omega
    generalize min k (min S.length maxEntries) = m at hmle hmle2 ⊢
    apply List.ext_getElem?
    intro i
    by_cases hi : i < m
    · rw [List.getElem?_map, List.getElem?_range hi]
      simp only [Option.map_some', readLoop_apply, hi, if_true, List.getElem?_drop]
      have hlen : S.length - m + i < S.length := by omega
      have key : ((if l.header.count < maxEntries then l.header.count - m
          else (l.header.writeIndex + maxEntries - m) % maxEntries) + i) % maxEntries =
          (S.length - m + i) % maxEntries := by
        rw [hc, hw]
        simp only [maxEntries_eq]
        split <;> omega
      rw [key, hslots _ hlen (by simp only [maxEntries_eq]; omega), List.getElem?_eq_getElem hlen]
      simp
    · have h1 : ((List.range m).map (readLoop f
          (if l.header.count < maxEntries then l.header.count - m
            else (l.header.writeIndex + maxEntries - m) % maxEntries) m buffer))[i]? = none := by
        apply List.getElem?_eq_none
        simp
        omega
      have h2 : (S.drop (S.length - m))[i]? = none := by
        apply List.getElem?_eq_none
        simp
        omega
      rw [h1, h2]

end HeartRateLogger

namespace HeartRateLogger

/-! ## Acceptance facts -/

theorem addAll_of_none_accepted (calls : List Call) :
    ∀ l : HeartRateLogger, acceptedSamples calls l = [] → addAll calls l = l := by
  induction calls with
  | nil => intro l _; rfl
  | cons c cs ih =>
    intro l h
    simp only [acceptedSamples, List.append_eq_nil] at h
    cases ha : accepted l c.now c.bpm
    · have hl := AddMeasurement_of_rejected c.openWrite c.openSave c.now c.bpm l ha
      simp only [addAll, hl]
      rw [hl] at h
      exact ih l h.2
    · simp [ha] at h

theorem acceptedSamples_sublist (calls : List Call) :
    ∀ l : HeartRateLogger,
      List.Sublist ((acceptedSamples calls l).map Entry.timestamp)
        (calls.map fun c => c.now % 4294967296) := by
  induction calls with
  | nil => intro l; simp [acceptedSamples]
  | cons c cs ih =>
    intro l
    simp only [acceptedSamples, List.map_append, List.map_cons]
    cases accepted l c.now c.bpm
    · simpa using List.Sublist.cons (c.now % 4294967296) (ih _)
    · simpa using List.Sublist.cons₂ (c.now % 4294967296) (ih _)

theorem acceptedSamples_sorted (calls : List Call) (l : HeartRateLogger)
    (hclock : (calls.map fun c => c.now % 4294967296).Pairwise (· ≤ ·)) :
    (acceptedSamples calls l).Pairwise fun a b => a.timestamp ≤ b.timestamp := by
  have h := hclock.sublist (acceptedSamples_sublist calls l)
  exact (List.pairwise_map.mp h)

/-- Under a non-decreasing 32-bit clock that is never behind `lastLogTimestamp`, every accepted
sample is at or after `lastLogTimestamp`, at least 30 s after it when it is not the sentinel 0,
and every accepted sample with a non-zero timestamp is followed only by samples at least 30 s
later. -/
theorem throttle_aux (calls : List Call) :
    ∀ l : HeartRateLogger,
      (calls.map fun c => c.now % 4294967296).Pairwise (· ≤ ·) →
      (∀ c ∈ calls, l.lastLogTimestamp ≤ c.now % 4294967296) →
      (∀ e ∈ acceptedSamples calls l,
          l.lastLogTimestamp ≤ e.timestamp ∧
            (l.lastLogTimestamp ≠ 0 → l.lastLogTimestamp + 30 ≤ e.timestamp)) ∧
        (acceptedSamples calls l).Pairwise fun a b =>
          a.timestamp ≠ 0 → a.timestamp + 30 ≤ b.timestamp := by
  induction calls with
  | nil => intro l _ _; simp [acceptedSamples]
  | cons c cs ih =>
    intro l hs hlow
    simp only [List.map_cons, List.pairwise_cons] at hs
    obtain ⟨hhead, htail⟩ := hs
    have hc : l.lastLogTimestamp ≤ c.now % 4294967296 := hlow c (List.mem_cons_self _ _)
    simp only [acceptedSamples]
    cases ha : accepted l c.now c.bpm
    · rw [AddMeasurement_of_rejected _ _ _ _ _ ha]
      have := ih l htail (fun c' hc' => hlow c' (List.mem_cons_of_mem _ hc'))
      simpa using this
    · have hlast := AddMeasurement_accepted_last c.openWrite c.openSave c.now c.bpm l ha
      have hrest := ih (AddMeasurement c.openWrite c.openSave c.now c.bpm l) htail (by
        intro c' hc'
        rw [hlast]
        exact hhead _ (List.mem_map_of_mem _ hc'))
      rw [hlast] at hrest
      obtain ⟨hr1, hr2⟩ := hrest
      have hgap : l.lastLogTimestamp ≠ 0 → l.lastLogTimestamp + 30 ≤ c.now % 4294967296 := by
        intro h0
        unfold accepted at ha
        simp [h0] at ha
        have := Nat.mod_lt c.now (show 4294967296 > 0 by norm_num)
        omega
      simp only [if_true, List.singleton_append, List.mem_cons, List.pairwise_cons]
      refine ⟨?_, ?_, hr2⟩
      · rintro e (rfl | he)
        · exact ⟨hc, hgap⟩
        · have := hr1 e he
          refine ⟨by omega, fun h0 => ?_⟩
          have := hgap h0
          omega
      · intro e he h0
        exact (hr1 e he).2 h0

/-- Samples at least 30 s apart, none with `bpm == 0`, are all accepted. -/
theorem spaced_all_accepted (calls : List Call) :
    ∀ l : HeartRateLogger,
      (∀ c ∈ calls, c.bpm ≠ 0 ∧ c.now < 4294967296) →
      calls.Pairwise (fun a b => a.now + 30 ≤ b.now) →
      (l.lastLogTimestamp = 0 ∨ ∀ c ∈ calls, l.lastLogTimestamp + 30 ≤ c.now) →
      acceptedSamples calls l = calls.map fun c => ⟨c.now, c.bpm⟩ := by
  induction calls with
  | nil => intro l _ _ _; rfl
  | cons c cs ih =>
    intro l hok hsp hl
    obtain ⟨hb, hn⟩ := hok c (List.mem_cons_self _ _)
    simp only [List.pairwise_cons] at hsp
    have ha : accepted l c.now c.bpm = true := by
      unfold accepted
      simp only [Nat.mod_eq_of_lt hn]
      rcases hl with hl | hl
      · simp [hl, hb]
      · have := hl c (List.mem_cons_self _ _)
        simp only [hb, ne_eq, not_false_eq_true, decide_True, Bool.true_and, Bool.not_eq_true',
          Bool.and_eq_false_imp, decide_eq_true_eq, decide_eq_false_iff_not, not_lt]
        intro _
        omega
    have hlast := AddMeasurement_accepted_last c.openWrite c.openSave c.now c.bpm l ha
    simp only [acceptedSamples, ha, if_true, List.map_cons, Nat.mod_eq_of_lt hn]
    rw [ih _ (fun c' hc' => hok c' (List.mem_cons_of_mem _ hc')) hsp.2 (by
      right
      intro c' hc'
      rw [hlast, Nat.mod_eq_of_lt hn]
      exact hsp.1 c' hc')]
    rfl

/-- The header in RAM counts the accepted samples, whatever the filesystem does. -/
theorem header_counts (calls : List Call) :
    ∀ (l : HeartRateLogger) (n : Nat),
      l.header.count = min n maxEntries → l.header.writeIndex = n % maxEntries →
      (addAll calls l).header.count = min (n + (acceptedSamples calls l).length) maxEntries ∧
        (addAll calls l).header.writeIndex = (n + (acceptedSamples calls l).length) % maxEntries := by
  induction calls with
  | nil => intro l n hc hw; simpa [addAll, acceptedSamples] using ⟨hc, hw⟩
  | cons c cs ih =>
    intro l n hc hw
    simp only [addAll, acceptedSamples]
    cases ha : accepted l c.now c.bpm
    · rw [AddMeasurement_of_rejected _ _ _ _ _ ha]
      simpa using ih l n hc hw
    · have hH := AddMeasurement_accepted_header c.openWrite c.openSave c.now c.bpm l ha
      have := ih (AddMeasurement c.openWrite c.openSave c.now c.bpm l) (n + 1)
        (by rw [hH]; simp only [hc, maxEntries_eq]; split <;> omega)
        (by rw [hH]; simp only [hw, maxEntries_eq]; omega)
      simpa [Nat.add_assoc, Nat.add_comm 1] using this

end HeartRateLogger

namespace HeartRateLogger

/-! ## Claims about the heart-rate log -/

/-- C1 (Log.WrapAround, read path): after any run of `AddMeasurement` calls on a log that
started empty, all filesystem operations succeeding, `GetRecentEntries(k)` returns
`min k (min n 480)` entries, where `n` is the number of accepted samples, and these are exactly
the last `min k (min n 480)` accepted `(timestamp, bpm)` samples, oldest first; with `k = 480`
they are the last 480 accepted samples (all of them while `n <= 480`). -/
theorem recent_entries_are_last_accepted (fs : Option HrFile) (samples : List (Nat × Nat))
    (buffer : Nat → Entry) (k : Nat) :
    (GetRecentEntries true (addAll (succeeding samples) { fs := fs }) buffer k).2 =
        min k (min (acceptedSamples (succeeding samples) { fs := fs }).length 480) ∧
      returned (GetRecentEntries true (addAll (succeeding samples) { fs := fs }) buffer k) =
        (acceptedSamples (succeeding samples) { fs := fs }).drop
          ((acceptedSamples (succeeding samples) { fs := fs }).length -
            min k (min (acceptedSamples (succeeding samples) { fs := fs }).length 480)) ∧
      returned (GetRecentEntries true (addAll (succeeding samples) { fs := fs }) buffer 480) =
        (acceptedSamples (succeeding samples) { fs := fs }).drop
          ((acceptedSamples (succeeding samples) { fs := fs }).length - 480) := by
  have hinv := RingInv_addAll samples { fs := fs } [] (RingInv_fresh fs)
  simp only [List.nil_append] at hinv
  have h1 := GetRecentEntries_of_RingInv _ _ hinv buffer k
  have h2 := (GetRecentEntries_of_RingInv _ _ hinv buffer 480).2
  simp only [maxEntries_eq] at h1 h2
  refine ⟨h1.1, h1.2, ?_⟩
  rw [h2]
  have e : ∀ n : Nat, n - min 480 (min n 480) = n - 480 := by
    intro n
    omega
  rw [e]

/-- C2 as stated fails: with the clock at epoch second 0 and then 1, both calls are accepted,
because `lastLogTimestamp == 0` is the "no sample yet" sentinel; the two accepted timestamps
`0 < 1` are 1 s apart. -/
theorem throttle_fails_at_epoch_zero :
    (([⟨true, true, 0, 60⟩, ⟨true, true, 1, 60⟩] : List Call).map
        fun c => c.now % 4294967296).Pairwise (· ≤ ·) ∧
      acceptedSamples [⟨true, true, 0, 60⟩, ⟨true, true, 1, 60⟩] { fs := none } =
        [⟨0, 60⟩, ⟨1, 60⟩] ∧
      ¬ (∀ e1 ∈ acceptedSamples [⟨true, true, 0, 60⟩, ⟨true, true, 1, 60⟩] { fs := none },
          ∀ e2 ∈ acceptedSamples [⟨true, true, 0, 60⟩, ⟨true, true, 1, 60⟩] { fs := none },
            e1.timestamp < e2.timestamp → 30 ≤ e2.timestamp - e1.timestamp) := by
  refine ⟨by decide, by decide, ?_⟩
  intro h
  have := h ⟨0, 60⟩ (by decide) ⟨1, 60⟩ (by decide) (by decide)
  revert this
  decide

/-- C2 amended (Log.Throttle): for every non-decreasing 32-bit clock feed and every sequence of
`AddMeasurement` calls of one session (whatever the filesystem does), any two accepted samples
with timestamps `0 < t1 < t2` satisfy `t2 - t1 >= 30`. -/
theorem throttle_nonzero_timestamps (fs : Option HrFile) (calls : List Call)
    (hclock : (calls.map fun c => c.now % 4294967296).Pairwise (· ≤ ·))
    (e1 e2 : Entry)
    (h1 : e1 ∈ acceptedSamples calls { fs := fs })
    (h2 : e2 ∈ acceptedSamples calls { fs := fs })
    (hpos : 0 < e1.timestamp) (hlt : e1.timestamp < e2.timestamp) :
    30 ≤ e2.timestamp - e1.timestamp := by
  have hthr := (throttle_aux calls { fs := fs } hclock (by intro c _; simp)).2
  have hsorted := acceptedSamples_sorted calls { fs := fs } hclock
  have hboth := hthr.and hsorted
  have hsym : (acceptedSamples calls { fs := fs }).Pairwise fun a b =>
      (0 < a.timestamp → a.timestamp < b.timestamp → a.timestamp + 30 ≤ b.timestamp) ∧
      (0 < b.timestamp → b.timestamp < a.timestamp → b.timestamp + 30 ≤ a.timestamp) := by
    refine hboth.imp ?_
    intro a b hab
    obtain ⟨hgap, hle⟩ := hab
    refine ⟨fun ha _ => hgap (by omega), fun _ hba => ?_⟩
    omega
  have hne : e1 ≠ e2 := by
    intro h
    rw [h] at hlt
    exact Nat.lt_irrefl _ hlt
  have := (hsym.forall (fun a b hab => ⟨hab.2, hab.1⟩) h1 h2 hne).1 hpos hlt
  omega

/-- Witness for C2 amended: the clock readings 100, 110, 130. -/
theorem throttle_nonzero_timestamps_witness :
    (([⟨true, true, 100, 60⟩, ⟨true, true, 110, 61⟩, ⟨true, true, 130, 62⟩] : List Call).map
        fun c => c.now % 4294967296).Pairwise (· ≤ ·) ∧
      (⟨100, 60⟩ : Entry) ∈ acceptedSamples
        [⟨true, true, 100, 60⟩, ⟨true, true, 110, 61⟩, ⟨true, true, 130, 62⟩] { fs := none } ∧
      (⟨130, 62⟩ : Entry) ∈ acceptedSamples
        [⟨true, true, 100, 60⟩, ⟨true, true, 110, 61⟩, ⟨true, true, 130, 62⟩] { fs := none } ∧
      30 ≤ (⟨130, 62⟩ : Entry).timestamp - (⟨100, 60⟩ : Entry).timestamp :=
  ⟨by decide, by decide, by decide,
    throttle_nonzero_timestamps none
      [⟨true, true, 100, 60⟩, ⟨true, true, 110, 61⟩, ⟨true, true, 130, 62⟩] (by decide)
      ⟨100, 60⟩ ⟨130, 62⟩ (by decide) (by decide) (by decide) (by decide)⟩

theorem step_header_bounds (l : HeartRateLogger) (op : Op)
    (h : l.header.count ≤ maxEntries ∧ l.header.writeIndex < maxEntries) :
    (step l op).header.count ≤ maxEntries ∧ (step l op).header.writeIndex < maxEntries := by
  cases op with
  | add c =>
    simp only [step]
    cases ha : accepted l c.now c.bpm
    · rw [AddMeasurement_of_rejected _ _ _ _ _ ha]; exact h
    · rw [AddMeasurement_accepted_header _ _ _ _ _ ha]
      simp only [maxEntries_eq] at h ⊢
      constructor
      · split <;> omega
      · omega
  | clear d s =>
    simp only [step, Clear, SaveHeader_header, maxEntries_eq]
    omega

theorem Init_header_bounds (openOk : Bool) (fs : Option HrFile) :
    (Init openOk { fs := fs }).header.count ≤ maxEntries ∧
      (Init openOk { fs := fs }).header.writeIndex < maxEntries := by
  unfold Init LoadHeader
  cases h1 : openRead openOk fs with
  | none => simp [h1]
  | some file =>
    simp only [h1]
    cases h2 : file.header with
    | none => simp
    | some rh =>
      simp only
      split
      · rename_i hv
        exact ⟨hv.2.2, hv.2.1⟩
      · simp

/-- C3 (Log.Bound): in every state reached by `Init` on a fresh logger (backing file with
arbitrary contents, or none, the open succeeding or not) followed by any sequence of
`AddMeasurement` and `Clear` calls (with any filesystem outcomes), `count <= 480` and
`writeIndex < 480`. -/
theorem header_bounds_reachable (fs : Option HrFile) (openOk : Bool) (ops : List Op) :
    (run ops (Init openOk { fs := fs })).header.count ≤ 480 ∧
      (run ops (Init openOk { fs := fs })).header.writeIndex < 480 := by
  have key : ∀ (ops : List Op) (l : HeartRateLogger),
      l.header.count ≤ maxEntries ∧ l.header.writeIndex < maxEntries →
      (run ops l).header.count ≤ maxEntries ∧ (run ops l).header.writeIndex < maxEntries := by
    intro ops
    induction ops with
    | nil => intro l h; exact h
    | cons op rest ih =>
      intro l h
      simp only [run, List.foldl_cons]
      exact ih _ (step_header_bounds l op h)
  exact key ops _ (Init_header_bounds openOk fs)

/-- C4 (Log.Chronology): for a log built from an empty log by `AddMeasurement` calls under a
non-decreasing 32-bit clock reading, all filesystem operations succeeding, the sequence that
`GetRecentEntries(k)` returns has non-decreasing timestamps, for every `k`. -/
theorem recent_entries_chronological (fs : Option HrFile) (samples : List (Nat × Nat))
    (hclock : (samples.map fun s => s.1 % 4294967296).Pairwise (· ≤ ·))
    (buffer : Nat → Entry) (k : Nat) :
    (returned (GetRecentEntries true (addAll (succeeding samples) { fs := fs }) buffer k)).Pairwise
      fun a b => a.timestamp ≤ b.timestamp := by
  have hinv := RingInv_addAll samples { fs := fs } [] (RingInv_fresh fs)
  simp only [List.nil_append] at hinv
  rw [(GetRecentEntries_of_RingInv _ _ hinv buffer k).2]
  have hc : ((succeeding samples).map fun c => c.now % 4294967296).Pairwise (· ≤ ·) := by
    simpa [succeeding, Function.comp_def] using hclock
  exact (acceptedSamples_sorted _ { fs := fs } hc).sublist (List.drop_sublist _ _)

/-- Witness for C4: three calls at 100, 110 and 130 s. -/
theorem recent_entries_chronological_witness :
    (returned (GetRecentEntries true
        (addAll (succeeding [(100, 60), (110, 61), (130, 62)]) { fs := none })
        (fun _ => ⟨0, 0⟩) 5)).Pairwise fun a b => a.timestamp ≤ b.timestamp :=
  recent_entries_chronological none [(100, 60), (110, 61), (130, 62)] (by decide)
    (fun _ => ⟨0, 0⟩) 5

end HeartRateLogger

namespace HeartRateLogger

theorem ring_scenario_accepted (fs : Option HrFile) (bpm : Nat → Nat) (hb : ∀ i, bpm i ≠ 0) :
    acceptedSamples (succeeding ((List.range 481).map fun i => (30 * i, bpm i))) { fs := fs } =
      (List.range 481).map fun i => ⟨30 * i, bpm i⟩ := by
  rw [spaced_all_accepted _ { fs := fs }]
  · simp [succeeding, Function.comp_def]
  · intro c hc
    simp only [succeeding, List.map_map, List.mem_map, List.mem_range, Function.comp] at hc
    obtain ⟨i, hi, rfl⟩ := hc
    exact ⟨hb i, by simp only; omega⟩
  · simp only [succeeding, List.map_map, List.pairwise_map, Function.comp]
    refine (List.pairwise_lt_range 481).imp ?_
    intro a b hab
    omega
  · left; rfl

/-- C5: after any run of `AddMeasurement` calls on an initially empty log with `n` accepted
samples, `GetEntryCount() = min n 480` and `writeIndex = n mod 480`; in the ring-correctness
scenario (481 samples 30 s apart from timestamp 0, non-zero values) every sample is accepted,
`GetEntryCount() == 480` and `writeIndex == 1`. -/
theorem count_and_writeIndex_after_appends (fs : Option HrFile) (calls : List Call)
    (bpm : Nat → Nat) (hb : ∀ i, bpm i ≠ 0) :
    GetEntryCount (addAll calls { fs := fs }) =
        min (acceptedSamples calls { fs := fs }).length 480 ∧
      (addAll calls { fs := fs }).header.writeIndex =
        (acceptedSamples calls { fs := fs }).length % 480 ∧
      acceptedSamples (succeeding ((List.range 481).map fun i => (30 * i, bpm i))) { fs := fs } =
        (List.range 481).map (fun i => ⟨30 * i, bpm i⟩) ∧
      GetEntryCount
        (addAll (succeeding ((List.range 481).map fun i => (30 * i, bpm i))) { fs := fs }) = 480 ∧
      (addAll (succeeding ((List.range 481).map fun i => (30 * i, bpm i)))
        { fs := fs }).header.writeIndex = 1 := by
  have gen : ∀ cs : List Call,
      (addAll cs { fs := fs }).header.count = min (acceptedSamples cs { fs := fs }).length 480 ∧
      (addAll cs { fs := fs }).header.writeIndex = (acceptedSamples cs { fs := fs }).length % 480 := by
    intro cs
    have := header_counts cs { fs := fs } 0 (by simp) (by simp)
    simpa [maxEntries_eq] using this
  have hsc := ring_scenario_accepted fs bpm hb
  have hg := gen (succeeding ((List.range 481).map fun i => (30 * i, bpm i)))
  rw [hsc] at hg
  simp only [List.length_map, List.length_range] at hg
  exact ⟨(gen calls).1, (gen calls).2, hsc, hg.1, hg.2⟩

/-- Witness for C5: the ring-correctness scenario with every value 60. -/
theorem count_and_writeIndex_after_appends_witness :
    GetEntryCount
        (addAll (succeeding ((List.range 481).map fun i => (30 * i, 60))) { fs := none }) = 480 ∧
      (addAll (succeeding ((List.range 481).map fun i => (30 * i, 60)))
        { fs := none }).header.writeIndex = 1 :=
  (count_and_writeIndex_after_appends none [] (fun _ : Nat => (60 : Nat))
    (fun _ => Nat.succ_ne_zero 59)).2.2.2

/-- C6 (corrupt header recovery): if the backing file is missing, shorter than a header, or
its header has `version != 1`, `writeIndex >= 480` or `count > 480`, then after `Init` on a
fresh logger the header is the default one (`writeIndex 0`, `count 0`), `GetEntryCount()` is 0,
`GetRecentEntries` returns 0 entries and leaves the buffer alone, and an `AddMeasurement` with
a non-zero value is accepted, writes its entry at slot 0 and leaves `writeIndex = 1`,
`count = 1`. -/
theorem init_recovers_from_bad_header (fs : Option HrFile) (openOk readOk openSave : Bool)
    (buffer : Nat → Entry) (k now bpm : Nat)
    (hbad : fs = none ∨ ∃ f, fs = some f ∧
      (f.header = none ∨ ∃ h, f.header = some h ∧
        (h.version ≠ 1 ∨ 480 ≤ h.writeIndex ∨ 480 < h.count)))
    (hb : bpm ≠ 0) :
    (Init openOk { fs := fs }).header = {} ∧
      GetEntryCount (Init openOk { fs := fs }) = 0 ∧
      GetRecentEntries readOk (Init openOk { fs := fs }) buffer k = (buffer, 0) ∧
      accepted (Init openOk { fs := fs }) now bpm = true ∧
      (∃ f, (AddMeasurement true openSave now bpm (Init openOk { fs := fs })).fs = some f ∧
        f.slots 0 = some ⟨now % 4294967296, bpm⟩) ∧
      (AddMeasurement true openSave now bpm (Init openOk { fs := fs })).header.writeIndex = 1 ∧
      (AddMeasurement true openSave now bpm (Init openOk { fs := fs })).header.count = 1 := by
  have hI : Init openOk { fs := fs } = { fs := fs } := by
    unfold Init LoadHeader openRead
    cases openOk
    · simp
    · rcases hbad with h | ⟨f, hf, h | ⟨h, hh, hv⟩⟩
      · simp [h]
      · simp [hf, h]
      · simp only [hf, hh, if_true]
        rw [if_neg]
        simp only [maxEntries_eq]
        rintro ⟨h1, h2, h3⟩
        rcases hv with hv | hv | hv
        · exact hv h1
        · omega
        · omega
  rw [hI]
  have ha : accepted { fs := fs } now bpm = true := by
    simp [accepted, hb]
  have hA := AddMeasurement_of_accepted true openSave now bpm { fs := fs } ha
  refine ⟨rfl, rfl, by simp [GetRecentEntries], ha, ?_, ?_, ?_⟩
  · rw [hA]
    cases openSave <;>
      simp [SaveHeader, WriteEntry, openCreate, HrFile.writeSlot, HrFile.writeHeader]
  · rw [AddMeasurement_accepted_header _ _ _ _ _ ha]
    rfl
  · rw [AddMeasurement_accepted_header _ _ _ _ _ ha]
    rfl

/-- Witness for C6: a header with `writeIndex = 9999`. -/
theorem init_recovers_from_bad_header_witness :
    (Init true { fs := some ⟨some ⟨1, 9999, 0⟩, fun _ => none⟩ }).header = {} ∧
      GetEntryCount (Init true { fs := some ⟨some ⟨1, 9999, 0⟩, fun _ => none⟩ }) = 0 ∧
      (AddMeasurement true true 1000 60
        (Init true { fs := some ⟨some ⟨1, 9999, 0⟩, fun _ => none⟩ })).header.writeIndex = 1 ∧
      (AddMeasurement true true 1000 60
        (Init true { fs := some ⟨some ⟨1, 9999, 0⟩, fun _ => none⟩ })).header.count = 1 :=
  have h := init_recovers_from_bad_header (some ⟨some ⟨1, 9999, 0⟩, fun _ => none⟩)
    true true true (fun _ => ⟨0, 0⟩) 1 1000 60
    (Or.inr ⟨_, rfl, Or.inr ⟨_, rfl, Or.inr (Or.inl (by decide))⟩⟩) (by decide)
  ⟨h.1, h.2.1, h.2.2.2.2.2.1, h.2.2.2.2.2.2⟩

end HeartRateLogger

namespace HeartRateLogger

theorem LoadHeader_fs (ok : Bool) (l : HeartRateLogger) : (LoadHeader ok l).fs = l.fs := by
  unfold LoadHeader
  cases h1 : openRead ok l.fs with
  | none => rfl
  | some file =>
    cases h2 : file.header with
    | none => simp [h2]
    | some rh =>
      simp only [h2]
      split <;> rfl

theorem LoadHeader_lastLogTimestamp (ok : Bool) (l : HeartRateLogger) :
    (LoadHeader ok l).lastLogTimestamp = l.lastLogTimestamp := by
  unfold LoadHeader
  cases h1 : openRead ok l.fs with
  | none => rfl
  | some file =>
    cases h2 : file.header with
    | none => simp [h2]
    | some rh =>
      simp only [h2]
      split <;> rfl

theorem GetRecentEntries_congr (ok : Bool) (l1 l2 : HeartRateLogger) (buffer : Nat → Entry)
    (k : Nat) (hh : l1.header = l2.header) (hf : l1.fs = l2.fs) :
    GetRecentEntries ok l1 buffer k = GetRecentEntries ok l2 buffer k := by
  unfold GetRecentEntries
  rw [hh, hf]

/-- A fresh logger that loads the file of a log satisfying the ring invariant gets that log's
header. -/
theorem Init_of_RingInv (l : HeartRateLogger) (S : List Entry) (hinv : RingInv l S)
    (hS : S ≠ []) : (Init true { fs := l.fs }).header = l.header := by
  obtain ⟨hv, hc, hw, hf⟩ := hinv
  obtain ⟨f, hfs, hhdr, _⟩ := hf hS
  unfold Init LoadHeader openRead
  simp only [if_true, hfs, hhdr]
  rw [if_pos]
  refine ⟨hv, ?_, ?_⟩
  · rw [hw]; exact Nat.mod_lt _ (by norm_num)
  · rw [hc]; exact Nat.min_le_right _ _

/-- C7 (persist-then-load of the HR log): for a log that `Init` found empty and that was then
filled by any run of `AddMeasurement` calls, all filesystem operations succeeding, a fresh
logger that runs `Init` on the same backing file reports the same count, and its
`GetRecentEntries(count)` returns the same sequence of entries as the original logger. -/
theorem persist_then_load (fs : Option HrFile) (samples : List (Nat × Nat))
    (buffer : Nat → Entry) (hempty : (Init true { fs := fs }).header = {}) :
    GetEntryCount (Init true { fs := (addAll (succeeding samples) (Init true { fs := fs })).fs }) =
        GetEntryCount (addAll (succeeding samples) (Init true { fs := fs })) ∧
      returned (GetRecentEntries true
          (Init true { fs := (addAll (succeeding samples) (Init true { fs := fs })).fs }) buffer
          (GetEntryCount
            (Init true { fs := (addAll (succeeding samples) (Init true { fs := fs })).fs }))) =
        returned (GetRecentEntries true (addAll (succeeding samples) (Init true { fs := fs }))
          buffer (GetEntryCount (addAll (succeeding samples) (Init true { fs := fs })))) := by
  have hI : Init true { fs := fs } = { fs := fs } := by
    have h1 := LoadHeader_fs true { fs := fs }
    have h2 := LoadHeader_lastLogTimestamp true { fs := fs }
    unfold Init at hempty ⊢
    cases hl : LoadHeader true { fs := fs } with
    | mk f h t =>
      rw [hl] at h1 h2 hempty
      simp only at h1 h2 hempty
      rw [h1, h2, hempty]
  have hhdr : (Init true { fs := (addAll (succeeding samples) { fs := fs }).fs }).header =
      (addAll (succeeding samples) { fs := fs }).header := by
    have hinv := RingInv_addAll samples { fs := fs } [] (RingInv_fresh fs)
    simp only [List.nil_append] at hinv
    by_cases hS : acceptedSamples (succeeding samples) { fs := fs } = []
    · rw [addAll_of_none_accepted _ _ hS]
      exact hempty
    · exact Init_of_RingInv _ _ hinv hS
  rw [hI]
  have hfs : (Init true { fs := (addAll (succeeding samples) { fs := fs }).fs }).fs =
      (addAll (succeeding samples) { fs := fs }).fs := LoadHeader_fs true _
  refine ⟨congrArg FileHeader.count hhdr, ?_⟩
  simp only [GetEntryCount]
  rw [hhdr, GetRecentEntries_congr true _ _ buffer _ hhdr hfs]

/-- Witness for C7: no backing file at first, then the samples at 100, 110 and 130 s. -/
theorem persist_then_load_witness :
    GetEntryCount (Init true
        { fs := (addAll (succeeding [(100, 60), (110, 61), (130, 62)])
          (Init true { fs := none })).fs }) =
      GetEntryCount (addAll (succeeding [(100, 60), (110, 61), (130, 62)])
        (Init true { fs := none })) :=
  (persist_then_load none [(100, 60), (110, 61), (130, 62)] (fun _ => ⟨0, 0⟩) rfl).1

/-- C8 as stated fails: on a fresh log without a backing file, an accepted `AddMeasurement`
whose entry write cannot open the file still advances the header over slot 0 (`writeIndex 1`,
`count 1`); the file then holds the header only, and `GetRecentEntries(1)` reports one entry,
the untouched buffer cell, which no append ever wrote. -/
theorem failed_write_advances_header_counterexample :
    accepted { fs := none } 1000 70 = true ∧
      (AddMeasurement false true 1000 70 { fs := none }).header.writeIndex = 1 ∧
      (AddMeasurement false true 1000 70 { fs := none }).header.count = 1 ∧
      ((AddMeasurement false true 1000 70 { fs := none }).fs.bind fun f => f.slots 0) = none ∧
      (GetRecentEntries true (AddMeasurement false true 1000 70 { fs := none })
        (fun _ => ⟨0, 0⟩) 1).2 = 1 ∧
      returned (GetRecentEntries true (AddMeasurement false true 1000 70 { fs := none })
        (fun _ => ⟨0, 0⟩) 1) = [⟨0, 0⟩] := by
  refine ⟨by decide, by decide, by decide, by decide, by decide, by decide⟩

/-- C8 amended: when the entry write of an accepted `AddMeasurement` fails (the file cannot be
opened), that one sample is lost and no slot of the file changes, but the header is advanced
over the unwritten slot all the same: `writeIndex` becomes `(writeIndex + 1) mod 480`, `count`
is incremented unless it has reached 480, and `lastLogTimestamp` is the sample's time. -/
theorem failed_write_still_advances_header (l : HeartRateLogger) (openSave : Bool)
    (now bpm i : Nat) (ha : accepted l now bpm = true) :
    (AddMeasurement false openSave now bpm l).header.writeIndex =
        (l.header.writeIndex + 1) % 480 ∧
      (AddMeasurement false openSave now bpm l).header.count =
        (if l.header.count < 480 then l.header.count + 1 else l.header.count) ∧
      (AddMeasurement false openSave now bpm l).lastLogTimestamp = now % 4294967296 ∧
      ((AddMeasurement false openSave now bpm l).fs.bind fun f => f.slots i) =
        (l.fs.bind fun f => f.slots i) := by
  refine ⟨?_, ?_, AddMeasurement_accepted_last _ _ _ _ _ ha, ?_⟩
  · rw [AddMeasurement_accepted_header _ _ _ _ _ ha]
  · rw [AddMeasurement_accepted_header _ _ _ _ _ ha]
  · rw [AddMeasurement_of_accepted _ _ _ _ _ ha]
    cases openSave <;> cases hfs : l.fs <;>
      simp [SaveHeader, WriteEntry, openCreate, HrFile.writeHeader, HrFile.empty, hfs]

/-- Witness for C8 amended: the first sample of a log without a backing file. -/
theorem failed_write_still_advances_header_witness :
    accepted { fs := none } 1000 70 = true ∧
      (AddMeasurement false true 1000 70 { fs := none }).header.writeIndex = (0 + 1) % 480 :=
  ⟨by decide,
    (failed_write_still_advances_header { fs := none } true 1000 70 0 (by decide)).1⟩

end HeartRateLogger

namespace SmartAlarmController

/-! ## Scheduling -/

theorem alarmEpoch_eq_nextOccurrence (utcOffset ttNow : Int) (s : SmartAlarmController) :
    alarmEpoch utcOffset ttNow s =
      nextOccurrence utcOffset ttNow s.alarmSettings.hours s.alarmSettings.minutes := by
  unfold alarmEpoch nextOccurrence todayAt localtime mktime
  simp only
  split <;> split <;> omega

theorem nextOccurrence_bounds (utcOffset nowSec : Int) (H M : Nat) (hH : H ≤ 23) (hM : M ≤ 59) :
    0 < nextOccurrence utcOffset nowSec H M - nowSec ∧
      nextOccurrence utcOffset nowSec H M - nowSec ≤ 86400 := by
  unfold nextOccurrence todayAt
  split <;> omega

theorem secondsToAlarm_eq (utcOffset ttNow : Int) (s : SmartAlarmController)
    (hH : s.alarmSettings.hours ≤ 23) (hM : s.alarmSettings.minutes ≤ 59) :
    secondsToAlarm utcOffset ttNow s =
      nextOccurrence utcOffset ttNow s.alarmSettings.hours s.alarmSettings.minutes - ttNow := by
  have hb := nextOccurrence_bounds utcOffset ttNow _ _ hH hM
  unfold secondsToAlarm toInt32
  rw [alarmEpoch_eq_nextOccurrence]
  omega

theorem ScheduleAlarm_alarmDeadlineTimer (rate : Nat) (utcOffset ttNow : Int)
    (s : SmartAlarmController) :
    (ScheduleAlarm rate utcOffset ttNow s).alarmDeadlineTimer =
      if secondsToAlarm utcOffset ttNow s > 0 then
        { active := true
          period := toTickType (secondsToAlarm utcOffset ttNow s) * rate % 4294967296 }
      else xTimerStop s.alarmDeadlineTimer := by
  have e1 : secondsToAlarm utcOffset ttNow (StopTimers s) = secondsToAlarm utcOffset ttNow s := rfl
  have e2 : secondsToWindow utcOffset ttNow (StopTimers s) = secondsToWindow utcOffset ttNow s := rfl
  unfold ScheduleAlarm EnableBackgroundHR OnWindowStart
  simp only [e1, e2]
  split_ifs <;> rfl

/-- The fields of the state that `ScheduleAlarm` settles by its window branch. -/
theorem ScheduleAlarm_window_branch (rate : Nat) (utcOffset ttNow : Int)
    (s : SmartAlarmController) :
    if secondsToWindow utcOffset ttNow s > 0 then
      (ScheduleAlarm rate utcOffset ttNow s).windowStartTimer =
          { active := true
            period := toTickType (secondsToWindow utcOffset ttNow s) * rate % 4294967296 } ∧
        (ScheduleAlarm rate utcOffset ttNow s).inWindow = s.inWindow ∧
        (ScheduleAlarm rate utcOffset ttNow s).currentPhase = s.currentPhase ∧
        (ScheduleAlarm rate utcOffset ttNow s).previousPhase = s.previousPhase ∧
        (ScheduleAlarm rate utcOffset ttNow s).consecutiveLightChecks = s.consecutiveLightChecks ∧
        (ScheduleAlarm rate utcOffset ttNow s).phaseCheckTimer = xTimerStop s.phaseCheckTimer
    else
      (ScheduleAlarm rate utcOffset ttNow s).windowStartTimer = xTimerStop s.windowStartTimer ∧
        (ScheduleAlarm rate utcOffset ttNow s).inWindow = true ∧
        (ScheduleAlarm rate utcOffset ttNow s).currentPhase = SleepPhase.Unknown ∧
        (ScheduleAlarm rate utcOffset ttNow s).previousPhase = SleepPhase.Unknown ∧
        (ScheduleAlarm rate utcOffset ttNow s).consecutiveLightChecks = 0 ∧
        (ScheduleAlarm rate utcOffset ttNow s).phaseCheckTimer =
          xTimerStart (xTimerStop s.phaseCheckTimer) := by
  have e1 : secondsToAlarm utcOffset ttNow (StopTimers s) = secondsToAlarm utcOffset ttNow s := rfl
  have e2 : secondsToWindow utcOffset ttNow (StopTimers s) = secondsToWindow utcOffset ttNow s := rfl
  unfold ScheduleAlarm EnableBackgroundHR OnWindowStart
  simp only [e1, e2]
  split_ifs <;> exact ⟨rfl, rfl, rfl, rfl, rfl, rfl⟩

end SmartAlarmController

namespace SmartAlarmController

theorem SetAlarmTime_alarmSettings (hours minutes : Nat) (s : SmartAlarmController) :
    (SetAlarmTime hours minutes s).alarmSettings.hours = hours ∧
      (SetAlarmTime hours minutes s).alarmSettings.minutes = minutes := by
  unfold SetAlarmTime
  split
  · exact ⟨rfl, rfl⟩
  · rename_i h
    push_neg at h
    exact h

theorem secondsToWindow_eq (utcOffset ttNow : Int) (s : SmartAlarmController) :
    secondsToWindow utcOffset ttNow s = max 0 (secondsToAlarm utcOffset ttNow s - 1800) := by
  unfold secondsToWindow
  simp only [windowMinutes]
  split <;> omega

/-- C9 (scheduling, deadline timer): for every current time `nowSec`, every fixed local-time
offset and every target `H:M` with `H <= 23`, `M <= 59`, `ScheduleAlarm` leaves the deadline
timer pending with a period of exactly `alarmEpoch - nowSec` seconds (times the tick rate, which
is such that a day of ticks fits 32 bits), where `alarmEpoch` is today's `H:M:00` if that is
strictly later than `nowSec` and today's `H:M:00` plus 86400 otherwise; this delay satisfies
`0 < delay <= 86400`. -/
theorem deadline_timer_delay (configTICK_RATE_HZ : Nat) (utcOffset nowSec : Int)
    (s : SmartAlarmController)
    (hH : s.alarmSettings.hours ≤ 23) (hM : s.alarmSettings.minutes ≤ 59)
    (hrate : configTICK_RATE_HZ * 86400 < 4294967296) :
    (ScheduleAlarm configTICK_RATE_HZ utcOffset nowSec s).alarmDeadlineTimer =
        { active := true
          period :=
            (nextOccurrence utcOffset nowSec s.alarmSettings.hours s.alarmSettings.minutes
              - nowSec).toNat * configTICK_RATE_HZ } ∧
      0 < nextOccurrence utcOffset nowSec s.alarmSettings.hours s.alarmSettings.minutes - nowSec ∧
      nextOccurrence utcOffset nowSec s.alarmSettings.hours s.alarmSettings.minutes - nowSec
        ≤ 86400 := by
  have hb := nextOccurrence_bounds utcOffset nowSec _ _ hH hM
  refine ⟨?_, hb.1, hb.2⟩
  rw [ScheduleAlarm_alarmDeadlineTimer, secondsToAlarm_eq utcOffset nowSec s hH hM, if_pos hb.1]
  generalize nextOccurrence utcOffset nowSec s.alarmSettings.hours s.alarmSettings.minutes
    - nowSec = d at hb
  have ht : toTickType d = d.toNat := by
    unfold toTickType
    congr 1
    omega
  have hle : d.toNat * configTICK_RATE_HZ ≤ 86400 * configTICK_RATE_HZ :=
    Nat.mul_le_mul_right _ (by omega)
  rw [ht, Nat.mod_eq_of_lt (by omega)]

/-- Witness for C9: 06:00:00 on day 0, target 07:00 (the default settings), 1024 ticks per
second: the deadline timer is pending with 3600 s of ticks. -/
theorem deadline_timer_delay_witness :
    (ScheduleAlarm 1024 0 21600 {}).alarmDeadlineTimer =
        { active := true, period := (nextOccurrence 0 21600 7 0 - 21600).toNat * 1024 } ∧
      (nextOccurrence 0 21600 7 0 - 21600).toNat * 1024 = 3600 * 1024 :=
  ⟨(deadline_timer_delay 1024 0 21600 {} (by decide) (by decide) (by decide)).1, by decide⟩

/-- C10 (scheduling, window): `ScheduleAlarm` computes
`secondsToWindow = max(0, secondsToAlarm - 1800)`.  For a target `H:M` with `H <= 23`,
`M <= 59`: when `secondsToAlarm > 1800` it leaves the window timer pending with a period of
`secondsToAlarm - 1800` seconds and does not run the window-start handler (`inWindow`, the
phases and the counter are as before, the phase-check timer is stopped); when
`secondsToAlarm <= 1800` the window timer is stopped and the window-start effects are in place on
return (`inWindow = true`, phases `Unknown`, counter 0, phase-check timer started).  At local
10:00:00 of any day with target 10:05, `secondsToAlarm = 300` and `inWindow = true` on return. -/
theorem window_timer_or_inline_start (configTICK_RATE_HZ : Nat) (utcOffset nowSec : Int)
    (s : SmartAlarmController) (day : Int)
    (hH : s.alarmSettings.hours ≤ 23) (hM : s.alarmSettings.minutes ≤ 59)
    (hrate : configTICK_RATE_HZ * 86400 < 4294967296) :
    secondsToWindow utcOffset nowSec s = max 0 (secondsToAlarm utcOffset nowSec s - 1800) ∧
      (if 1800 < secondsToAlarm utcOffset nowSec s then
        (ScheduleAlarm configTICK_RATE_HZ utcOffset nowSec s).windowStartTimer =
            { active := true
              period := (secondsToAlarm utcOffset nowSec s - 1800).toNat * configTICK_RATE_HZ } ∧
          (ScheduleAlarm configTICK_RATE_HZ utcOffset nowSec s).inWindow = s.inWindow ∧
          (ScheduleAlarm configTICK_RATE_HZ utcOffset nowSec s).currentPhase = s.currentPhase ∧
          (ScheduleAlarm configTICK_RATE_HZ utcOffset nowSec s).previousPhase = s.previousPhase ∧
          (ScheduleAlarm configTICK_RATE_HZ utcOffset nowSec s).consecutiveLightChecks =
            s.consecutiveLightChecks ∧
          (ScheduleAlarm configTICK_RATE_HZ utcOffset nowSec s).phaseCheckTimer.active = false
      else
        (ScheduleAlarm configTICK_RATE_HZ utcOffset nowSec s).windowStartTimer.active = false ∧
          (ScheduleAlarm configTICK_RATE_HZ utcOffset nowSec s).inWindow = true ∧
          (ScheduleAlarm configTICK_RATE_HZ utcOffset nowSec s).currentPhase =
            SleepPhase.Unknown ∧
          (ScheduleAlarm configTICK_RATE_HZ utcOffset nowSec s).previousPhase =
            SleepPhase.Unknown ∧
          (ScheduleAlarm configTICK_RATE_HZ utcOffset nowSec s).consecutiveLightChecks = 0 ∧
          (ScheduleAlarm configTICK_RATE_HZ utcOffset nowSec s).phaseCheckTimer.active = true) ∧
      secondsToAlarm utcOffset (day * 86400 + 36000 - utcOffset) (SetAlarmTime 10 5 s) = 300 ∧
      (ScheduleAlarm configTICK_RATE_HZ utcOffset (day * 86400 + 36000 - utcOffset)
        (SetAlarmTime 10 5 s)).inWindow = true := by
  have hw := secondsToWindow_eq utcOffset nowSec s
  have hbr := ScheduleAlarm_window_branch configTICK_RATE_HZ utcOffset nowSec s
  have hsa := secondsToAlarm_eq utcOffset nowSec s hH hM
  have hb := nextOccurrence_bounds utcOffset nowSec _ _ hH hM
  rw [← hsa] at hb
  refine ⟨hw, ?_, ?_⟩
  · by_cases hgt : 1800 < secondsToAlarm utcOffset nowSec s
    · rw [if_pos hgt]
      have hpos : secondsToWindow utcOffset nowSec s > 0 := by rw [hw]; omega
      rw [if_pos hpos] at hbr
      obtain ⟨h1, h2, h3, h4, h5, h6⟩ := hbr
      refine ⟨?_, h2, h3, h4, h5, by rw [h6]; rfl⟩
      have hwv : secondsToWindow utcOffset nowSec s = secondsToAlarm utcOffset nowSec s - 1800 := by
        rw [hw]; omega
      rw [h1, hwv]
      generalize secondsToAlarm utcOffset nowSec s = a at hgt hb
      have ht : toTickType (a - 1800) = (a - 1800).toNat := by
        unfold toTickType
        congr 1
        omega
      have hle : (a - 1800).toNat * configTICK_RATE_HZ ≤ 86400 * configTICK_RATE_HZ :=
        Nat.mul_le_mul_right _ (by omega)
      rw [ht, Nat.mod_eq_of_lt (by omega)]
    · rw [if_neg hgt]
      have hnpos : ¬ secondsToWindow utcOffset nowSec s > 0 := by rw [hw]; omega
      rw [if_neg hnpos] at hbr
      obtain ⟨h1, h2, h3, h4, h5, h6⟩ := hbr
      exact ⟨by rw [h1]; rfl, h2, h3, h4, h5, by rw [h6]; rfl⟩
  · have hs := SetAlarmTime_alarmSettings 10 5 s
    have h300 : secondsToAlarm utcOffset (day * 86400 + 36000 - utcOffset) (SetAlarmTime 10 5 s)
        = 300 := by
      rw [secondsToAlarm_eq _ _ _ (by rw [hs.1]; norm_num) (by rw [hs.2]; norm_num), hs.1, hs.2]
      unfold nextOccurrence todayAt
      split <;> omega
    refine ⟨h300, ?_⟩
    have hbr2 := ScheduleAlarm_window_branch configTICK_RATE_HZ utcOffset
      (day * 86400 + 36000 - utcOffset) (SetAlarmTime 10 5 s)
    have hnpos : ¬ secondsToWindow utcOffset (day * 86400 + 36000 - utcOffset)
        (SetAlarmTime 10 5 s) > 0 := by
      rw [secondsToWindow_eq, h300]
      decide
    rw [if_neg hnpos] at hbr2
    exact hbr2.2.1

/-- Witness for C10: 10:00:00 on day 0, target 10:05, 1024 ticks per second. -/
theorem window_timer_or_inline_start_witness :
    secondsToAlarm 0 36000 (SetAlarmTime 10 5 {}) = 300 ∧
      (ScheduleAlarm 1024 0 36000 (SetAlarmTime 10 5 {})).inWindow = true ∧
      (ScheduleAlarm 1024 0 36000 (SetAlarmTime 10 5 {})).phaseCheckTimer.active = true := by
  have h := (window_timer_or_inline_start 1024 0 36000 (SetAlarmTime 10 5 {}) 0
    (by decide) (by decide) (by decide)).2.1
  rw [if_neg (by decide)] at h
  exact ⟨by decide, h.2.1, h.2.2.2.2.2⟩

end SmartAlarmController

namespace SmartAlarmController

/-! ## Effects of the controller operations -/

theorem RestoreBackgroundHR_fields (s : SmartAlarmController) :
    (RestoreBackgroundHR s).savedBackgroundInterval = 0 ∧
      (RestoreBackgroundHR s).settings =
        (if s.savedBackgroundInterval = 65535 then none
          else if s.savedBackgroundInterval ≠ 0 then some s.savedBackgroundInterval
          else s.settings) ∧
      (RestoreBackgroundHR s).alarmSettings = s.alarmSettings ∧
      (RestoreBackgroundHR s).alerting = s.alerting ∧
      (RestoreBackgroundHR s).inWindow = s.inWindow ∧
      (RestoreBackgroundHR s).currentPhase = s.currentPhase ∧
      (RestoreBackgroundHR s).previousPhase = s.previousPhase ∧
      (RestoreBackgroundHR s).consecutiveLightChecks = s.consecutiveLightChecks ∧
      (RestoreBackgroundHR s).settingsChanged = s.settingsChanged ∧
      (RestoreBackgroundHR s).windowStartTimer = s.windowStartTimer ∧
      (RestoreBackgroundHR s).alarmDeadlineTimer = s.alarmDeadlineTimer ∧
      (RestoreBackgroundHR s).phaseCheckTimer = s.phaseCheckTimer ∧
      (RestoreBackgroundHR s).messages = s.messages := by
  unfold RestoreBackgroundHR
  split_ifs <;> simp_all

theorem EnableBackgroundHR_fields (s : SmartAlarmController) :
    (EnableBackgroundHR s).settings = some 60 ∧
      (EnableBackgroundHR s).savedBackgroundInterval =
        (if s.savedBackgroundInterval = 0 then
          (match s.settings with
            | some v => v
            | none => 65535)
          else s.savedBackgroundInterval) ∧
      (EnableBackgroundHR s).alarmSettings = s.alarmSettings ∧
      (EnableBackgroundHR s).alerting = s.alerting ∧
      (EnableBackgroundHR s).inWindow = s.inWindow ∧
      (EnableBackgroundHR s).settingsChanged = s.settingsChanged ∧
      (EnableBackgroundHR s).windowStartTimer = s.windowStartTimer ∧
      (EnableBackgroundHR s).alarmDeadlineTimer = s.alarmDeadlineTimer ∧
      (EnableBackgroundHR s).phaseCheckTimer = s.phaseCheckTimer ∧
      (EnableBackgroundHR s).messages = s.messages := by
  unfold EnableBackgroundHR
  split_ifs <;> simp_all

/-- What `ScheduleAlarm` does outside its two timer branches. -/
theorem ScheduleAlarm_fields (rate : Nat) (utcOffset ttNow : Int) (s : SmartAlarmController) :
    (ScheduleAlarm rate utcOffset ttNow s).alarmSettings.enabled = true ∧
      (ScheduleAlarm rate utcOffset ttNow s).alarmSettings.hours = s.alarmSettings.hours ∧
      (ScheduleAlarm rate utcOffset ttNow s).alarmSettings.minutes = s.alarmSettings.minutes ∧
      (ScheduleAlarm rate utcOffset ttNow s).alerting = s.alerting ∧
      (ScheduleAlarm rate utcOffset ttNow s).messages = s.messages ∧
      (ScheduleAlarm rate utcOffset ttNow s).settings = some 60 ∧
      (ScheduleAlarm rate utcOffset ttNow s).savedBackgroundInterval =
        (if s.savedBackgroundInterval = 0 then
          (match s.settings with
            | some v => v
            | none => 65535)
          else s.savedBackgroundInterval) := by
  have e1 : secondsToAlarm utcOffset ttNow (StopTimers s) = secondsToAlarm utcOffset ttNow s := rfl
  have e2 : secondsToWindow utcOffset ttNow (StopTimers s) = secondsToWindow utcOffset ttNow s := rfl
  unfold ScheduleAlarm EnableBackgroundHR OnWindowStart
  simp only [e1, e2]
  split_ifs <;> simp_all [StopTimers]

end SmartAlarmController

namespace SmartAlarmController

/-! ## Claims about single controller operations -/

/-- C13 (Controller.OneShot): for every controller state, after `StopAlerting`,
`IsEnabled() == false` and `IsAlerting() == false`; moreover `inWindow` is false, both phases
are `Unknown` and `consecutiveLightChecks` is 0. -/
theorem stop_alerting_one_shot (s : SmartAlarmController) :
    IsEnabled (StopAlerting s) = false ∧ IsAlerting (StopAlerting s) = false ∧
      IsInWindow (StopAlerting s) = false ∧
      CurrentPhase (StopAlerting s) = SleepPhase.Unknown ∧
      (StopAlerting s).previousPhase = SleepPhase.Unknown ∧
      (StopAlerting s).consecutiveLightChecks = 0 :=
  ⟨rfl, rfl, rfl, rfl, rfl, rfl⟩

/-- C14 as stated fails: `ScheduleAlarm` resets neither `inWindow` nor `alerting`.  At 06:00:00
with the target 07:00 (3600 s away), from an armed in-window state `inWindow` is still true on
return, and from an alerting state `alerting` is still true. -/
theorem schedule_keeps_window_and_alerting_counterexample :
    1800 < secondsToAlarm 0 21600
        { alarmSettings := { enabled := true }, inWindow := true,
          phaseCheckTimer := { active := true }, alarmDeadlineTimer := { active := true } } ∧
      (ScheduleAlarm 1024 0 21600
        { alarmSettings := { enabled := true }, inWindow := true,
          phaseCheckTimer := { active := true },
          alarmDeadlineTimer := { active := true } }).inWindow = true ∧
      1800 < secondsToAlarm 0 21600 { alarmSettings := { enabled := true }, alerting := true } ∧
      (ScheduleAlarm 1024 0 21600
        { alarmSettings := { enabled := true }, alerting := true }).alerting = true := by
  refine ⟨by decide, by decide, by decide, by decide⟩

/-- C14 amended: whenever the target is more than 30 minutes away, after `ScheduleAlarm` from
any prior state `enabled` is true, the deadline and window timers are pending, the phase-check
timer is stopped and the background HR interval setting is 60, while `inWindow` and `alerting`
keep the values they had before the call. -/
theorem schedule_far_target_arms (configTICK_RATE_HZ : Nat) (utcOffset nowSec : Int)
    (s : SmartAlarmController) (hfar : 1800 < secondsToAlarm utcOffset nowSec s) :
    (ScheduleAlarm configTICK_RATE_HZ utcOffset nowSec s).alarmSettings.enabled = true ∧
      (ScheduleAlarm configTICK_RATE_HZ utcOffset nowSec s).inWindow = s.inWindow ∧
      (ScheduleAlarm configTICK_RATE_HZ utcOffset nowSec s).alerting = s.alerting ∧
      (ScheduleAlarm configTICK_RATE_HZ utcOffset nowSec s).alarmDeadlineTimer.active = true ∧
      (ScheduleAlarm configTICK_RATE_HZ utcOffset nowSec s).windowStartTimer.active = true ∧
      (ScheduleAlarm configTICK_RATE_HZ utcOffset nowSec s).phaseCheckTimer.active = false ∧
      (ScheduleAlarm configTICK_RATE_HZ utcOffset nowSec s).settings = some 60 := by
  have hf := ScheduleAlarm_fields configTICK_RATE_HZ utcOffset nowSec s
  have hd := ScheduleAlarm_alarmDeadlineTimer configTICK_RATE_HZ utcOffset nowSec s
  have hbr := ScheduleAlarm_window_branch configTICK_RATE_HZ utcOffset nowSec s
  have hpos : secondsToWindow utcOffset nowSec s > 0 := by
    rw [secondsToWindow_eq]; omega
  rw [if_pos hpos] at hbr
  rw [if_pos (by omega)] at hd
  refine ⟨hf.1, hbr.2.1, hf.2.2.2.1, by rw [hd], by rw [hbr.1], ?_, hf.2.2.2.2.2.1⟩
  rw [hbr.2.2.2.2.2]
  rfl

/-- Witness for C14 amended: the idle default controller at 06:00:00, target 07:00. -/
theorem schedule_far_target_arms_witness :
    1800 < secondsToAlarm 0 21600 {} ∧
      (ScheduleAlarm 1024 0 21600 {}).alarmSettings.enabled = true ∧
      (ScheduleAlarm 1024 0 21600 {}).windowStartTimer.active = true :=
  have h := schedule_far_target_arms 1024 0 21600 {} (by decide)
  ⟨by decide, h.1, h.2.2.2.2.1⟩

/-- C15 as stated fails: arming a controller whose background HR interval setting is 0 saves
the value 0, which is also the "nothing saved" mark, so `DisableAlarm` leaves the setting at 60
instead of bringing back 0. -/
theorem disable_does_not_restore_zero_counterexample :
    ({ settings := some 0 } : SmartAlarmController).settings = some 0 ∧
      (ScheduleAlarm 1024 0 21600 { settings := some 0 }).settings = some 60 ∧
      (ScheduleAlarm 1024 0 21600 { settings := some 0 }).savedBackgroundInterval = 0 ∧
      (DisableAlarm (ScheduleAlarm 1024 0 21600 { settings := some 0 })).settings = some 60 := by
  refine ⟨by decide, by decide, by decide, by decide⟩

/-- C15 amended: for every controller state, after `DisableAlarm` all three timers are stopped,
`savedBackgroundInterval` is 0 and the background HR interval setting has been restored from
it (absent if it held 0xFFFF, the saved value if it was another non-zero value, left as it is
if it was 0), `inWindow` is false, both phases are `Unknown`, `consecutiveLightChecks` is 0,
`enabled` is false, and the dirty flag is set if `enabled` changed (else as before). -/
theorem disable_alarm_effects (s : SmartAlarmController) :
    (DisableAlarm s).windowStartTimer.active = false ∧
      (DisableAlarm s).alarmDeadlineTimer.active = false ∧
      (DisableAlarm s).phaseCheckTimer.active = false ∧
      (DisableAlarm s).savedBackgroundInterval = 0 ∧
      (DisableAlarm s).settings =
        (if s.savedBackgroundInterval = 65535 then none
          else if s.savedBackgroundInterval ≠ 0 then some s.savedBackgroundInterval
          else s.settings) ∧
      (DisableAlarm s).inWindow = false ∧
      (DisableAlarm s).currentPhase = SleepPhase.Unknown ∧
      (DisableAlarm s).previousPhase = SleepPhase.Unknown ∧
      (DisableAlarm s).consecutiveLightChecks = 0 ∧
      (DisableAlarm s).alarmSettings.enabled = false ∧
      (DisableAlarm s).settingsChanged = (s.settingsChanged || s.alarmSettings.enabled) := by
  have hr := RestoreBackgroundHR_fields (StopTimers s)
  obtain ⟨h1, h2, h3, -, -, -, -, -, h9, h10, h11, h12, -⟩ := hr
  have h2' : (RestoreBackgroundHR (StopTimers s)).settings =
      (if s.savedBackgroundInterval = 65535 then none
        else if s.savedBackgroundInterval ≠ 0 then some s.savedBackgroundInterval
        else s.settings) := h2
  have hw : (RestoreBackgroundHR (StopTimers s)).windowStartTimer.active = false := by
    rw [h10]; rfl
  have hd : (RestoreBackgroundHR (StopTimers s)).alarmDeadlineTimer.active = false := by
    rw [h11]; rfl
  have hp : (RestoreBackgroundHR (StopTimers s)).phaseCheckTimer.active = false := by
    rw [h12]; rfl
  have hc : (RestoreBackgroundHR (StopTimers s)).settingsChanged = s.settingsChanged := h9
  have hen : (RestoreBackgroundHR (StopTimers s)).alarmSettings.enabled =
      s.alarmSettings.enabled := by
    rw [h3]; rfl
  unfold DisableAlarm
  simp only
  generalize RestoreBackgroundHR (StopTimers s) = t at h1 h2' hw hd hp hc hen ⊢
  cases he : s.alarmSettings.enabled
  · rw [he] at hen
    refine ⟨?_, ?_, ?_, ?_, ?_, ?_, ?_, ?_, ?_, ?_, ?_⟩ <;> simp [hen, hw, hd, hp, h1, h2', hc]
  · rw [he] at hen
    refine ⟨?_, ?_, ?_, ?_, ?_, ?_, ?_, ?_, ?_, ?_, ?_⟩ <;> simp [hen, hw, hd, hp, h1, h2', hc]

/-- C16 as stated fails: `StopAlerting` has no guard on `alerting`.  On an armed in-window
controller that is not alerting it clears `enabled` and `inWindow` and sets the dirty flag. -/
theorem stop_alerting_not_noop_counterexample :
    ({ alarmSettings := { enabled := true }, inWindow := true } : SmartAlarmController).alerting
        = false ∧
      ({ alarmSettings := { enabled := true }, inWindow := true } :
        SmartAlarmController).alarmSettings.enabled = true ∧
      (StopAlerting { alarmSettings := { enabled := true }, inWindow := true }).alarmSettings.enabled
        = false ∧
      (StopAlerting { alarmSettings := { enabled := true }, inWindow := true }).inWindow = false ∧
      ({ alarmSettings := { enabled := true }, inWindow := true } :
        SmartAlarmController).settingsChanged = false ∧
      (StopAlerting { alarmSettings := { enabled := true }, inWindow := true }).settingsChanged
        = true := by
  refine ⟨by decide, by decide, by decide, by decide, by decide, by decide⟩

/-- C16 amended: for every state with `alerting == false`, `StopAlerting` leaves `alerting`
false and leaves the alarm time, `savedBackgroundInterval`, the three timers, the settings
store, the posted messages, the heart-rate log and the settings file unchanged; it is not a
no-op: it clears `inWindow`, sets both phases to `Unknown` and `consecutiveLightChecks` to 0,
sets `enabled` to false and sets the dirty flag. -/
theorem stop_alerting_when_not_alerting (s : SmartAlarmController) (h : s.alerting = false) :
    (StopAlerting s).alerting = s.alerting ∧
      (StopAlerting s).alarmSettings.hours = s.alarmSettings.hours ∧
      (StopAlerting s).alarmSettings.minutes = s.alarmSettings.minutes ∧
      (StopAlerting s).savedBackgroundInterval = s.savedBackgroundInterval ∧
      (StopAlerting s).windowStartTimer = s.windowStartTimer ∧
      (StopAlerting s).alarmDeadlineTimer = s.alarmDeadlineTimer ∧
      (StopAlerting s).phaseCheckTimer = s.phaseCheckTimer ∧
      (StopAlerting s).settings = s.settings ∧
      (StopAlerting s).messages = s.messages ∧
      (StopAlerting s).hrLogger = s.hrLogger ∧
      (StopAlerting s).settingsFile = s.settingsFile ∧
      (StopAlerting s).inWindow = false ∧
      (StopAlerting s).currentPhase = SleepPhase.Unknown ∧
      (StopAlerting s).previousPhase = SleepPhase.Unknown ∧
      (StopAlerting s).consecutiveLightChecks = 0 ∧
      (StopAlerting s).alarmSettings.enabled = false ∧
      (StopAlerting s).settingsChanged = true :=
  ⟨h.symm, rfl, rfl, rfl, rfl, rfl, rfl, rfl, rfl, rfl, rfl, rfl, rfl, rfl, rfl, rfl, rfl⟩

/-- Witness for C16 amended: the armed in-window controller. -/
theorem stop_alerting_when_not_alerting_witness :
    (StopAlerting { alarmSettings := { enabled := true }, inWindow := true }).alerting = false ∧
      (StopAlerting { alarmSettings := { enabled := true }, inWindow := true }).settingsChanged
        = true :=
  have h := stop_alerting_when_not_alerting
    { alarmSettings := { enabled := true }, inWindow := true } rfl
  ⟨h.1, h.2.2.2.2.2.2.2.2.2.2.2.2.2.2.2.2⟩

/-- C17 as stated fails: with the setting at 0 and `savedBackgroundInterval == 0`,
`EnableBackgroundHR` saves 0, the "nothing saved" mark, and the following
`RestoreBackgroundHR` leaves the setting at 60; with the setting at 0xFFFF the saved value is
the "was absent" mark and the setting is cleared instead. -/
theorem background_hr_round_trip_counterexample :
    ({ settings := some 0 } : SmartAlarmController).savedBackgroundInterval = 0 ∧
      (EnableBackgroundHR { settings := some 0 }).settings = some 60 ∧
      (RestoreBackgroundHR (EnableBackgroundHR { settings := some 0 })).settings = some 60 ∧
      (RestoreBackgroundHR (EnableBackgroundHR { settings := some 65535 })).settings = none := by
  refine ⟨by decide, by decide, by decide, by decide⟩

/-- C17 amended: for every initial value `v` of the settings-store interval that is absent or
a value other than 0 and 0xFFFF, and `savedBackgroundInterval == 0`, `EnableBackgroundHR` sets
the setting to 60, and a following `RestoreBackgroundHR` leaves the setting equal to `v` and
`savedBackgroundInterval` equal to 0. -/
theorem background_hr_round_trip (s : SmartAlarmController)
    (hsaved : s.savedBackgroundInterval = 0)
    (h0 : s.settings ≠ some 0) (hmax : s.settings ≠ some 65535) :
    (EnableBackgroundHR s).settings = some 60 ∧
      (RestoreBackgroundHR (EnableBackgroundHR s)).settings = s.settings ∧
      (RestoreBackgroundHR (EnableBackgroundHR s)).savedBackgroundInterval = 0 := by
  have he := EnableBackgroundHR_fields s
  have hr := RestoreBackgroundHR_fields (EnableBackgroundHR s)
  refine ⟨he.1, ?_, hr.1⟩
  rw [hr.2.1, he.2.1, he.1, if_pos hsaved]
  cases hs : s.settings with
  | none => simp
  | some v =>
    have hv0 : v ≠ 0 := by
      intro h; apply h0; rw [hs, h]
    have hvm : v ≠ 65535 := by
      intro h; apply hmax; rw [hs, h]
    simp [hv0, hvm]

/-- Witness for C17 amended: the interval 300 s, and the absent interval. -/
theorem background_hr_round_trip_witness :
    (RestoreBackgroundHR (EnableBackgroundHR { settings := some 300 })).settings = some 300 ∧
      (RestoreBackgroundHR (EnableBackgroundHR { settings := none })).settings = none :=
  ⟨(background_hr_round_trip { settings := some 300 } rfl (by decide) (by decide)).2.1,
    (background_hr_round_trip { settings := none } rfl (by decide) (by decide)).2.1⟩

end SmartAlarmController

namespace SmartAlarmController

/-! ## Wakes -/

theorem TriggerWake_fields (s : SmartAlarmController) :
    (TriggerWake s).alerting = true ∧
      (TriggerWake s).messages = s.messages ++ [Message.SetOffSmartAlarm] ∧
      (TriggerWake s).settings =
        (if s.savedBackgroundInterval = 65535 then none
          else if s.savedBackgroundInterval ≠ 0 then some s.savedBackgroundInterval
          else s.settings) ∧
      (TriggerWake s).savedBackgroundInterval = 0 ∧
      (TriggerWake s).inWindow = s.inWindow ∧
      (TriggerWake s).alarmSettings = s.alarmSettings ∧
      (TriggerWake s).windowStartTimer = s.windowStartTimer ∧
      (TriggerWake s).alarmDeadlineTimer = s.alarmDeadlineTimer ∧
      (TriggerWake s).phaseCheckTimer = s.phaseCheckTimer := by
  have hr := RestoreBackgroundHR_fields { s with alerting := true }
  obtain ⟨h1, h2, h3, h4, h5, -, -, -, -, h10, h11, h12, h13⟩ := hr
  unfold TriggerWake
  exact ⟨h4, by simp only [h13], h2, h1, h5, h3, h10, h11, h12⟩

/-- A phase check either changes nothing that matters to a wake, or it is the early wake of a
controller that was in its window and not alerting. -/
theorem CheckSleepPhase_cases (r b : Bool) (e be : Nat → HeartRateLogger.Entry)
    (s : SmartAlarmController) :
    ((CheckSleepPhase r b e be s).alerting = s.alerting ∧
        (CheckSleepPhase r b e be s).messages = s.messages ∧
        (CheckSleepPhase r b e be s).settings = s.settings ∧
        (CheckSleepPhase r b e be s).savedBackgroundInterval = s.savedBackgroundInterval ∧
        (CheckSleepPhase r b e be s).alarmDeadlineTimer = s.alarmDeadlineTimer ∧
        (CheckSleepPhase r b e be s).windowStartTimer = s.windowStartTimer ∧
        (CheckSleepPhase r b e be s).phaseCheckTimer = s.phaseCheckTimer ∧
        (CheckSleepPhase r b e be s).alarmSettings = s.alarmSettings) ∨
      (s.alerting = false ∧ s.inWindow = true ∧
        (CheckSleepPhase r b e be s).alerting = true ∧
        (CheckSleepPhase r b e be s).inWindow = false ∧
        (CheckSleepPhase r b e be s).messages = s.messages ++ [Message.SetOffSmartAlarm] ∧
        (CheckSleepPhase r b e be s).settings = (RestoreBackgroundHR s).settings ∧
        (CheckSleepPhase r b e be s).savedBackgroundInterval = 0 ∧
        (CheckSleepPhase r b e be s).alarmDeadlineTimer.active = false ∧
        (CheckSleepPhase r b e be s).windowStartTimer = s.windowStartTimer ∧
        (CheckSleepPhase r b e be s).phaseCheckTimer.active = false ∧
        (CheckSleepPhase r b e be s).alarmSettings = s.alarmSettings) := by
  unfold CheckSleepPhase
  by_cases hg : s.alerting = true ∨ ¬ s.inWindow = true
  · rw [if_pos hg]
    exact Or.inl ⟨rfl, rfl, rfl, rfl, rfl, rfl, rfl, rfl⟩
  · rw [if_neg hg]
    push_neg at hg
    have ha : s.alerting = false := by simpa using hg.1
    simp only
    generalize AnalyzeSleepPhase r b e be s.hrLogger = p
    by_cases hp : p = SleepPhase.Light
    · rw [if_pos hp]
      split_ifs with hw
      · right
        have ht := TriggerWake_fields
          { s with
            previousPhase := s.currentPhase
            currentPhase := p
            consecutiveLightChecks := (s.consecutiveLightChecks + 1) % 256
            phaseCheckTimer := xTimerStop s.phaseCheckTimer
            alarmDeadlineTimer := xTimerStop s.alarmDeadlineTimer
            inWindow := false }
        obtain ⟨t1, t2, t3, t4, t5, t6, t7, t8, t9⟩ := ht
        exact ⟨ha, hg.2, t1, t5, t2, t3.trans (RestoreBackgroundHR_fields s).2.1.symm, t4,
          by rw [t8]; rfl, t7, by rw [t9]; rfl, t6⟩
      · exact Or.inl ⟨rfl, rfl, rfl, rfl, rfl, rfl, rfl, rfl⟩
    · rw [if_neg hp]
      exact Or.inl ⟨rfl, rfl, rfl, rfl, rfl, rfl, rfl, rfl⟩

theorem OnAlarmDeadline_of_not_alerting (s : SmartAlarmController) (h : s.alerting = false) :
    (OnAlarmDeadline s).messages = s.messages ++ [Message.SetOffSmartAlarm] ∧
      (OnAlarmDeadline s).alerting = true ∧ (OnAlarmDeadline s).inWindow = false ∧
      (OnAlarmDeadline s).settings =
        (if s.savedBackgroundInterval = 65535 then none
          else if s.savedBackgroundInterval ≠ 0 then some s.savedBackgroundInterval
          else s.settings) ∧
      (OnAlarmDeadline s).savedBackgroundInterval = 0 ∧
      (OnAlarmDeadline s).phaseCheckTimer.active = false ∧
      (OnAlarmDeadline s).windowStartTimer = s.windowStartTimer ∧
      (OnAlarmDeadline s).alarmSettings = s.alarmSettings := by
  have ht := TriggerWake_fields
    { s with phaseCheckTimer := xTimerStop s.phaseCheckTimer, inWindow := false }
  obtain ⟨t1, t2, t3, t4, t5, t6, t7, t8, t9⟩ := ht
  have e : OnAlarmDeadline s =
      TriggerWake { s with phaseCheckTimer := xTimerStop s.phaseCheckTimer, inWindow := false } := by
    unfold OnAlarmDeadline
    simp [h]
  rw [e]
  exact ⟨t2, t1, t5, t3, t4, by rw [t9]; rfl, t7, t6⟩

theorem OnAlarmDeadline_of_alerting (s : SmartAlarmController) (h : s.alerting = true) :
    OnAlarmDeadline s =
      { s with phaseCheckTimer := xTimerStop s.phaseCheckTimer, inWindow := false } := by
  unfold OnAlarmDeadline
  simp [h]

/-- A background step never clears `alerting`; while `alerting` stays false it posts nothing
and leaves the deadline timer, the settings store and `savedBackgroundInterval` alone. -/
theorem background_quiet (s : SmartAlarmController) (bg : Background)
    (h : (background s bg).alerting = false) :
    s.alerting = false ∧ (background s bg).messages = s.messages ∧
      (background s bg).alarmDeadlineTimer = s.alarmDeadlineTimer ∧
      (background s bg).settings = s.settings ∧
      (background s bg).savedBackgroundInterval = s.savedBackgroundInterval := by
  cases bg with
  | windowStart => exact ⟨h, rfl, rfl, rfl, rfl⟩
  | logUpdate l => exact ⟨h, rfl, rfl, rfl, rfl⟩
  | phaseCheck r b e be =>
    simp only [background] at h ⊢
    rcases CheckSleepPhase_cases r b e be s with c | c
    · exact ⟨by rw [← c.1]; exact h, c.2.1, c.2.2.2.2.1, c.2.2.1, c.2.2.2.1⟩
    · rw [c.2.2.1] at h
      exact absurd h (by decide)

theorem backgrounds_quiet (bs : List Background) :
    ∀ s : SmartAlarmController, (backgrounds bs s).alerting = false →
      s.alerting = false ∧ (backgrounds bs s).messages = s.messages ∧
        (backgrounds bs s).alarmDeadlineTimer = s.alarmDeadlineTimer ∧
        (backgrounds bs s).settings = s.settings ∧
        (backgrounds bs s).savedBackgroundInterval = s.savedBackgroundInterval := by
  induction bs with
  | nil => intro s h; exact ⟨h, rfl, rfl, rfl, rfl⟩
  | cons bg rest ih =>
    intro s h
    simp only [backgrounds, List.foldl_cons] at h ⊢
    have h1 := ih (background s bg) h
    have h2 := background_quiet s bg h1.1
    exact ⟨h2.1, h1.2.1.trans h2.2.1, h1.2.2.1.trans h2.2.2.1, h1.2.2.2.1.trans h2.2.2.2.1,
      h1.2.2.2.2.trans h2.2.2.2.2⟩

/-- C11 as stated fails: `ScheduleAlarm` does not clear `alerting`, so when it is called on an
alerting controller the deadline callback finds `alerting` set and posts no message. -/
theorem deadline_posts_nothing_when_alerting_counterexample :
    (ScheduleAlarm 1024 0 21600 { alerting := true }).alarmDeadlineTimer.active = true ∧
      (ScheduleAlarm 1024 0 21600 { alerting := true }).messages = [] ∧
      (OnAlarmDeadline (ScheduleAlarm 1024 0 21600 { alerting := true })).messages = [] := by
  refine ⟨by decide, by decide, by decide⟩

/-- C11 amended (hard-deadline backstop): after `ScheduleAlarm` (target `H <= 23`, `M <= 59`)
and any background steps (window start, phase checks, log updates), if the controller is not
alerting when the deadline callback runs (it was not alerting when armed and no early wake
happened), then the deadline timer is still pending, no message was posted since the arming,
and the callback posts the smart-alarm-fired message exactly once and leaves
`IsAlerting() == true` and `IsInWindow() == false`. -/
theorem deadline_backstop (configTICK_RATE_HZ : Nat) (utcOffset nowSec : Int)
    (s : SmartAlarmController) (bs : List Background)
    (hH : s.alarmSettings.hours ≤ 23) (hM : s.alarmSettings.minutes ≤ 59)
    (hquiet : (backgrounds bs (ScheduleAlarm configTICK_RATE_HZ utcOffset nowSec s)).alerting
      = false) :
    s.alerting = false ∧
      (backgrounds bs (ScheduleAlarm configTICK_RATE_HZ utcOffset nowSec s)).alarmDeadlineTimer.active
        = true ∧
      (backgrounds bs (ScheduleAlarm configTICK_RATE_HZ utcOffset nowSec s)).messages
        = s.messages ∧
      (OnAlarmDeadline
        (backgrounds bs (ScheduleAlarm configTICK_RATE_HZ utcOffset nowSec s))).messages
        = s.messages ++ [Message.SetOffSmartAlarm] ∧
      IsAlerting (OnAlarmDeadline
        (backgrounds bs (ScheduleAlarm configTICK_RATE_HZ utcOffset nowSec s))) = true ∧
      IsInWindow (OnAlarmDeadline
        (backgrounds bs (ScheduleAlarm configTICK_RATE_HZ utcOffset nowSec s))) = false := by
  have hq := backgrounds_quiet bs _ hquiet
  have hf := ScheduleAlarm_fields configTICK_RATE_HZ utcOffset nowSec s
  have hd := ScheduleAlarm_alarmDeadlineTimer configTICK_RATE_HZ utcOffset nowSec s
  have hpos : secondsToAlarm utcOffset nowSec s > 0 := by
    rw [secondsToAlarm_eq utcOffset nowSec s hH hM]
    exact (nextOccurrence_bounds utcOffset nowSec _ _ hH hM).1
  rw [if_pos hpos] at hd
  have ho := OnAlarmDeadline_of_not_alerting _ hquiet
  refine ⟨?_, ?_, ?_, ?_, ho.2.1, ho.2.2.1⟩
  · rw [← hf.2.2.2.1]; exact hq.1
  · rw [hq.2.2.1, hd]
  · rw [hq.2.1, hf.2.2.2.2.1]
  · rw [ho.1, hq.2.1, hf.2.2.2.2.1]

/-- Witness for C11 amended: the idle default controller armed at 06:00:00 for 07:00, the
window opening, then the deadline. -/
theorem deadline_backstop_witness :
    (OnAlarmDeadline (backgrounds [Background.windowStart]
        (ScheduleAlarm 1024 0 21600 {}))).messages = [] ++ [Message.SetOffSmartAlarm] ∧
      IsAlerting (OnAlarmDeadline (backgrounds [Background.windowStart]
        (ScheduleAlarm 1024 0 21600 {}))) = true :=
  have h := deadline_backstop 1024 0 21600 {} [Background.windowStart]
    (by decide) (by decide) (by decide)
  ⟨h.2.2.2.1, h.2.2.2.2.1⟩

end SmartAlarmController

namespace SmartAlarmController

/-! ## Background heart-rate cadence over an arm cycle -/

/-- Armed from an absent setting: either not yet woken, with the setting at 60 and the "was
absent" mark saved, or woken, with the setting absent again. -/
theorem backgrounds_absent_setting (bs : List Background) :
    ∀ s : SmartAlarmController,
      ((s.alerting = false ∧ s.settings = some 60 ∧ s.savedBackgroundInterval = 65535) ∨
        (s.alerting = true ∧ s.settings = none)) →
      (((backgrounds bs s).alerting = false ∧ (backgrounds bs s).settings = some 60 ∧
          (backgrounds bs s).savedBackgroundInterval = 65535) ∨
        ((backgrounds bs s).alerting = true ∧ (backgrounds bs s).settings = none)) := by
  induction bs with
  | nil => intro s h; exact h
  | cons bg rest ih =>
    intro s h
    simp only [backgrounds, List.foldl_cons]
    apply ih
    cases bg with
    | windowStart => exact h
    | logUpdate l => exact h
    | phaseCheck r b e be =>
      simp only [background]
      rcases CheckSleepPhase_cases r b e be s with c | c
      · rw [c.1, c.2.2.1, c.2.2.2.1]
        exact h
      · right
        refine ⟨c.2.2.1, ?_⟩
        rcases h with h | h
        · rw [c.2.2.2.2.2.1, (RestoreBackgroundHR_fields s).2.1, if_pos h.2.2]
        · rw [c.1] at h
          exact absurd h.1 (by decide)

/-- C18 as stated fails: `StopAlerting` does not touch the settings store.  From the idle
default controller (setting absent), `ScheduleAlarm` makes the setting 60 and saves the mark
0xFFFF, and `StopAlerting` right after it leaves the setting at 60. -/
theorem stop_alerting_leaves_setting_counterexample :
    ({} : SmartAlarmController).settings = none ∧
      (ScheduleAlarm 1024 0 21600 {}).settings = some 60 ∧
      (ScheduleAlarm 1024 0 21600 {}).savedBackgroundInterval = 65535 ∧
      (StopAlerting (ScheduleAlarm 1024 0 21600 {})).settings = some 60 := by
  refine ⟨by decide, by decide, by decide, by decide⟩

/-- C18 amended (background-HR scenario): starting from a controller that is not alerting, with
the settings-store interval absent and nothing saved, `ScheduleAlarm` makes the setting 60 and
`savedBackgroundInterval` the mark 0xFFFF; it is the wake that makes the setting absent again
(at the latest the deadline callback, after any background steps), and `StopAlerting` leaves the
settings store as it finds it: absent after the wake, 60 when called before any wake. -/
theorem background_hr_scenario (configTICK_RATE_HZ : Nat) (utcOffset nowSec : Int)
    (s : SmartAlarmController) (bs : List Background)
    (hset : s.settings = none) (hsaved : s.savedBackgroundInterval = 0)
    (hal : s.alerting = false) :
    (ScheduleAlarm configTICK_RATE_HZ utcOffset nowSec s).settings = some 60 ∧
      (ScheduleAlarm configTICK_RATE_HZ utcOffset nowSec s).savedBackgroundInterval = 65535 ∧
      (StopAlerting (ScheduleAlarm configTICK_RATE_HZ utcOffset nowSec s)).settings = some 60 ∧
      (OnAlarmDeadline
        (backgrounds bs (ScheduleAlarm configTICK_RATE_HZ utcOffset nowSec s))).settings = none ∧
      (StopAlerting (OnAlarmDeadline
        (backgrounds bs (ScheduleAlarm configTICK_RATE_HZ utcOffset nowSec s)))).settings
        = none := by
  have hf := ScheduleAlarm_fields configTICK_RATE_HZ utcOffset nowSec s
  have h60 := hf.2.2.2.2.2.1
  have hmark : (ScheduleAlarm configTICK_RATE_HZ utcOffset nowSec s).savedBackgroundInterval
      = 65535 := by
    rw [hf.2.2.2.2.2.2, if_pos hsaved, hset]
  have hal' : (ScheduleAlarm configTICK_RATE_HZ utcOffset nowSec s).alerting = false := by
    rw [hf.2.2.2.1]; exact hal
  have hJ := backgrounds_absent_setting bs _ (Or.inl ⟨hal', h60, hmark⟩)
  have hwake : (OnAlarmDeadline
      (backgrounds bs (ScheduleAlarm configTICK_RATE_HZ utcOffset nowSec s))).settings = none := by
    rcases hJ with h | h
    · rw [(OnAlarmDeadline_of_not_alerting _ h.1).2.2.2.1, if_pos h.2.2]
    · rw [OnAlarmDeadline_of_alerting _ h.1]
      exact h.2
  exact ⟨h60, hmark, h60, hwake, hwake⟩

/-- Witness for C18 amended: the idle default controller armed at 06:00:00 for 07:00, the
window opening, the deadline, then `StopAlerting`. -/
theorem background_hr_scenario_witness :
    (ScheduleAlarm 1024 0 21600 {}).settings = some 60 ∧
      (StopAlerting (OnAlarmDeadline (backgrounds [Background.windowStart]
        (ScheduleAlarm 1024 0 21600 {})))).settings = none :=
  have h := background_hr_scenario 1024 0 21600 {} [Background.windowStart] rfl rfl rfl
  ⟨h.1, h.2.2.2.2⟩

/-! ## The classifier -/

theorem AnalyzeSleepPhase_of_few (r b : Bool) (e be : Nat → HeartRateLogger.Entry)
    (l : HeartRateLogger) (h : (HeartRateLogger.GetRecentEntries r l e 10).2 < 5) :
    AnalyzeSleepPhase r b e be l = SleepPhase.Unknown := by
  unfold AnalyzeSleepPhase
  simp only
  rw [if_pos h]

theorem GetRecentEntries_count_le (ok : Bool) (l : HeartRateLogger)
    (buffer : Nat → HeartRateLogger.Entry) (k : Nat) :
    (HeartRateLogger.GetRecentEntries ok l buffer k).2 ≤ l.header.count ∧
      (HeartRateLogger.GetRecentEntries ok l buffer k).2 ≤ k ∧
      (ok = false → (HeartRateLogger.GetRecentEntries ok l buffer k).2 = 0) := by
  unfold HeartRateLogger.GetRecentEntries
  split
  · exact ⟨Nat.zero_le _, Nat.zero_le _, fun _ => rfl⟩
  · simp only
    cases ho : HeartRateLogger.openRead ok l.fs with
    | none => exact ⟨Nat.zero_le _, Nat.zero_le _, fun _ => rfl⟩
    | some f =>
      simp only
      refine ⟨by split <;> omega, by split <;> omega, ?_⟩
      intro hok
      rw [hok] at ho
      simp [HeartRateLogger.openRead] at ho

/-- C19 (insufficient data): whenever the HR log yields fewer than 5 entries to the classifier
(fewer than 5 are logged, or the read fails and returns zero, or the read returns fewer than 5
for any other reason), `AnalyzeSleepPhase` returns `Unknown`, and a phase check in that
situation triggers no wake (no message, `alerting` unchanged, deadline timer untouched); when
the check is live (in the window, not alerting) it records `Unknown` and resets
`consecutiveLightChecks` to 0, and otherwise it does nothing at all. -/
theorem insufficient_data_unknown (readOk baselineReadOk : Bool)
    (entries baselineEntries : Nat → HeartRateLogger.Entry) (s : SmartAlarmController)
    (hfew : HeartRateLogger.GetEntryCount s.hrLogger < 5 ∨ readOk = false ∨
      (HeartRateLogger.GetRecentEntries readOk s.hrLogger entries 10).2 < 5) :
    AnalyzeSleepPhase readOk baselineReadOk entries baselineEntries s.hrLogger
        = SleepPhase.Unknown ∧
      (CheckSleepPhase readOk baselineReadOk entries baselineEntries s).messages = s.messages ∧
      (CheckSleepPhase readOk baselineReadOk entries baselineEntries s).alerting = s.alerting ∧
      (CheckSleepPhase readOk baselineReadOk entries baselineEntries s).alarmDeadlineTimer
        = s.alarmDeadlineTimer ∧
      (CheckSleepPhase readOk baselineReadOk entries baselineEntries s).consecutiveLightChecks
        = (if s.alerting = true ∨ s.inWindow = false then s.consecutiveLightChecks else 0) ∧
      (CheckSleepPhase readOk baselineReadOk entries baselineEntries s).currentPhase
        = (if s.alerting = true ∨ s.inWindow = false then s.currentPhase
            else SleepPhase.Unknown) := by
  have hle := GetRecentEntries_count_le readOk s.hrLogger entries 10
  have hlt : (HeartRateLogger.GetRecentEntries readOk s.hrLogger entries 10).2 < 5 := by
    rcases hfew with h | h | h
    · have := hle.1
      unfold HeartRateLogger.GetEntryCount at h
      omega
    · rw [hle.2.2 h]; decide
    · exact h
  have hU := AnalyzeSleepPhase_of_few readOk baselineReadOk entries baselineEntries s.hrLogger hlt
  refine ⟨hU, ?_⟩
  unfold CheckSleepPhase
  by_cases hg : s.alerting = true ∨ ¬ s.inWindow = true
  · have hg' : s.alerting = true ∨ s.inWindow = false := by
      rcases hg with h | h
      · exact Or.inl h
      · exact Or.inr (by simpa using h)
    rw [if_pos hg, if_pos hg', if_pos hg']
    exact ⟨rfl, rfl, rfl, rfl, rfl⟩
  · have hg' : ¬ (s.alerting = true ∨ s.inWindow = false) := by
      intro h
      apply hg
      rcases h with h | h
      · exact Or.inl h
      · exact Or.inr (by simp [h])
    rw [if_neg hg, if_neg hg', if_neg hg']
    simp only [hU]
    rw [if_neg (by decide)]
    exact ⟨rfl, rfl, rfl, rfl, rfl⟩

/-- Witness for C19: an in-window controller with a consecutive-light count of 1 and an empty
log. -/
theorem insufficient_data_unknown_witness :
    HeartRateLogger.GetEntryCount
        ({ inWindow := true, consecutiveLightChecks := 1 } : SmartAlarmController).hrLogger < 5 ∧
      (CheckSleepPhase true true (fun _ => ⟨0, 0⟩) (fun _ => ⟨0, 0⟩)
        { inWindow := true, consecutiveLightChecks := 1 }).consecutiveLightChecks
        = (if ({ inWindow := true, consecutiveLightChecks := 1 } : SmartAlarmController).alerting
              = true ∨
            ({ inWindow := true, consecutiveLightChecks := 1 } : SmartAlarmController).inWindow
              = false
          then 1 else 0) :=
  ⟨by decide,
    (insufficient_data_unknown true true (fun _ => ⟨0, 0⟩) (fun _ => ⟨0, 0⟩)
      { inWindow := true, consecutiveLightChecks := 1 } (Or.inl (by decide))).2.2.2.2.1⟩

end SmartAlarmController

namespace SmartAlarmController

theorem returned_length (r : (Nat → HeartRateLogger.Entry) × Nat) :
    (HeartRateLogger.returned r).length = r.2 := by
  simp [HeartRateLogger.returned]

theorem GetRecentEntries_count_eq (l : HeartRateLogger) (e e' : Nat → HeartRateLogger.Entry)
    (k k' : Nat) (hpos : 0 < (HeartRateLogger.GetRecentEntries true l e k).2) :
    (HeartRateLogger.GetRecentEntries true l e k).2 = min k l.header.count ∧
      (HeartRateLogger.GetRecentEntries true l e' k').2 = min k' l.header.count := by
  unfold HeartRateLogger.GetRecentEntries at hpos ⊢
  by_cases h0 : l.header.count = 0 ∨ k = 0
  · rw [if_pos h0] at hpos
    exact absurd hpos (Nat.lt_irrefl 0)
  · rw [if_neg h0] at hpos ⊢
    push_neg at h0
    cases ho : HeartRateLogger.openRead true l.fs with
    | none =>
      rw [ho] at hpos
      exact absurd hpos (Nat.lt_irrefl 0)
    | some f =>
      simp only
      constructor
      · split <;> omega
      · by_cases hk : l.header.count = 0 ∨ k' = 0
        · rw [if_pos hk]
          rcases hk with hk | hk
          · exact absurd hk h0.1
          · simp [hk]
        · rw [if_neg hk]
          simp only
          split <;> omega

theorem sumBpm_cast (es : List HeartRateLogger.Entry) :
    ((sumBpm es : Nat) : ℚ) = (es.map fun e => (e.bpm : ℚ)).sum := by
  unfold sumBpm
  induction es with
  | nil => simp
  | cons x xs ih => simp [ih]

theorem sumBpm_eq (es : List HeartRateLogger.Entry) :
    sumBpm es = (es.map HeartRateLogger.Entry.bpm).sum := rfl

/-- The classifier on at least 5 returned entries, in terms of the spec-side binary32
statistics of the returned lists. -/
theorem AnalyzeSleepPhase_eq_rounded (l : HeartRateLogger)
    (entries baselineEntries : Nat → HeartRateLogger.Entry)
    (hN : 5 ≤ (HeartRateLogger.GetRecentEntries true l entries 10).2)
    (E B : List HeartRateLogger.Entry)
    (hE : HeartRateLogger.returned (HeartRateLogger.GetRecentEntries true l entries 10) = E)
    (hB : HeartRateLogger.returned (HeartRateLogger.GetRecentEntries true l baselineEntries 60)
      = B) :
    AnalyzeSleepPhase true true entries baselineEntries l =
      (if roundedMean E
            < Binary32.sub (roundedBaseline (HeartRateLogger.GetEntryCount l) E B)
                (Binary32.ofNat 6) ∧
          roundedStddev E < Binary32.ofNat 3 then SleepPhase.Deep
      else if roundedStddev E > Binary32.ofNat 7 then SleepPhase.REM
      else if roundedStddev E ≥ Binary32.ofNat 3 ∧ roundedStddev E ≤ Binary32.ofNat 7 then
        SleepPhase.Light
      else if roundedTrend E > Binary32.ofNat 2 ∧
          roundedMean E
            > Binary32.sub (roundedBaseline (HeartRateLogger.GetEntryCount l) E B)
                (Binary32.ofNat 6) then SleepPhase.Light
      else if roundedStddev E < Binary32.ofNat 3 ∧
          roundedMean E
            ≥ Binary32.sub (roundedBaseline (HeartRateLogger.GetEntryCount l) E B)
                (Binary32.ofNat 6) then SleepPhase.Light
      else SleepPhase.Deep) := by
  have hcnt := GetRecentEntries_count_eq l entries baselineEntries 10 60 (by omega)
  have hlenE := returned_length (HeartRateLogger.GetRecentEntries true l entries 10)
  have hlenB := returned_length (HeartRateLogger.GetRecentEntries true l baselineEntries 60)
  rw [hE] at hlenE
  rw [hB] at hlenB
  have hmean : Binary32.div (Binary32.ofNat (sumBpm E))
      (Binary32.ofNat (HeartRateLogger.GetRecentEntries true l entries 10).2)
      = roundedMean E := by
    rw [roundedMean, sumBpm_eq, hlenE]
  have hsd : Binary32.sqrt (Binary32.div
      (E.foldl
        (fun varianceSum e =>
          Binary32.add varianceSum
            (Binary32.mul (Binary32.sub (Binary32.ofNat e.bpm) (roundedMean E))
              (Binary32.sub (Binary32.ofNat e.bpm) (roundedMean E))))
        (Binary32.ofNat 0))
      (Binary32.ofNat (HeartRateLogger.GetRecentEntries true l entries 10).2))
      = roundedStddev E := by
    rw [roundedStddev, roundedVarianceSum, hlenE]
  have htrend : Binary32.sub
      (Binary32.div
        (Binary32.ofNat
          (sumBpm (E.drop ((HeartRateLogger.GetRecentEntries true l entries 10).2 / 2))))
        (Binary32.ofNat ((HeartRateLogger.GetRecentEntries true l entries 10).2
          - (HeartRateLogger.GetRecentEntries true l entries 10).2 / 2)))
      (Binary32.div
        (Binary32.ofNat
          (sumBpm (E.take ((HeartRateLogger.GetRecentEntries true l entries 10).2 / 2))))
        (Binary32.ofNat ((HeartRateLogger.GetRecentEntries true l entries 10).2 / 2)))
      = roundedTrend E := by
    rw [roundedTrend, roundedMean, roundedMean, sumBpm_eq, sumBpm_eq, hlenE, List.length_drop,
      List.length_take, hlenE, Nat.min_eq_left (Nat.div_le_self _ _)]
  have hbase : (if HeartRateLogger.GetEntryCount l > 10 then
        (if (HeartRateLogger.GetRecentEntries true l baselineEntries 60).2 > 10 then
          Binary32.div (Binary32.ofNat (sumBpm B))
            (Binary32.ofNat (HeartRateLogger.GetRecentEntries true l baselineEntries 60).2)
        else roundedMean E)
      else roundedMean E) = roundedBaseline (HeartRateLogger.GetEntryCount l) E B := by
    unfold roundedBaseline
    by_cases hc : HeartRateLogger.GetEntryCount l > 10
    · rw [if_pos hc, if_pos hc]
      have : (HeartRateLogger.GetRecentEntries true l baselineEntries 60).2 > 10 := by
        rw [hcnt.2]
        unfold HeartRateLogger.GetEntryCount at hc
        omega
      rw [if_pos this, roundedMean, sumBpm_eq, hlenB]
    · rw [if_neg hc, if_neg hc]
  unfold AnalyzeSleepPhase
  simp only [hE, hB]
  rw [if_neg (by omega)]
  simp only [hmean, hsd, htrend, hbase]

end SmartAlarmController

namespace Binary32

/-! ## Binary32 values as rational numbers -/

theorem toRat_lt_iff (a b : Int) : toRat a < toRat b ↔ a < b := by
  unfold toRat
  have hU : (0 : ℚ) < (unitsPerOne : ℚ) := by
    unfold unitsPerOne
    positivity
  rw [div_lt_div_iff_of_pos_right hU]
  exact Int.cast_lt

theorem toRat_le_iff (a b : Int) : toRat a ≤ toRat b ↔ a ≤ b := by
  unfold toRat
  have hU : (0 : ℚ) < (unitsPerOne : ℚ) := by
    unfold unitsPerOne
    positivity
  rw [div_le_div_iff_of_pos_right hU]
  exact Int.cast_le

theorem toRat_of_units (n : Nat) (a : Int) (h : a = (n : Int) * (unitsPerOne : Int)) :
    toRat a = (n : ℚ) := by
  unfold toRat
  have hU : (unitsPerOne : ℚ) ≠ 0 := by
    unfold unitsPerOne
    positivity
  rw [h]
  push_cast
  field_simp

set_option maxRecDepth 100000 in
theorem toRat_two : toRat (ofNat 2) = 2 := by
  have h := toRat_of_units 2 (ofNat 2) (by decide)
  exact_mod_cast h

set_option maxRecDepth 100000 in
theorem toRat_three : toRat (ofNat 3) = 3 := by
  have h := toRat_of_units 3 (ofNat 3) (by decide)
  exact_mod_cast h

set_option maxRecDepth 100000 in
theorem toRat_six : toRat (ofNat 6) = 6 := by
  have h := toRat_of_units 6 (ofNat 6) (by decide)
  exact_mod_cast h

set_option maxRecDepth 100000 in
theorem toRat_seven : toRat (ofNat 7) = 7 := by
  have h := toRat_of_units 7 (ofNat 7) (by decide)
  exact_mod_cast h

end Binary32

namespace SmartAlarmController

/-- The rules on binary32 values are the spec's rules on the rational numbers they stand
for. -/
theorem rules_on_binary32 (m sd t low : Int) :
    (if m < low ∧ sd < Binary32.ofNat 3 then SleepPhase.Deep
      else if sd > Binary32.ofNat 7 then SleepPhase.REM
      else if sd ≥ Binary32.ofNat 3 ∧ sd ≤ Binary32.ofNat 7 then SleepPhase.Light
      else if t > Binary32.ofNat 2 ∧ m > low then SleepPhase.Light
      else if sd < Binary32.ofNat 3 ∧ m ≥ low then SleepPhase.Light
      else SleepPhase.Deep) =
      classifyRulesAt (Binary32.toRat m) (Binary32.toRat sd) (Binary32.toRat t)
        (Binary32.toRat low) := by
  unfold classifyRulesAt
  rw [← Binary32.toRat_two, ← Binary32.toRat_three, ← Binary32.toRat_seven]
  simp only [Binary32.toRat_lt_iff, Binary32.toRat_le_iff, gt_iff_lt, ge_iff_le]

theorem classifyRules_eq_at (m sd t b : ℝ) :
    classifyRules m sd t b = classifyRulesAt m sd t (b - 6) := rfl

theorem classifyRulesAt_collapse {α : Type} [LinearOrderedField α] (m sd t low : α) :
    classifyRulesAt m sd t low =
      (if sd < 3 ∧ m < low then SleepPhase.Deep
        else if sd > 7 then SleepPhase.REM
        else SleepPhase.Light) := by
  unfold classifyRulesAt
  by_cases h1 : m < low ∧ sd < 3
  · rw [if_pos h1, if_pos ⟨h1.2, h1.1⟩]
  · have h1' : ¬ (sd < 3 ∧ m < low) := fun h => h1 ⟨h.2, h.1⟩
    rw [if_neg h1, if_neg h1']
    by_cases h2 : sd > 7
    · rw [if_pos h2, if_pos h2]
    · rw [if_neg h2, if_neg h2]
      by_cases h3 : 3 ≤ sd ∧ sd ≤ 7
      · rw [if_pos h3]
      · rw [if_neg h3]
        by_cases h4 : t > 2 ∧ m > low
        · rw [if_pos h4]
        · rw [if_neg h4]
          have h5 : sd < 3 ∧ m ≥ low := by
            have hsd : sd < 3 := by
              by_contra hc
              exact h3 ⟨not_lt.mp hc, not_lt.mp h2⟩
            exact ⟨hsd, not_lt.mp (fun hm => h1 ⟨hm, hsd⟩)⟩
          rw [if_pos h5]

/-- Comparing the variance with 9 and 49 is comparing the standard deviation with 3 and 7: the
rules on the rational statistics are the spec's rules on the reals. -/
theorem rules_on_variance (m v t b : ℚ) :
    (if m < b - 6 ∧ v < 9 then SleepPhase.Deep
      else if v > 49 then SleepPhase.REM
      else if v ≥ 9 ∧ v ≤ 49 then SleepPhase.Light
      else if t > 2 ∧ m > b - 6 then SleepPhase.Light
      else if v < 9 ∧ m ≥ b - 6 then SleepPhase.Light
      else SleepPhase.Deep) =
      classifyRules (m : ℝ) (Real.sqrt (v : ℝ)) (t : ℝ) (b : ℝ) := by
  have h1 : ((m : ℝ) < (b : ℝ) - 6) ↔ m < b - 6 := by
    constructor <;> intro h <;> exact_mod_cast h
  have h2 : Real.sqrt (v : ℝ) < 3 ↔ v < 9 := by
    rw [Real.sqrt_lt' (by norm_num)]
    constructor <;> intro h
    · have h' : (v : ℝ) < 9 := by linarith
      exact_mod_cast h'
    · have h' : (v : ℝ) < 9 := by exact_mod_cast h
      linarith
  have h3 : Real.sqrt (v : ℝ) > 7 ↔ v > 49 := by
    show 7 < Real.sqrt (v : ℝ) ↔ 49 < v
    rw [Real.lt_sqrt (by norm_num)]
    constructor <;> intro h
    · have h' : (49 : ℝ) < v := by linarith
      exact_mod_cast h'
    · have h' : (49 : ℝ) < v := by exact_mod_cast h
      linarith
  have h4 : 3 ≤ Real.sqrt (v : ℝ) ↔ v ≥ 9 := by
    rw [Real.le_sqrt' (by norm_num)]
    constructor <;> intro h
    · have h' : (9 : ℝ) ≤ v := by linarith
      exact_mod_cast h'
    · have h' : (9 : ℝ) ≤ v := by exact_mod_cast h
      linarith
  have h5 : Real.sqrt (v : ℝ) ≤ 7 ↔ v ≤ 49 := by
    rw [Real.sqrt_le_left (by norm_num)]
    constructor <;> intro h
    · have h' : (v : ℝ) ≤ 49 := by linarith
      exact_mod_cast h'
    · have h' : (v : ℝ) ≤ 49 := by exact_mod_cast h
      linarith
  have h6 : (t : ℝ) > 2 ↔ t > 2 := by
    constructor <;> intro h <;> exact_mod_cast h
  have h7 : (m : ℝ) > (b : ℝ) - 6 ↔ m > b - 6 := by
    constructor <;> intro h <;> exact_mod_cast h
  have h8 : (m : ℝ) ≥ (b : ℝ) - 6 ↔ m ≥ b - 6 := by
    constructor <;> intro h <;> exact_mod_cast h
  unfold classifyRules
  simp only [h1, h2, h3, h4, h5, h6, h7, h8]

set_option maxRecDepth 1000000 in
theorem AnalyzeSleepPhase_settlingLog :
    AnalyzeSleepPhase true true (fun _ => ⟨0, 0⟩) (fun _ => ⟨0, 0⟩) settlingLog
      = SleepPhase.Deep := by
  decide

set_option maxRecDepth 1000000 in
theorem rounded_settlingLog :
    roundedMean (HeartRateLogger.returned
        (HeartRateLogger.GetRecentEntries true settlingLog (fun _ => ⟨0, 0⟩) 10))
        = 15807283 * 2 ^ 131 ∧
      Binary32.sub
        (roundedBaseline (HeartRateLogger.GetEntryCount settlingLog)
          (HeartRateLogger.returned
            (HeartRateLogger.GetRecentEntries true settlingLog (fun _ => ⟨0, 0⟩) 10))
          (HeartRateLogger.returned
            (HeartRateLogger.GetRecentEntries true settlingLog (fun _ => ⟨0, 0⟩) 60)))
        (Binary32.ofNat 6) = 3951821 * 2 ^ 133 := by
  refine ⟨by decide, by decide⟩

theorem exact_settlingLog :
    specMean (HeartRateLogger.returned
        (HeartRateLogger.GetRecentEntries true settlingLog (fun _ => ⟨0, 0⟩) 10)) = 603 / 10 ∧
      specVariance (HeartRateLogger.returned
        (HeartRateLogger.GetRecentEntries true settlingLog (fun _ => ⟨0, 0⟩) 10)) = 21 / 100 ∧
      specTrend (HeartRateLogger.returned
        (HeartRateLogger.GetRecentEntries true settlingLog (fun _ => ⟨0, 0⟩) 10)) = 1 / 5 ∧
      specBaseline (HeartRateLogger.GetEntryCount settlingLog)
        (HeartRateLogger.returned
          (HeartRateLogger.GetRecentEntries true settlingLog (fun _ => ⟨0, 0⟩) 10))
        (HeartRateLogger.returned
          (HeartRateLogger.GetRecentEntries true settlingLog (fun _ => ⟨0, 0⟩) 60))
        = 663 / 10 := by
  have hE : HeartRateLogger.returned
      (HeartRateLogger.GetRecentEntries true settlingLog (fun _ => ⟨0, 0⟩) 10) =
      [⟨1600, 60⟩, ⟨1660, 60⟩, ⟨1720, 60⟩, ⟨1780, 61⟩, ⟨1840, 60⟩, ⟨1900, 60⟩, ⟨1960, 61⟩,
        ⟨2020, 60⟩, ⟨2080, 60⟩, ⟨2140, 61⟩] := by decide
  have hB : HeartRateLogger.returned
      (HeartRateLogger.GetRecentEntries true settlingLog (fun _ => ⟨0, 0⟩) 60) =
      [⟨1000, 72⟩, ⟨1060, 72⟩, ⟨1120, 72⟩, ⟨1180, 72⟩, ⟨1240, 72⟩, ⟨1300, 72⟩, ⟨1360, 72⟩,
        ⟨1420, 73⟩, ⟨1480, 73⟩, ⟨1540, 73⟩,
        ⟨1600, 60⟩, ⟨1660, 60⟩, ⟨1720, 60⟩, ⟨1780, 61⟩, ⟨1840, 60⟩, ⟨1900, 60⟩, ⟨1960, 61⟩,
        ⟨2020, 60⟩, ⟨2080, 60⟩, ⟨2140, 61⟩] := by decide
  have hc : HeartRateLogger.GetEntryCount settlingLog = 20 := by decide
  rw [hE, hB, hc]
  refine ⟨?_, ?_, ?_, ?_⟩ <;> norm_num [specMean, specVariance, specTrend, specBaseline]

/-- C20 as stated fails: the program computes in `float`, not in exact arithmetic.  On the
example log of 20 samples (ten around 72 bpm, then 60, 60, 60, 61, 60, 60, 61, 60, 60, 61) the
exact mean 60.3 equals the exact `baseline - 6` (66.3 - 6), so rule (1) does not match and the
first match of the rules on the exact statistics is rule (5), Light.  In binary32 the mean
rounds down to `15807283 / 2^18` and `baseline - 6.0f` is `3951821 / 2^16`, which is larger, so
`AnalyzeSleepPhase` matches rule (1) and returns Deep. -/
theorem classifier_exact_rules_counterexample :
    AnalyzeSleepPhase true true (fun _ => ⟨0, 0⟩) (fun _ => ⟨0, 0⟩) settlingLog
        = SleepPhase.Deep ∧
      classifyRules
        ((specMean (HeartRateLogger.returned
          (HeartRateLogger.GetRecentEntries true settlingLog (fun _ => ⟨0, 0⟩) 10)) : ℚ) : ℝ)
        (Real.sqrt ((specVariance (HeartRateLogger.returned
          (HeartRateLogger.GetRecentEntries true settlingLog (fun _ => ⟨0, 0⟩) 10)) : ℚ) : ℝ))
        ((specTrend (HeartRateLogger.returned
          (HeartRateLogger.GetRecentEntries true settlingLog (fun _ => ⟨0, 0⟩) 10)) : ℚ) : ℝ)
        ((specBaseline (HeartRateLogger.GetEntryCount settlingLog)
          (HeartRateLogger.returned
            (HeartRateLogger.GetRecentEntries true settlingLog (fun _ => ⟨0, 0⟩) 10))
          (HeartRateLogger.returned
            (HeartRateLogger.GetRecentEntries true settlingLog (fun _ => ⟨0, 0⟩) 60)) : ℚ) : ℝ)
        = SleepPhase.Light ∧
      Binary32.toRat (roundedMean (HeartRateLogger.returned
        (HeartRateLogger.GetRecentEntries true settlingLog (fun _ => ⟨0, 0⟩) 10)))
        = 15807283 / 2 ^ 18 ∧
      Binary32.toRat (Binary32.sub
        (roundedBaseline (HeartRateLogger.GetEntryCount settlingLog)
          (HeartRateLogger.returned
            (HeartRateLogger.GetRecentEntries true settlingLog (fun _ => ⟨0, 0⟩) 10))
          (HeartRateLogger.returned
            (HeartRateLogger.GetRecentEntries true settlingLog (fun _ => ⟨0, 0⟩) 60)))
        (Binary32.ofNat 6)) = 3951821 / 2 ^ 16 := by
  refine ⟨AnalyzeSleepPhase_settlingLog, ?_, ?_, ?_⟩
  · rw [← rules_on_variance, exact_settlingLog.1, exact_settlingLog.2.1, exact_settlingLog.2.2.1,
      exact_settlingLog.2.2.2]
    norm_num
  · rw [rounded_settlingLog.1]
    unfold Binary32.toRat Binary32.unitsPerOne
    norm_num
  · rw [rounded_settlingLog.2]
    unfold Binary32.toRat Binary32.unitsPerOne
    norm_num

/-- C20 amended (classification): for every log that returns `N >= 5` recent samples
(`N <= 10`) and every baseline sample set, with the mean, the population standard deviation,
the half-split trend and the baseline (mean of the up-to-60 newest entries when more than 10
entries are logged, else the mean) computed in binary32 as the program does (every conversion,
sum, difference, product, quotient and square root rounded to nearest, the squares added in
chronological order) and `low` the rounded difference `baseline - 6.0f`, `AnalyzeSleepPhase`
returns the first match of the ordered rules on these values: (1) `mean < low` and
`stddev < 3` gives Deep; (2) `stddev > 7` gives REM; (3) `3 <= stddev <= 7` gives Light;
(4) `trend > 2` and `mean > low` gives Light; (5) `stddev < 3` and `mean >= low` gives Light;
(6) otherwise Deep. -/
theorem classifier_first_match (l : HeartRateLogger)
    (entries baselineEntries : Nat → HeartRateLogger.Entry)
    (hN : 5 ≤ (HeartRateLogger.GetRecentEntries true l entries 10).2) :
    (HeartRateLogger.returned (HeartRateLogger.GetRecentEntries true l entries 10)).length ≤ 10 ∧
      AnalyzeSleepPhase true true entries baselineEntries l =
        classifyRulesAt
          (Binary32.toRat (roundedMean (HeartRateLogger.returned
            (HeartRateLogger.GetRecentEntries true l entries 10))))
          (Binary32.toRat (roundedStddev (HeartRateLogger.returned
            (HeartRateLogger.GetRecentEntries true l entries 10))))
          (Binary32.toRat (roundedTrend (HeartRateLogger.returned
            (HeartRateLogger.GetRecentEntries true l entries 10))))
          (Binary32.toRat (Binary32.sub
            (roundedBaseline (HeartRateLogger.GetEntryCount l)
              (HeartRateLogger.returned (HeartRateLogger.GetRecentEntries true l entries 10))
              (HeartRateLogger.returned
                (HeartRateLogger.GetRecentEntries true l baselineEntries 60)))
            (Binary32.ofNat 6))) := by
  constructor
  · rw [returned_length]
    exact (GetRecentEntries_count_le true l entries 10).2.1
  · rw [AnalyzeSleepPhase_eq_rounded l entries baselineEntries hN _ _ rfl rfl]
    exact rules_on_binary32 _ _ _ _

end SmartAlarmController

namespace SmartAlarmController

/-! ## Timing of the wake window -/

theorem SetEnabled_fields (enabled : Bool) (s : SmartAlarmController) :
    (SetEnabled enabled s).windowStartTimer = s.windowStartTimer ∧
      (SetEnabled enabled s).phaseCheckTimer = s.phaseCheckTimer ∧
      (SetEnabled enabled s).alarmSettings.hours = s.alarmSettings.hours ∧
      (SetEnabled enabled s).alarmSettings.minutes = s.alarmSettings.minutes := by
  unfold SetEnabled
  split <;> exact ⟨rfl, rfl, rfl, rfl⟩

end SmartAlarmController

namespace SmartAlarmController

set_option maxRecDepth 1000000 in
/-- On the example log the classifier returns `Light` (steady heart rate at the baseline). -/
theorem AnalyzeSleepPhase_steadyLog :
    AnalyzeSleepPhase true true (fun _ => ⟨0, 0⟩) (fun _ => ⟨0, 0⟩) steadyLog
      = SleepPhase.Light := by
  decide

/-- Witness for C20 amended: on the example log (five samples of 60 bpm) the first match of
the rules on the binary32 statistics is `Light`. -/
theorem classifier_first_match_witness :
    5 ≤ (HeartRateLogger.GetRecentEntries true steadyLog (fun _ => ⟨0, 0⟩) 10).2 ∧
      classifyRulesAt
        (Binary32.toRat (roundedMean (HeartRateLogger.returned
          (HeartRateLogger.GetRecentEntries true steadyLog (fun _ => ⟨0, 0⟩) 10))))
        (Binary32.toRat (roundedStddev (HeartRateLogger.returned
          (HeartRateLogger.GetRecentEntries true steadyLog (fun _ => ⟨0, 0⟩) 10))))
        (Binary32.toRat (roundedTrend (HeartRateLogger.returned
          (HeartRateLogger.GetRecentEntries true steadyLog (fun _ => ⟨0, 0⟩) 10))))
        (Binary32.toRat (Binary32.sub
          (roundedBaseline (HeartRateLogger.GetEntryCount steadyLog)
            (HeartRateLogger.returned
              (HeartRateLogger.GetRecentEntries true steadyLog (fun _ => ⟨0, 0⟩) 10))
            (HeartRateLogger.returned
              (HeartRateLogger.GetRecentEntries true steadyLog (fun _ => ⟨0, 0⟩) 60)))
          (Binary32.ofNat 6))) = SleepPhase.Light :=
  ⟨by decide,
    (classifier_first_match steadyLog (fun _ => ⟨0, 0⟩) (fun _ => ⟨0, 0⟩) (by decide)).2.symm.trans
      AnalyzeSleepPhase_steadyLog⟩

end SmartAlarmController

namespace SmartAlarmController

end SmartAlarmController

namespace SmartAlarmController

end SmartAlarmController

namespace SmartAlarmController

end SmartAlarmController

namespace SmartAlarmController

/-! ## Phase checks -/

theorem CheckSleepPhase_eq_with (r b : Bool) (e be : Nat → HeartRateLogger.Entry)
    (s : SmartAlarmController) :
    CheckSleepPhase r b e be s = CheckSleepPhaseWith (AnalyzeSleepPhase r b e be s.hrLogger) s :=
  rfl

theorem CheckSleepPhaseWith_gated (p : SleepPhase) (s : SmartAlarmController)
    (h : s.alerting = true ∨ s.inWindow = false) : CheckSleepPhaseWith p s = s := by
  unfold CheckSleepPhaseWith
  rw [if_pos]
  rcases h with h | h
  · exact Or.inl h
  · exact Or.inr (by simp [h])

theorem CheckSleepPhaseWith_not_light (p : SleepPhase) (s : SmartAlarmController)
    (ha : s.alerting = false) (hw : s.inWindow = true) (hp : p ≠ SleepPhase.Light) :
    CheckSleepPhaseWith p s =
      { s with previousPhase := s.currentPhase, currentPhase := p, consecutiveLightChecks := 0 } := by
  unfold CheckSleepPhaseWith
  rw [if_neg (by simp [ha, hw])]
  simp only
  rw [if_neg hp]

theorem CheckSleepPhaseWith_light_quiet (s : SmartAlarmController)
    (ha : s.alerting = false) (hw : s.inWindow = true)
    (hcond : ¬ ((s.currentPhase = SleepPhase.Deep ∨ s.currentPhase = SleepPhase.REM) ∨
      2 ≤ (s.consecutiveLightChecks + 1) % 256)) :
    CheckSleepPhaseWith SleepPhase.Light s =
      { s with
        previousPhase := s.currentPhase
        currentPhase := SleepPhase.Light
        consecutiveLightChecks := (s.consecutiveLightChecks + 1) % 256 } := by
  unfold CheckSleepPhaseWith
  rw [if_neg (by simp [ha, hw])]
  simp only
  rw [if_pos trivial, if_neg]
  simpa [requiredLightSleepChecks] using hcond

theorem CheckSleepPhaseWith_light_wake (s : SmartAlarmController)
    (ha : s.alerting = false) (hw : s.inWindow = true)
    (hcond : (s.currentPhase = SleepPhase.Deep ∨ s.currentPhase = SleepPhase.REM) ∨
      2 ≤ (s.consecutiveLightChecks + 1) % 256) :
    CheckSleepPhaseWith SleepPhase.Light s = TriggerWake
      { s with
        previousPhase := s.currentPhase
        currentPhase := SleepPhase.Light
        consecutiveLightChecks := (s.consecutiveLightChecks + 1) % 256
        phaseCheckTimer := xTimerStop s.phaseCheckTimer
        alarmDeadlineTimer := xTimerStop s.alarmDeadlineTimer
        inWindow := false } := by
  unfold CheckSleepPhaseWith
  rw [if_neg (by simp [ha, hw])]
  simp only
  rw [if_pos trivial, if_pos]
  simpa [requiredLightSleepChecks] using hcond

theorem TriggerWake_phases (s : SmartAlarmController) :
    (TriggerWake s).currentPhase = s.currentPhase ∧
      (TriggerWake s).previousPhase = s.previousPhase ∧
      (TriggerWake s).consecutiveLightChecks = s.consecutiveLightChecks ∧
      (TriggerWake s).settingsChanged = s.settingsChanged ∧
      (TriggerWake s).settingsFile = s.settingsFile ∧
      (TriggerWake s).hrLogger = s.hrLogger := by
  unfold TriggerWake RestoreBackgroundHR
  dsimp only
  split_ifs <;> exact ⟨rfl, rfl, rfl, rfl, rfl, rfl⟩

/-- C22 (phase-check step): `CheckSleepPhase` is its body applied to the classifier result.
For every state with `inWindow == true` and `alerting == false` and every classifier result
`p`, the check sets `previousPhase` to the old `currentPhase` and `currentPhase` to `p`; if
`p == Light` it increments the 8-bit counter `consecutiveLightChecks` and, iff the old
`currentPhase` is Deep or REM or the incremented counter is `>= 2`, it stops the phase-check
and deadline timers, clears `inWindow`, sets `alerting` and posts the wake message; if
`p != Light` it sets the counter to 0 and triggers no wake. -/
theorem phase_check_step (r b : Bool) (e be : Nat → HeartRateLogger.Entry)
    (p : SleepPhase) (s : SmartAlarmController)
    (hw : s.inWindow = true) (ha : s.alerting = false) :
    CheckSleepPhase r b e be s = CheckSleepPhaseWith (AnalyzeSleepPhase r b e be s.hrLogger) s ∧
      (CheckSleepPhaseWith p s).previousPhase = s.currentPhase ∧
      (CheckSleepPhaseWith p s).currentPhase = p ∧
      (CheckSleepPhaseWith p s).consecutiveLightChecks =
        (if p = SleepPhase.Light then (s.consecutiveLightChecks + 1) % 256 else 0) ∧
      (if p = SleepPhase.Light ∧
          ((s.currentPhase = SleepPhase.Deep ∨ s.currentPhase = SleepPhase.REM) ∨
            2 ≤ (s.consecutiveLightChecks + 1) % 256) then
        (CheckSleepPhaseWith p s).phaseCheckTimer.active = false ∧
          (CheckSleepPhaseWith p s).alarmDeadlineTimer.active = false ∧
          (CheckSleepPhaseWith p s).inWindow = false ∧
          (CheckSleepPhaseWith p s).alerting = true ∧
          (CheckSleepPhaseWith p s).messages = s.messages ++ [Message.SetOffSmartAlarm]
      else
        (CheckSleepPhaseWith p s).phaseCheckTimer = s.phaseCheckTimer ∧
          (CheckSleepPhaseWith p s).alarmDeadlineTimer = s.alarmDeadlineTimer ∧
          (CheckSleepPhaseWith p s).inWindow = true ∧
          (CheckSleepPhaseWith p s).alerting = false ∧
          (CheckSleepPhaseWith p s).messages = s.messages) := by
  refine ⟨rfl, ?_⟩
  by_cases hp : p = SleepPhase.Light
  · subst hp
    by_cases hcond : (s.currentPhase = SleepPhase.Deep ∨ s.currentPhase = SleepPhase.REM) ∨
        2 ≤ (s.consecutiveLightChecks + 1) % 256
    · have c1 : SleepPhase.Light = SleepPhase.Light ∧
          ((s.currentPhase = SleepPhase.Deep ∨ s.currentPhase = SleepPhase.REM) ∨
            2 ≤ (s.consecutiveLightChecks + 1) % 256) := ⟨rfl, hcond⟩
      rw [CheckSleepPhaseWith_light_wake s ha hw hcond, if_pos c1, if_pos rfl]
      have ht := TriggerWake_fields
        { s with
          previousPhase := s.currentPhase
          currentPhase := SleepPhase.Light
          consecutiveLightChecks := (s.consecutiveLightChecks + 1) % 256
          phaseCheckTimer := xTimerStop s.phaseCheckTimer
          alarmDeadlineTimer := xTimerStop s.alarmDeadlineTimer
          inWindow := false }
      have hq := TriggerWake_phases
        { s with
          previousPhase := s.currentPhase
          currentPhase := SleepPhase.Light
          consecutiveLightChecks := (s.consecutiveLightChecks + 1) % 256
          phaseCheckTimer := xTimerStop s.phaseCheckTimer
          alarmDeadlineTimer := xTimerStop s.alarmDeadlineTimer
          inWindow := false }
      obtain ⟨t1, t2, -, -, t5, -, -, t8, t9⟩ := ht
      exact ⟨hq.2.1, hq.1, hq.2.2.1, by rw [t9]; rfl, by rw [t8]; rfl, t5, t1, t2⟩
    · have c2 : ¬ (SleepPhase.Light = SleepPhase.Light ∧
          ((s.currentPhase = SleepPhase.Deep ∨ s.currentPhase = SleepPhase.REM) ∨
            2 ≤ (s.consecutiveLightChecks + 1) % 256)) := fun h => hcond h.2
      rw [CheckSleepPhaseWith_light_quiet s ha hw hcond, if_neg c2, if_pos rfl]
      exact ⟨rfl, rfl, rfl, rfl, rfl, hw, ha, rfl⟩
  · have c3 : ¬ (p = SleepPhase.Light ∧
        ((s.currentPhase = SleepPhase.Deep ∨ s.currentPhase = SleepPhase.REM) ∨
          2 ≤ (s.consecutiveLightChecks + 1) % 256)) := fun h => hp h.1
    rw [CheckSleepPhaseWith_not_light p s ha hw hp, if_neg c3, if_neg hp]
    exact ⟨rfl, rfl, rfl, rfl, rfl, hw, ha, rfl⟩

/-- Witness for C22: in the window, after a `Deep` phase, the result `Light` triggers the
wake. -/
theorem phase_check_step_witness :
    (CheckSleepPhaseWith SleepPhase.Light
        { inWindow := true, currentPhase := SleepPhase.Deep }).previousPhase = SleepPhase.Deep ∧
      (CheckSleepPhaseWith SleepPhase.Light
        { inWindow := true, currentPhase := SleepPhase.Deep }).currentPhase = SleepPhase.Light :=
  have h := phase_check_step true true (fun _ => ⟨0, 0⟩) (fun _ => ⟨0, 0⟩) SleepPhase.Light
    { inWindow := true, currentPhase := SleepPhase.Deep } rfl rfl
  ⟨h.2.1, h.2.2.1⟩

/-- C23 as stated fails: when the phase before the two `Light` checks is `Deep` (a non-Light
phase), the first check already triggers the wake (transition to light) and the second check
does nothing. -/
theorem sustained_light_after_deep_counterexample :
    (CheckSleepPhaseWith SleepPhase.Light
        { inWindow := true, currentPhase := SleepPhase.Deep }).alerting = true ∧
      (CheckSleepPhaseWith SleepPhase.Light
        { inWindow := true, currentPhase := SleepPhase.Deep }).messages
        = [Message.SetOffSmartAlarm] ∧
      (CheckSleepPhaseWith SleepPhase.Light
        (CheckSleepPhaseWith SleepPhase.Light
          { inWindow := true, currentPhase := SleepPhase.Deep })).messages
        = [Message.SetOffSmartAlarm] := by
  refine ⟨by decide, by decide, by decide⟩

/-- C23 amended (sustained-light scenario): with the window open, the controller not alerting,
the previous phase `Unknown` and the counter at 0, when two consecutive phase checks both
classify `Light`, the first check triggers no wake and the second check triggers it. -/
theorem sustained_light_second_check_wakes (s : SmartAlarmController)
    (hw : s.inWindow = true) (ha : s.alerting = false)
    (hprev : s.currentPhase = SleepPhase.Unknown) (hcnt : s.consecutiveLightChecks = 0) :
    (CheckSleepPhaseWith SleepPhase.Light s).alerting = false ∧
      (CheckSleepPhaseWith SleepPhase.Light s).messages = s.messages ∧
      (CheckSleepPhaseWith SleepPhase.Light
        (CheckSleepPhaseWith SleepPhase.Light s)).alerting = true ∧
      (CheckSleepPhaseWith SleepPhase.Light
        (CheckSleepPhaseWith SleepPhase.Light s)).messages
        = s.messages ++ [Message.SetOffSmartAlarm] := by
  have h1 := CheckSleepPhaseWith_light_quiet s ha hw (by
    rw [hprev, hcnt]
    decide)
  rw [h1]
  have h2 := CheckSleepPhaseWith_light_wake
    { s with
      previousPhase := s.currentPhase
      currentPhase := SleepPhase.Light
      consecutiveLightChecks := (s.consecutiveLightChecks + 1) % 256 } ha hw (by
    right
    simp only [hcnt]
    decide)
  rw [h2]
  have ht := TriggerWake_fields
    { s with
      previousPhase := SleepPhase.Light
      currentPhase := SleepPhase.Light
      consecutiveLightChecks := ((s.consecutiveLightChecks + 1) % 256 + 1) % 256
      phaseCheckTimer := xTimerStop s.phaseCheckTimer
      alarmDeadlineTimer := xTimerStop s.alarmDeadlineTimer
      inWindow := false }
  exact ⟨ha, rfl, ht.1, ht.2.1⟩

/-- Witness for C23 amended: the state right after the window opened. -/
theorem sustained_light_second_check_wakes_witness :
    (CheckSleepPhaseWith SleepPhase.Light (OnWindowStart {})).alerting = false ∧
      (CheckSleepPhaseWith SleepPhase.Light
        (CheckSleepPhaseWith SleepPhase.Light (OnWindowStart {}))).alerting = true :=
  have h := sustained_light_second_check_wakes (OnWindowStart {}) rfl rfl rfl rfl
  ⟨h.1, h.2.2.1⟩

/-- C24 (stale phase-check tick): for every state with `alerting == true` or
`inWindow == false`, `CheckSleepPhase` returns the state unchanged: every controller field, the
timers, the settings store and the posted messages are as before, so applying it any number of
times equals applying it zero times. -/
theorem stale_phase_check_is_noop (r b : Bool) (e be : Nat → HeartRateLogger.Entry)
    (s : SmartAlarmController) (n : Nat) (h : s.alerting = true ∨ s.inWindow = false) :
    CheckSleepPhase r b e be s = s ∧ (CheckSleepPhase r b e be)^[n] s = s := by
  have h1 : CheckSleepPhase r b e be s = s := by
    rw [CheckSleepPhase_eq_with]
    exact CheckSleepPhaseWith_gated _ s h
  exact ⟨h1, Function.iterate_fixed h1 n⟩

/-- Witness for C24: an alerting controller. -/
theorem stale_phase_check_is_noop_witness :
    (CheckSleepPhase true true (fun _ => ⟨0, 0⟩) (fun _ => ⟨0, 0⟩)
      { alerting := true, inWindow := true }).messages = [] :=
  (congrArg SmartAlarmController.messages
    (stale_phase_check_is_noop true true (fun _ => ⟨0, 0⟩) (fun _ => ⟨0, 0⟩)
      { alerting := true, inWindow := true } 3 (Or.inl rfl)).1).trans rfl

/-- C25 as stated fails: `OnWindowStart` resets the phase state whatever `inWindow` is.  On an
in-window controller with one `Light` check counted it sets the counter back to 0 and the
current phase to `Unknown`. -/
theorem window_start_resets_in_window_counterexample :
    ({ inWindow := true, currentPhase := SleepPhase.Light, consecutiveLightChecks := 1 } :
        SmartAlarmController).inWindow = true ∧
      (OnWindowStart
        { inWindow := true, currentPhase := SleepPhase.Light,
          consecutiveLightChecks := 1 }).consecutiveLightChecks = 0 ∧
      (OnWindowStart
        { inWindow := true, currentPhase := SleepPhase.Light,
          consecutiveLightChecks := 1 }).currentPhase = SleepPhase.Unknown := by
  refine ⟨by decide, by decide, by decide⟩

/-- C25 amended: for every state, also one with `inWindow == true`, a window-start tick
(`OnWindowStart`) sets `consecutiveLightChecks` to 0 and `previousPhase` and `currentPhase` to
`Unknown`, sets `inWindow` and starts the phase-check timer; it leaves `alerting`, the other
two timers, the alarm settings, the settings store and the posted messages unchanged. -/
theorem window_start_always_resets (s : SmartAlarmController) :
    (OnWindowStart s).consecutiveLightChecks = 0 ∧
      (OnWindowStart s).previousPhase = SleepPhase.Unknown ∧
      (OnWindowStart s).currentPhase = SleepPhase.Unknown ∧
      (OnWindowStart s).inWindow = true ∧
      (OnWindowStart s).phaseCheckTimer.active = true ∧
      (OnWindowStart s).alerting = s.alerting ∧
      (OnWindowStart s).windowStartTimer = s.windowStartTimer ∧
      (OnWindowStart s).alarmDeadlineTimer = s.alarmDeadlineTimer ∧
      (OnWindowStart s).alarmSettings = s.alarmSettings ∧
      (OnWindowStart s).settings = s.settings ∧
      (OnWindowStart s).messages = s.messages :=
  ⟨rfl, rfl, rfl, rfl, rfl, rfl, rfl, rfl, rfl, rfl, rfl⟩

end SmartAlarmController

namespace HeartRateLogger

/-! ## The ring layout -/

theorem step_layout (l : HeartRateLogger) (op : Op)
    (h : l.header.count < maxEntries → l.header.writeIndex = l.header.count) :
    (step l op).header.count < maxEntries →
      (step l op).header.writeIndex = (step l op).header.count := by
  cases op with
  | add c =>
    simp only [step]
    cases ha : accepted l c.now c.bpm
    · rw [AddMeasurement_of_rejected _ _ _ _ _ ha]; exact h
    · rw [AddMeasurement_accepted_header _ _ _ _ _ ha]
      simp only [maxEntries_eq] at h ⊢
      intro hc
      by_cases hlt : l.header.count < 480
      · rw [if_pos hlt] at hc ⊢
        rw [h hlt]
        omega
      · rw [if_neg hlt] at hc
        exact absurd hc hlt
  | clear d s =>
    intro _
    simp only [step, Clear, SaveHeader_header]

/-- C26 as stated fails: `LoadHeader` checks only the ranges of `writeIndex` and `count`, so
`Init` accepts the header `(version 1, writeIndex 5, count 0)`; then `count < 480` but
`writeIndex != count`, and it stays so after an accepted append (`writeIndex 6`, `count 1`). -/
theorem ring_layout_counterexample :
    (Init true { fs := some ⟨some ⟨1, 5, 0⟩, fun _ => none⟩ }).header = ⟨1, 5, 0⟩ ∧
      (run [Op.add ⟨true, true, 1000, 60⟩]
        (Init true { fs := some ⟨some ⟨1, 5, 0⟩, fun _ => none⟩ })).header = ⟨1, 6, 1⟩ := by
  refine ⟨by decide, by decide⟩

/-- C26 amended (ring layout invariant): in every log state reached by `Init` on a fresh logger
whose backing file is missing, rejected, or carries an accepted header that itself has
`writeIndex == count` when `count < 480`, followed by any sequence of `AddMeasurement` and
`Clear` calls (with any filesystem outcomes), if `count < 480` then `writeIndex == count`. -/
theorem ring_layout_invariant (fs : Option HrFile) (openOk : Bool) (ops : List Op)
    (hgood : (Init openOk { fs := fs }).header.count < 480 →
      (Init openOk { fs := fs }).header.writeIndex = (Init openOk { fs := fs }).header.count) :
    (run ops (Init openOk { fs := fs })).header.count < 480 →
      (run ops (Init openOk { fs := fs })).header.writeIndex =
        (run ops (Init openOk { fs := fs })).header.count := by
  have key : ∀ (ops : List Op) (l : HeartRateLogger),
      (l.header.count < maxEntries → l.header.writeIndex = l.header.count) →
      (run ops l).header.count < maxEntries →
        (run ops l).header.writeIndex = (run ops l).header.count := by
    intro ops
    induction ops with
    | nil => intro l h; exact h
    | cons op rest ih =>
      intro l h
      simp only [run, List.foldl_cons]
      exact ih _ (step_layout l op h)
  exact key ops _ hgood

/-- Witness for C26 amended: no backing file, then two samples 30 s apart. -/
theorem ring_layout_invariant_witness :
    (run [Op.add ⟨true, true, 1000, 60⟩, Op.add ⟨true, true, 1030, 61⟩]
        (Init true { fs := none })).header.writeIndex =
      (run [Op.add ⟨true, true, 1000, 60⟩, Op.add ⟨true, true, 1030, 61⟩]
        (Init true { fs := none })).header.count :=
  ring_layout_invariant none true
    [Op.add ⟨true, true, 1000, 60⟩, Op.add ⟨true, true, 1030, 61⟩] (fun _ => rfl) (by decide)

end HeartRateLogger

namespace SmartAlarmController

/-! ## The classifier does not use the trend -/

set_option maxRecDepth 1000000 in
theorem AnalyzeSleepPhase_restingLog :
    AnalyzeSleepPhase true true (fun _ => ⟨0, 0⟩) (fun _ => ⟨0, 0⟩) restingLog
      = SleepPhase.Deep := by
  decide

theorem exact_restingLog :
    specMean (HeartRateLogger.returned
        (HeartRateLogger.GetRecentEntries true restingLog (fun _ => ⟨0, 0⟩) 10)) = 294 / 5 ∧
      specVariance (HeartRateLogger.returned
        (HeartRateLogger.GetRecentEntries true restingLog (fun _ => ⟨0, 0⟩) 10)) = 4 / 25 ∧
      specBaseline (HeartRateLogger.GetEntryCount restingLog)
        (HeartRateLogger.returned
          (HeartRateLogger.GetRecentEntries true restingLog (fun _ => ⟨0, 0⟩) 10))
        (HeartRateLogger.returned
          (HeartRateLogger.GetRecentEntries true restingLog (fun _ => ⟨0, 0⟩) 60))
        = 324 / 5 := by
  have hE : HeartRateLogger.returned
      (HeartRateLogger.GetRecentEntries true restingLog (fun _ => ⟨0, 0⟩) 10) =
      [⟨1300, 58⟩, ⟨1360, 58⟩, ⟨1420, 59⟩, ⟨1480, 59⟩, ⟨1540, 59⟩, ⟨1600, 59⟩, ⟨1660, 59⟩,
        ⟨1720, 59⟩, ⟨1780, 59⟩, ⟨1840, 59⟩] := by decide
  have hB : HeartRateLogger.returned
      (HeartRateLogger.GetRecentEntries true restingLog (fun _ => ⟨0, 0⟩) 60) =
      [⟨1000, 76⟩, ⟨1060, 77⟩, ⟨1120, 77⟩, ⟨1180, 77⟩, ⟨1240, 77⟩,
        ⟨1300, 58⟩, ⟨1360, 58⟩, ⟨1420, 59⟩, ⟨1480, 59⟩, ⟨1540, 59⟩, ⟨1600, 59⟩, ⟨1660, 59⟩,
        ⟨1720, 59⟩, ⟨1780, 59⟩, ⟨1840, 59⟩] := by decide
  have hc : HeartRateLogger.GetEntryCount restingLog = 15 := by decide
  rw [hE, hB, hc]
  refine ⟨?_, ?_, ?_⟩ <;> norm_num [specMean, specVariance, specBaseline]

/-- C27 as stated fails: the program computes in `float`, so `AnalyzeSleepPhase` does not
return Deep exactly when `stddev < 3` and `mean < baseline - 6` hold of the exact statistics.
On the example log of 15 samples (five around 77 bpm, then 58, 58 and eight times 59) the
exact mean 58.8 equals the exact `baseline - 6` (64.8 - 6), so `mean < baseline - 6` is false,
yet `AnalyzeSleepPhase` returns Deep. -/
theorem classifier_deep_at_exact_tie_counterexample :
    AnalyzeSleepPhase true true (fun _ => ⟨0, 0⟩) (fun _ => ⟨0, 0⟩) restingLog
        = SleepPhase.Deep ∧
      5 ≤ (HeartRateLogger.GetRecentEntries true restingLog (fun _ => ⟨0, 0⟩) 10).2 ∧
      ¬ (((specMean (HeartRateLogger.returned
          (HeartRateLogger.GetRecentEntries true restingLog (fun _ => ⟨0, 0⟩) 10)) : ℚ) : ℝ)
        < ((specBaseline (HeartRateLogger.GetEntryCount restingLog)
          (HeartRateLogger.returned
            (HeartRateLogger.GetRecentEntries true restingLog (fun _ => ⟨0, 0⟩) 10))
          (HeartRateLogger.returned
            (HeartRateLogger.GetRecentEntries true restingLog (fun _ => ⟨0, 0⟩) 60)) : ℚ) : ℝ)
          - 6) := by
  refine ⟨AnalyzeSleepPhase_restingLog, by decide, ?_⟩
  rw [exact_restingLog.1, exact_restingLog.2.2]
  norm_num

/-- C27 amended (the trend is irrelevant): for every log that returns at least 5 samples,
`AnalyzeSleepPhase` returns Deep iff `stddev < 3` and `mean < low`, REM iff `stddev > 7`, and
Light in every other case, where `mean`, `stddev` and `low` (the rounded `baseline - 6.0f`)
are the values the program computes in binary32; the result of the rules is the same for
every value of the trend, and the final fall-through `return Deep` is never reached (whenever
rules 1 to 4 do not apply, rule 5 does). -/
theorem classifier_ignores_trend (l : HeartRateLogger)
    (entries baselineEntries : Nat → HeartRateLogger.Entry) (trend trend' : ℚ)
    (hN : 5 ≤ (HeartRateLogger.GetRecentEntries true l entries 10).2) :
    AnalyzeSleepPhase true true entries baselineEntries l =
        (if Binary32.toRat (roundedStddev (HeartRateLogger.returned
              (HeartRateLogger.GetRecentEntries true l entries 10))) < 3 ∧
            Binary32.toRat (roundedMean (HeartRateLogger.returned
              (HeartRateLogger.GetRecentEntries true l entries 10)))
              < Binary32.toRat (Binary32.sub
                  (roundedBaseline (HeartRateLogger.GetEntryCount l)
                    (HeartRateLogger.returned
                      (HeartRateLogger.GetRecentEntries true l entries 10))
                    (HeartRateLogger.returned
                      (HeartRateLogger.GetRecentEntries true l baselineEntries 60)))
                  (Binary32.ofNat 6))
          then SleepPhase.Deep
          else if Binary32.toRat (roundedStddev (HeartRateLogger.returned
              (HeartRateLogger.GetRecentEntries true l entries 10))) > 7
          then SleepPhase.REM
          else SleepPhase.Light) ∧
      (∀ m sd low : ℚ, classifyRulesAt m sd trend low = classifyRulesAt m sd trend' low) ∧
      (∀ m sd low : ℚ,
        ¬ (¬ (m < low ∧ sd < 3) ∧ ¬ (sd > 7) ∧ ¬ (3 ≤ sd ∧ sd ≤ 7) ∧
          ¬ (trend > 2 ∧ m > low) ∧ ¬ (sd < 3 ∧ m ≥ low))) := by
  refine ⟨?_, ?_, ?_⟩
  · rw [AnalyzeSleepPhase_eq_rounded l entries baselineEntries hN _ _ rfl rfl,
      rules_on_binary32, classifyRulesAt_collapse]
  · intro m sd low
    rw [classifyRulesAt_collapse, classifyRulesAt_collapse]
  · rintro m sd low ⟨h1, h2, h3, -, h5⟩
    have hsd : sd < 3 := by
      by_contra hc
      exact h3 ⟨not_lt.mp hc, not_lt.mp h2⟩
    exact h5 ⟨hsd, not_lt.mp (fun hm => h1 ⟨hm, hsd⟩)⟩

/-- Witness for C27 amended: the example log (five samples of 60 bpm), on which the rules give
the same result for the trends 5 and -5. -/
theorem classifier_ignores_trend_witness :
    5 ≤ (HeartRateLogger.GetRecentEntries true steadyLog (fun _ => ⟨0, 0⟩) 10).2 ∧
      classifyRulesAt (60 : ℚ) 0 5 54 = classifyRulesAt (60 : ℚ) 0 (-5) 54 :=
  ⟨by decide,
    (classifier_ignores_trend steadyLog (fun _ => ⟨0, 0⟩) (fun _ => ⟨0, 0⟩) 5 (-5)
      (by decide)).2.1 60 0 54⟩

end SmartAlarmController

namespace SmartAlarmController

/-! ## Early wake over a window -/

theorem checksWith_gated (ps : List SleepPhase) (s : SmartAlarmController)
    (h : s.alerting = true ∨ s.inWindow = false) : checksWith ps s = s := by
  induction ps with
  | nil => rfl
  | cons p rest ih =>
    simp only [checksWith, List.foldl_cons] at ih ⊢
    rw [CheckSleepPhaseWith_gated p s h]
    exact ih

theorem checksWith_cons (p : SleepPhase) (ps : List SleepPhase) (s : SmartAlarmController) :
    checksWith (p :: ps) s = checksWith ps (CheckSleepPhaseWith p s) := rfl

theorem checksWith_append (ps qs : List SleepPhase) (s : SmartAlarmController) :
    checksWith (ps ++ qs) s = checksWith qs (checksWith ps s) := by
  simp only [checksWith, List.foldl_append]

theorem checksWith_wake (ps : List SleepPhase) (t : SmartAlarmController)
    (ha : t.alerting = false) (hw : t.inWindow = true)
    (hc : t.consecutiveLightChecks = if t.currentPhase = SleepPhase.Light then 1 else 0) :
    (checksWith ps t).alerting = hasWakePairFrom t.currentPhase ps ∧
      (checksWith ps t).messages =
        t.messages ++
          (if hasWakePairFrom t.currentPhase ps = true then [Message.SetOffSmartAlarm] else []) := by
  induction ps generalizing t with
  | nil => simp [checksWith, hasWakePairFrom, ha]
  | cons p rest ih =>
    rw [checksWith_cons]
    by_cases hp : p = SleepPhase.Light
    · subst hp
      by_cases hu : t.currentPhase = SleepPhase.Unknown
      · have hc0 : t.consecutiveLightChecks = 0 := by rw [hc, hu]; rfl
        have hq : ¬ ((t.currentPhase = SleepPhase.Deep ∨ t.currentPhase = SleepPhase.REM) ∨
            2 ≤ (t.consecutiveLightChecks + 1) % 256) := by
          rw [hu, hc0]; decide
        rw [CheckSleepPhaseWith_light_quiet t ha hw hq]
        have := ih { t with
            previousPhase := t.currentPhase
            currentPhase := SleepPhase.Light
            consecutiveLightChecks := (t.consecutiveLightChecks + 1) % 256 } ha hw
          (by simp [hc0])
        simpa [hasWakePairFrom, hu] using this
      · have hq : (t.currentPhase = SleepPhase.Deep ∨ t.currentPhase = SleepPhase.REM) ∨
            2 ≤ (t.consecutiveLightChecks + 1) % 256 := by
          cases hcp : t.currentPhase with
          | Unknown => exact absurd hcp hu
          | Light => right; rw [hc, hcp]; decide
          | Deep => exact Or.inl (Or.inl rfl)
          | REM => exact Or.inl (Or.inr rfl)
        rw [CheckSleepPhaseWith_light_wake t ha hw hq]
        have ht := TriggerWake_fields
          { t with
            previousPhase := t.currentPhase
            currentPhase := SleepPhase.Light
            consecutiveLightChecks := (t.consecutiveLightChecks + 1) % 256
            phaseCheckTimer := xTimerStop t.phaseCheckTimer
            alarmDeadlineTimer := xTimerStop t.alarmDeadlineTimer
            inWindow := false }
        rw [checksWith_gated rest _ (Or.inl ht.1), ht.1, ht.2.1]
        simp [hasWakePairFrom, hu]
    · rw [CheckSleepPhaseWith_not_light p t ha hw hp]
      have := ih { t with
          previousPhase := t.currentPhase, currentPhase := p, consecutiveLightChecks := 0 } ha hw
        (by simp [hp])
      simpa [hasWakePairFrom, hp] using this

theorem hasWakePairFrom_iff (b : SleepPhase) (ps : List SleepPhase) :
    hasWakePairFrom b ps = true ↔
      (b ≠ SleepPhase.Unknown ∧ ps[0]? = some SleepPhase.Light) ∨
        ∃ i, ps[i]? ≠ none ∧ ps[i]? ≠ some SleepPhase.Unknown ∧
          ps[i + 1]? = some SleepPhase.Light := by
  induction ps generalizing b with
  | nil => simp [hasWakePairFrom]
  | cons p rest ih =>
    simp only [hasWakePairFrom, Bool.or_eq_true, Bool.and_eq_true, decide_eq_true_eq, ih]
    constructor
    · rintro (⟨hb, hp⟩ | (⟨hp, hr⟩ | ⟨i, h1, h2, h3⟩))
      · exact Or.inl ⟨hb, by simp [hp]⟩
      · exact Or.inr ⟨0, by simp, by simpa using hp, by simpa using hr⟩
      · exact Or.inr ⟨i + 1, by simpa using h1, by simpa using h2, by simpa using h3⟩
    · rintro (⟨hb, hp⟩ | ⟨i, h1, h2, h3⟩)
      · exact Or.inl ⟨hb, by simpa using hp⟩
      · cases i with
        | zero =>
          exact Or.inr (Or.inl ⟨by simpa using h2, by simpa using h3⟩)
        | succ j =>
          exact Or.inr (Or.inr ⟨j, by simpa using h1, by simpa using h2, by simpa using h3⟩)

theorem hasWakePairFrom_take (ps : List SleepPhase) (k : Nat) :
    hasWakePairFrom SleepPhase.Unknown (ps.take k) = true ↔
      ∃ i, i + 1 < k ∧ ps[i]? ≠ none ∧ ps[i]? ≠ some SleepPhase.Unknown ∧
        ps[i + 1]? = some SleepPhase.Light := by
  rw [hasWakePairFrom_iff]
  constructor
  · rintro (⟨hb, -⟩ | ⟨i, h1, h2, h3⟩)
    · exact absurd rfl hb
    · rw [List.getElem?_take] at h1 h2 h3
      have hk : i + 1 < k := by
        by_contra hc
        rw [if_neg hc] at h3
        exact absurd h3 (by simp)
      rw [if_pos hk] at h3
      rw [if_pos (by omega)] at h1 h2
      exact ⟨i, hk, h1, h2, h3⟩
  · rintro ⟨i, hk, h1, h2, h3⟩
    refine Or.inr ⟨i, ?_, ?_, ?_⟩
    · rw [List.getElem?_take, if_pos (by omega)]; exact h1
    · rw [List.getElem?_take, if_pos (by omega)]; exact h2
    · rw [List.getElem?_take, if_pos hk]; exact h3

/-- C28 (early-wake characterisation): start from the state right after `OnWindowStart` with
`alerting == false` and deliver the classifier results `ps` to successive phase checks.  Then
(1) the controller is alerting after these checks iff some result `Light` in `ps` directly
follows a result other than `Unknown`; (2) exactly one wake message has been posted in that
case and none otherwise; (3) the check with result number `n + 1` (index `n` from 0) is the one
that triggers the wake iff `n >= 1`, `ps[n] == Light`, `ps[n-1] != Unknown`, and no earlier
index has that property; (4) the first check after the window opens never triggers a wake. -/
theorem early_wake_characterisation (s : SmartAlarmController) (ps : List SleepPhase) (n : Nat)
    (ha : s.alerting = false) :
    ((checksWith ps (OnWindowStart s)).alerting = true ↔
        ∃ i, ps[i]? ≠ none ∧ ps[i]? ≠ some SleepPhase.Unknown ∧
          ps[i + 1]? = some SleepPhase.Light) ∧
      (checksWith ps (OnWindowStart s)).messages =
        s.messages ++
          (if (checksWith ps (OnWindowStart s)).alerting = true then [Message.SetOffSmartAlarm]
            else []) ∧
      (((checksWith (ps.take n) (OnWindowStart s)).alerting = false ∧
          (checksWith (ps.take (n + 1)) (OnWindowStart s)).alerting = true) ↔
        (1 ≤ n ∧ ps[n]? = some SleepPhase.Light ∧ ps[n - 1]? ≠ some SleepPhase.Unknown ∧
          ∀ j, j + 1 < n →
            ¬ (ps[j]? ≠ some SleepPhase.Unknown ∧ ps[j + 1]? = some SleepPhase.Light))) ∧
      (∀ p, (CheckSleepPhaseWith p (OnWindowStart s)).alerting = false ∧
        (CheckSleepPhaseWith p (OnWindowStart s)).messages = s.messages) := by
  have hA : ∀ qs : List SleepPhase,
      (checksWith qs (OnWindowStart s)).alerting = hasWakePairFrom SleepPhase.Unknown qs ∧
        (checksWith qs (OnWindowStart s)).messages =
          s.messages ++
            (if hasWakePairFrom SleepPhase.Unknown qs = true then [Message.SetOffSmartAlarm]
              else []) :=
    fun qs => checksWith_wake qs (OnWindowStart s) ha rfl rfl
  refine ⟨?_, ?_, ?_, ?_⟩
  · rw [(hA ps).1, hasWakePairFrom_iff]
    constructor
    · rintro (⟨hb, -⟩ | h)
      · exact absurd rfl hb
      · exact h
    · exact Or.inr
  · rw [(hA ps).2, (hA ps).1]
  · rw [(hA (ps.take n)).1, (hA (ps.take (n + 1))).1, ← Bool.not_eq_true, hasWakePairFrom_take,
      hasWakePairFrom_take]
    constructor
    · rintro ⟨hno, i, hi, h1, h2, h3⟩
      have hin : i + 1 = n := by
        by_contra hc
        exact hno ⟨i, by omega, h1, h2, h3⟩
      subst hin
      refine ⟨by omega, h3, ?_, ?_⟩
      · simpa using h2
      · rintro j hj ⟨g2, g3⟩
        refine hno ⟨j, hj, ?_, g2, g3⟩
        intro hnone
        rw [List.getElem?_eq_none_iff] at hnone
        have : ps[j + 1]? = none := List.getElem?_eq_none_iff.mpr (by omega)
        rw [this] at g3
        exact absurd g3 (by simp)
    · rintro ⟨hn, h3, h2, hno⟩
      obtain ⟨m, rfl⟩ : ∃ m, n = m + 1 := ⟨n - 1, by omega⟩
      refine ⟨?_, m, by omega, ?_, by simpa using h2, h3⟩
      · rintro ⟨j, hj, -, g2, g3⟩
        exact hno j hj ⟨g2, g3⟩
      · intro hnone
        rw [List.getElem?_eq_none_iff] at hnone
        have : ps[m + 1]? = none := List.getElem?_eq_none_iff.mpr (by omega)
        rw [this] at h3
        exact absurd h3 (by simp)
  · intro p
    have h1 := hA [p]
    simp only [checksWith, List.foldl_cons, List.foldl_nil, hasWakePairFrom] at h1
    simpa using h1

/-- Witness for C28: the results Unknown, Light, Light: the second check (a `Light` after
`Unknown`) is quiet, the third (a `Light` after `Light`) triggers the wake. -/
theorem early_wake_characterisation_witness :
    (checksWith [SleepPhase.Unknown, SleepPhase.Light, SleepPhase.Light]
        (OnWindowStart {})).alerting = true ∧
      (checksWith [SleepPhase.Unknown, SleepPhase.Light]
        (OnWindowStart {})).alerting = false :=
  ⟨(early_wake_characterisation {} [SleepPhase.Unknown, SleepPhase.Light, SleepPhase.Light] 2
      rfl).1.mpr ⟨1, by decide, by decide, by decide⟩,
    by decide⟩

end SmartAlarmController

namespace SmartAlarmController

/-! ## The wake message -/

theorem WakeStep_refl (s : SmartAlarmController) : WakeStep s s :=
  Or.inl ⟨rfl, rfl⟩

theorem WakeStep_trans {s t u : SmartAlarmController} (h1 : WakeStep s t) (h2 : WakeStep t u) :
    WakeStep s u := by
  rcases h1 with ⟨m1, a1⟩ | ⟨a1, b1, m1⟩
  · rcases h2 with ⟨m2, a2⟩ | ⟨a2, b2, m2⟩
    · exact Or.inl ⟨m2.trans m1, a2.trans a1⟩
    · exact Or.inr ⟨a1 ▸ a2, b2, m1 ▸ m2⟩
  · rcases h2 with ⟨m2, a2⟩ | ⟨a2, b2, m2⟩
    · exact Or.inr ⟨a1, a2.trans b1, m2.trans m1⟩
    · rw [b1] at a2
      exact absurd a2 (by decide)

theorem WakeStep_of_eq {s t : SmartAlarmController} (hm : t.messages = s.messages)
    (ha : t.alerting = s.alerting) : WakeStep s t :=
  Or.inl ⟨hm, ha⟩

theorem WakeStep_SetAlarmTime (h m : Nat) (s : SmartAlarmController) :
    WakeStep s (SetAlarmTime h m s) := by
  unfold SetAlarmTime
  split_ifs
  · exact Or.inl ⟨rfl, rfl⟩
  · exact WakeStep_refl s

theorem WakeStep_SetEnabled (e : Bool) (s : SmartAlarmController) :
    WakeStep s (SetEnabled e s) := by
  unfold SetEnabled
  split_ifs
  · exact Or.inl ⟨rfl, rfl⟩
  · exact WakeStep_refl s

theorem WakeStep_ScheduleAlarm (rate : Nat) (off now : Int) (s : SmartAlarmController) :
    WakeStep s (ScheduleAlarm rate off now s) :=
  Or.inl ⟨(ScheduleAlarm_fields rate off now s).2.2.2.2.1, (ScheduleAlarm_fields rate off now s).2.2.2.1⟩

theorem DisableAlarm_wake_fields (s : SmartAlarmController) :
    (DisableAlarm s).messages = s.messages ∧ (DisableAlarm s).alerting = s.alerting := by
  have hr := RestoreBackgroundHR_fields (StopTimers s)
  unfold DisableAlarm
  simp only
  generalize RestoreBackgroundHR (StopTimers s) = t at hr ⊢
  obtain ⟨-, -, -, h4, -, -, -, -, -, -, -, -, h13⟩ := hr
  cases he : t.alarmSettings.enabled
  · simp only [Bool.false_eq_true, if_false]
    exact ⟨h13, h4⟩
  · simp only [if_true]
    exact ⟨h13, h4⟩

theorem WakeStep_DisableAlarm (s : SmartAlarmController) : WakeStep s (DisableAlarm s) :=
  Or.inl (DisableAlarm_wake_fields s)

theorem WakeStep_SaveSettings (openOk : Bool) (s : SmartAlarmController) :
    WakeStep s (SaveSettings openOk s) := by
  unfold SaveSettings SaveSettingsToFile
  split_ifs <;> exact Or.inl ⟨rfl, rfl⟩

theorem WakeStep_OnWindowStart (s : SmartAlarmController) : WakeStep s (OnWindowStart s) :=
  Or.inl ⟨rfl, rfl⟩

theorem WakeStep_OnAlarmDeadline (s : SmartAlarmController) : WakeStep s (OnAlarmDeadline s) := by
  by_cases ha : s.alerting = true
  · have e := OnAlarmDeadline_of_alerting s ha
    left
    rw [e]
    exact ⟨rfl, rfl⟩
  · have ha' : s.alerting = false := by simpa using ha
    have e := OnAlarmDeadline_of_not_alerting s ha'
    exact Or.inr ⟨ha', e.2.1, e.1⟩

theorem WakeStep_CheckSleepPhaseWith (p : SleepPhase) (s : SmartAlarmController) :
    WakeStep s (CheckSleepPhaseWith p s) := by
  by_cases hg : s.alerting = true ∨ s.inWindow = false
  · rw [CheckSleepPhaseWith_gated p s hg]
    exact WakeStep_refl s
  · have ha : s.alerting = false := by
      cases h : s.alerting
      · rfl
      · exact absurd (Or.inl h) hg
    have hw : s.inWindow = true := by
      cases h : s.inWindow
      · exact absurd (Or.inr h) hg
      · rfl
    by_cases hp : p = SleepPhase.Light
    · subst hp
      by_cases hq : (s.currentPhase = SleepPhase.Deep ∨ s.currentPhase = SleepPhase.REM) ∨
          2 ≤ (s.consecutiveLightChecks + 1) % 256
      · rw [CheckSleepPhaseWith_light_wake s ha hw hq]
        exact Or.inr ⟨ha, (TriggerWake_fields _).1, (TriggerWake_fields _).2.1⟩
      · rw [CheckSleepPhaseWith_light_quiet s ha hw hq]
        exact Or.inl ⟨rfl, rfl⟩
    · rw [CheckSleepPhaseWith_not_light p s ha hw hp]
      exact Or.inl ⟨rfl, rfl⟩

theorem WakeStep_CheckSleepPhase (r b : Bool) (e be : Nat → HeartRateLogger.Entry)
    (s : SmartAlarmController) : WakeStep s (CheckSleepPhase r b e be s) :=
  WakeStep_CheckSleepPhaseWith _ s

theorem WakeStep_step (rate : Nat) (off : Int) (sys : Sys) (ev : Event)
    (h : ev ≠ Event.stopAlerting) : WakeStep sys.ctrl (Sys.step rate off sys ev).ctrl := by
  cases ev with
  | advance n => exact WakeStep_refl _
  | setAlarmTime hh mm => exact WakeStep_SetAlarmTime _ _ _
  | setEnabled e => exact WakeStep_SetEnabled _ _
  | scheduleAlarm => exact WakeStep_ScheduleAlarm _ _ _ _
  | disableAlarm => exact WakeStep_DisableAlarm _
  | stopAlerting => exact absurd rfl h
  | saveSettings o => exact WakeStep_SaveSettings _ _
  | logUpdate l => exact Or.inl ⟨rfl, rfl⟩
  | windowTimer =>
    simp only [Sys.step]
    split_ifs
    · exact Or.inl ⟨rfl, rfl⟩
    · exact WakeStep_refl _
  | deadlineTimer =>
    simp only [Sys.step]
    split_ifs
    · exact WakeStep_trans (t := { sys.ctrl with
          alarmDeadlineTimer := xTimerStop sys.ctrl.alarmDeadlineTimer })
        (Or.inl ⟨rfl, rfl⟩) (WakeStep_OnAlarmDeadline _)
    · exact WakeStep_refl _
  | phaseTimer r b e be =>
    simp only [Sys.step]
    split_ifs
    · exact WakeStep_CheckSleepPhase _ _ _ _ _
    · exact WakeStep_refl _

theorem WakeStep_run (rate : Nat) (off : Int) (evs : List Event) (sys : Sys)
    (h : Event.stopAlerting ∉ evs) : WakeStep sys.ctrl (Sys.run rate off evs sys).ctrl := by
  induction evs generalizing sys with
  | nil => exact WakeStep_refl _
  | cons ev rest ih =>
    simp only [Sys.run, List.foldl_cons]
    have h1 : ev ≠ Event.stopAlerting := fun e => h (by simp [e])
    have h2 : Event.stopAlerting ∉ rest := fun e => h (by simp [e])
    exact WakeStep_trans (WakeStep_step rate off sys ev h1) (ih _ h2)

/-- C29 (at most one wake message per alerting episode): (1) every event of the system,
`StopAlerting` included, either posts nothing or changes `alerting` from false to true and
posts exactly one wake message; the same holds for the timer callbacks called in any state;
(2) over a sequence of events without a `StopAlerting` call, starting anywhere, the messages
posted are none (with `alerting` as at the start) or exactly one (with `alerting` going from
false to true); (3) hence from one `StopAlerting` call to the next, that call included, at
most one message is posted. -/
theorem one_wake_message_per_episode (rate : Nat) (off : Int) (sys : Sys) (ev : Event)
    (evs : List Event) (h : Event.stopAlerting ∉ evs) :
    ((Sys.step rate off sys ev).ctrl.messages = sys.ctrl.messages ∨
        (sys.ctrl.alerting = false ∧ (Sys.step rate off sys ev).ctrl.alerting = true ∧
          (Sys.step rate off sys ev).ctrl.messages =
            sys.ctrl.messages ++ [Message.SetOffSmartAlarm])) ∧
      (∀ (s : SmartAlarmController) (r b : Bool) (e be : Nat → HeartRateLogger.Entry),
        WakeStep s (OnWindowStart s) ∧ WakeStep s (OnAlarmDeadline s) ∧
          WakeStep s (CheckSleepPhase r b e be s)) ∧
      (((Sys.run rate off evs sys).ctrl.messages = sys.ctrl.messages ∧
          (Sys.run rate off evs sys).ctrl.alerting = sys.ctrl.alerting) ∨
        (sys.ctrl.alerting = false ∧ (Sys.run rate off evs sys).ctrl.alerting = true ∧
          (Sys.run rate off evs sys).ctrl.messages =
            sys.ctrl.messages ++ [Message.SetOffSmartAlarm])) ∧
      ((Sys.step rate off (Sys.run rate off evs (Sys.step rate off sys Event.stopAlerting))
            Event.stopAlerting).ctrl.messages = sys.ctrl.messages ∨
        (Sys.step rate off (Sys.run rate off evs (Sys.step rate off sys Event.stopAlerting))
            Event.stopAlerting).ctrl.messages =
          sys.ctrl.messages ++ [Message.SetOffSmartAlarm]) := by
  refine ⟨?_, ?_, WakeStep_run rate off evs sys h, ?_⟩
  · by_cases hs : ev = Event.stopAlerting
    · subst hs
      exact Or.inl rfl
    · rcases WakeStep_step rate off sys ev hs with ⟨hm, -⟩ | hw
      · exact Or.inl hm
      · exact Or.inr hw
  · intro s r b e be
    exact ⟨WakeStep_OnWindowStart s, WakeStep_OnAlarmDeadline s,
      WakeStep_CheckSleepPhase r b e be s⟩
  · rcases WakeStep_run rate off evs (Sys.step rate off sys Event.stopAlerting) h with
      ⟨hm, -⟩ | ⟨-, -, hm⟩
    · exact Or.inl hm
    · exact Or.inr hm

/-- Witness for C29: two deadline expiries without a `StopAlerting` in between post one
message, not two. -/
theorem one_wake_message_per_episode_witness :
    Event.stopAlerting ∉ [Event.scheduleAlarm, Event.deadlineTimer, Event.scheduleAlarm,
        Event.deadlineTimer] ∧
      (Sys.run 1024 0 [Event.scheduleAlarm, Event.deadlineTimer, Event.scheduleAlarm,
        Event.deadlineTimer] ⟨{}, 0, 0, 0⟩).ctrl.messages.length ≤ 1 :=
  ⟨by simp,
    (one_wake_message_per_episode 1024 0 ⟨{}, 0, 0, 0⟩ Event.scheduleAlarm
      [Event.scheduleAlarm, Event.deadlineTimer, Event.scheduleAlarm, Event.deadlineTimer]
      (by simp)).2.2.1.elim (fun h => by rw [h.1]; decide) (fun h => by rw [h.2.2]; decide)⟩

end SmartAlarmController

namespace SmartAlarmController

/-! ## The dirty flag and the settings file -/

theorem loadedSettings_none : loadedSettings none = {} := rfl

theorem loadedSettings_short : loadedSettings (some none) = {} := rfl

theorem loadedSettings_record (r : AlarmSettings) :
    loadedSettings (some (some r)) = if r.version = 1 then r else {} := by
  unfold loadedSettings LoadSettingsFromFile
  simp only [if_true]
  split_ifs <;> rfl

theorem loadedSettings_version (f : Option (Option AlarmSettings)) :
    (loadedSettings f).version = 1 := by
  rcases f with _ | _ | r
  · rfl
  · rfl
  · rw [loadedSettings_record]
    split_ifs with h
    · exact h
    · rfl

theorem LoadSettingsFromFile_alarmSettings (s : SmartAlarmController) (h : s.alarmSettings = {}) :
    (LoadSettingsFromFile true s).alarmSettings = loadedSettings s.settingsFile ∧
      (LoadSettingsFromFile true s).settingsFile = s.settingsFile ∧
      (LoadSettingsFromFile true s).settingsChanged = s.settingsChanged := by
  unfold loadedSettings LoadSettingsFromFile
  simp only [if_true]
  rcases hf : s.settingsFile with _ | _ | r
  · exact ⟨h, hf, rfl⟩
  · exact ⟨h, hf, rfl⟩
  · simp only
    split_ifs
    · exact ⟨rfl, rfl, rfl⟩
    · exact ⟨h, hf, rfl⟩

theorem SettingsStep_refl (s : SmartAlarmController) : SettingsStep s s :=
  ⟨rfl, rfl, Or.inr ⟨rfl, rfl⟩⟩

theorem SettingsStep_trans {s t u : SmartAlarmController} (h1 : SettingsStep s t)
    (h2 : SettingsStep t u) : SettingsStep s u := by
  obtain ⟨f1, v1, c1⟩ := h1
  obtain ⟨f2, v2, c2⟩ := h2
  refine ⟨f2.trans f1, v2.trans v1, ?_⟩
  rcases c2 with c2 | ⟨a2, d2⟩
  · exact Or.inl c2
  · rcases c1 with c1 | ⟨a1, d1⟩
    · exact Or.inl (d2.trans c1)
    · exact Or.inr ⟨a2.trans a1, d2.trans d1⟩

theorem SettingsInv_of_step {s t : SmartAlarmController} (hs : SettingsInv s)
    (h : SettingsStep s t) : SettingsInv t := by
  obtain ⟨f, v, c⟩ := h
  refine ⟨v.trans hs.1, fun hc => ?_⟩
  rcases c with c | ⟨a, d⟩
  · rw [c] at hc
    exact absurd hc (by decide)
  · rw [a, f]
    exact hs.2 (d ▸ hc)

theorem SettingsStep_SetAlarmTime (h m : Nat) (s : SmartAlarmController) :
    SettingsStep s (SetAlarmTime h m s) := by
  unfold SetAlarmTime
  split_ifs
  · exact ⟨rfl, rfl, Or.inl rfl⟩
  · exact SettingsStep_refl s

theorem SettingsStep_SetEnabled (e : Bool) (s : SmartAlarmController) :
    SettingsStep s (SetEnabled e s) := by
  unfold SetEnabled
  split_ifs
  · exact ⟨rfl, rfl, Or.inl rfl⟩
  · exact SettingsStep_refl s

theorem SettingsStep_RestoreBackgroundHR (s : SmartAlarmController) :
    SettingsStep s (RestoreBackgroundHR s) := by
  unfold RestoreBackgroundHR
  dsimp only
  split_ifs <;> exact ⟨rfl, rfl, Or.inr ⟨rfl, rfl⟩⟩

theorem SettingsStep_EnableBackgroundHR (s : SmartAlarmController) :
    SettingsStep s (EnableBackgroundHR s) := by
  unfold EnableBackgroundHR
  dsimp only
  split_ifs <;> exact ⟨rfl, rfl, Or.inr ⟨rfl, rfl⟩⟩

theorem SettingsStep_TriggerWake (s : SmartAlarmController) :
    SettingsStep s (TriggerWake s) := by
  have h := SettingsStep_RestoreBackgroundHR { s with alerting := true }
  obtain ⟨f, v, c⟩ := h
  refine ⟨f, v, ?_⟩
  rcases c with c | c
  · exact Or.inl c
  · exact Or.inr c

theorem SettingsStep_ScheduleAlarm (rate : Nat) (off now : Int) (s : SmartAlarmController) :
    SettingsStep s (ScheduleAlarm rate off now s) := by
  unfold ScheduleAlarm
  dsimp only
  refine SettingsStep_trans ?_ (SettingsStep_EnableBackgroundHR _)
  unfold StopTimers OnWindowStart
  split_ifs <;>
    first
      | exact ⟨rfl, rfl, Or.inl rfl⟩
      | exact ⟨rfl, rfl, Or.inr ⟨rfl, rfl⟩⟩

theorem SettingsStep_DisableAlarm (s : SmartAlarmController) :
    SettingsStep s (DisableAlarm s) := by
  have hr := SettingsStep_RestoreBackgroundHR (StopTimers s)
  unfold DisableAlarm
  simp only
  generalize RestoreBackgroundHR (StopTimers s) = t at hr ⊢
  have hst : SettingsStep s t := SettingsStep_trans ⟨rfl, rfl, Or.inr ⟨rfl, rfl⟩⟩ hr
  cases he : t.alarmSettings.enabled
  · simp only [Bool.false_eq_true, if_false]
    exact SettingsStep_trans hst ⟨rfl, rfl, Or.inr ⟨rfl, rfl⟩⟩
  · simp only [if_true]
    exact SettingsStep_trans hst ⟨rfl, rfl, Or.inl rfl⟩

theorem SettingsStep_StopAlerting (s : SmartAlarmController) :
    SettingsStep s (StopAlerting s) :=
  ⟨rfl, rfl, Or.inl rfl⟩

theorem SettingsStep_OnWindowStart (s : SmartAlarmController) :
    SettingsStep s (OnWindowStart s) :=
  ⟨rfl, rfl, Or.inr ⟨rfl, rfl⟩⟩

theorem SettingsStep_OnAlarmDeadline (s : SmartAlarmController) :
    SettingsStep s (OnAlarmDeadline s) := by
  by_cases ha : s.alerting = true
  · rw [OnAlarmDeadline_of_alerting s ha]
    exact ⟨rfl, rfl, Or.inr ⟨rfl, rfl⟩⟩
  · have ha' : s.alerting = false := by simpa using ha
    have e : OnAlarmDeadline s =
        TriggerWake { s with phaseCheckTimer := xTimerStop s.phaseCheckTimer, inWindow := false } := by
      unfold OnAlarmDeadline
      simp [ha']
    rw [e]
    exact SettingsStep_trans ⟨rfl, rfl, Or.inr ⟨rfl, rfl⟩⟩ (SettingsStep_TriggerWake _)

theorem SettingsStep_CheckSleepPhaseWith (p : SleepPhase) (s : SmartAlarmController) :
    SettingsStep s (CheckSleepPhaseWith p s) := by
  by_cases hg : s.alerting = true ∨ s.inWindow = false
  · rw [CheckSleepPhaseWith_gated p s hg]
    exact SettingsStep_refl s
  · have ha : s.alerting = false := by
      cases h : s.alerting
      · rfl
      · exact absurd (Or.inl h) hg
    have hw : s.inWindow = true := by
      cases h : s.inWindow
      · exact absurd (Or.inr h) hg
      · rfl
    by_cases hp : p = SleepPhase.Light
    · subst hp
      by_cases hq : (s.currentPhase = SleepPhase.Deep ∨ s.currentPhase = SleepPhase.REM) ∨
          2 ≤ (s.consecutiveLightChecks + 1) % 256
      · rw [CheckSleepPhaseWith_light_wake s ha hw hq]
        exact SettingsStep_trans ⟨rfl, rfl, Or.inr ⟨rfl, rfl⟩⟩ (SettingsStep_TriggerWake _)
      · rw [CheckSleepPhaseWith_light_quiet s ha hw hq]
        exact ⟨rfl, rfl, Or.inr ⟨rfl, rfl⟩⟩
    · rw [CheckSleepPhaseWith_not_light p s ha hw hp]
      exact ⟨rfl, rfl, Or.inr ⟨rfl, rfl⟩⟩

theorem SettingsInv_SaveSettings (s : SmartAlarmController) (hs : SettingsInv s) :
    SettingsInv (SaveSettings true s) ∧
      (SaveSettings true s).alarmSettings = s.alarmSettings ∧
      (SaveSettings true s).settingsChanged = false ∧
      loadedSettings (SaveSettings true s).settingsFile = s.alarmSettings := by
  unfold SaveSettings SaveSettingsToFile
  by_cases hc : s.settingsChanged = true
  · rw [if_pos hc, if_pos rfl]
    have hl : loadedSettings (some (some s.alarmSettings)) = s.alarmSettings := by
      rw [loadedSettings_record, if_pos hs.1]
    exact ⟨⟨hs.1, fun _ => hl.symm⟩, rfl, rfl, hl⟩
  · have hc' : s.settingsChanged = false := by simpa using hc
    rw [if_neg hc]
    exact ⟨hs, rfl, hc', (hs.2 hc').symm⟩

theorem SettingsInv_Init (rate : Nat) (off now : Int) (st : Option Nat) (msgs : List Message)
    (l : HeartRateLogger) (f : Option (Option AlarmSettings)) :
    SettingsInv (Init rate off now true (create st msgs l f)) := by
  unfold Init
  dsimp only
  have h := LoadSettingsFromFile_alarmSettings
    { create st msgs l f with
      windowStartTimer := { active := false, period := 1 }
      alarmDeadlineTimer := { active := false, period := 1 }
      phaseCheckTimer := { active := false, period := pdMS_TO_TICKS rate (60 * 1000) } } rfl
  generalize LoadSettingsFromFile true _ = t at h ⊢
  obtain ⟨h1, h2, h3⟩ := h
  have ht : SettingsInv t := by
    refine ⟨?_, fun _ => ?_⟩
    · rw [h1]; exact loadedSettings_version _
    · rw [h1, h2]
  split_ifs
  · exact SettingsInv_of_step ht (SettingsStep_ScheduleAlarm _ _ _ _)
  · exact ht

theorem SettingsInv_step (rate : Nat) (off : Int) (sys : Sys) (ev : Event)
    (h : ev ≠ Event.saveSettings false) (hs : SettingsInv sys.ctrl) :
    SettingsInv (Sys.step rate off sys ev).ctrl := by
  cases ev with
  | advance n => exact hs
  | setAlarmTime hh mm => exact SettingsInv_of_step hs (SettingsStep_SetAlarmTime _ _ _)
  | setEnabled e => exact SettingsInv_of_step hs (SettingsStep_SetEnabled _ _)
  | scheduleAlarm => exact SettingsInv_of_step hs (SettingsStep_ScheduleAlarm _ _ _ _)
  | disableAlarm => exact SettingsInv_of_step hs (SettingsStep_DisableAlarm _)
  | stopAlerting => exact SettingsInv_of_step hs (SettingsStep_StopAlerting _)
  | saveSettings o =>
    cases o
    · exact absurd rfl h
    · exact (SettingsInv_SaveSettings _ hs).1
  | logUpdate l => exact hs
  | windowTimer =>
    simp only [Sys.step]
    split_ifs
    · exact SettingsInv_of_step hs ⟨rfl, rfl, Or.inr ⟨rfl, rfl⟩⟩
    · exact hs
  | deadlineTimer =>
    simp only [Sys.step]
    split_ifs
    · exact SettingsInv_of_step hs
        (SettingsStep_trans (t := { sys.ctrl with
          alarmDeadlineTimer := xTimerStop sys.ctrl.alarmDeadlineTimer })
          ⟨rfl, rfl, Or.inr ⟨rfl, rfl⟩⟩ (SettingsStep_OnAlarmDeadline _))
    · exact hs
  | phaseTimer r b e be =>
    simp only [Sys.step]
    split_ifs
    · exact SettingsInv_of_step hs (SettingsStep_CheckSleepPhaseWith _ _)
    · exact hs

theorem SettingsInv_run (rate : Nat) (off : Int) (evs : List Event) (sys : Sys)
    (h : Event.saveSettings false ∉ evs) (hs : SettingsInv sys.ctrl) :
    SettingsInv (Sys.run rate off evs sys).ctrl := by
  induction evs generalizing sys with
  | nil => exact hs
  | cons ev rest ih =>
    simp only [Sys.run, List.foldl_cons]
    have h1 : ev ≠ Event.saveSettings false := fun e => h (by simp [e])
    have h2 : Event.saveSettings false ∉ rest := fun e => h (by simp [e])
    exact ih _ h2 (SettingsInv_step rate off sys ev h1 hs)

end SmartAlarmController

namespace SmartAlarmController

theorem SettingsInv_boot_run (rate : Nat) (off now : Int) (st : Option Nat)
    (msgs : List Message) (l : HeartRateLogger) (f : Option (Option AlarmSettings))
    (evs : List Event) (h : Event.saveSettings false ∉ evs) :
    SettingsInv (Sys.run rate off evs (boot rate off now st msgs l f)).ctrl :=
  SettingsInv_run rate off evs _ h (SettingsInv_Init rate off now st msgs l f)

theorem SetEnabled_enabled (e : Bool) (s : SmartAlarmController) :
    (SetEnabled e s).alarmSettings.enabled = e := by
  unfold SetEnabled
  split_ifs with h
  · rfl
  · simpa using h

theorem SetAlarmTime_enabled (h m : Nat) (s : SmartAlarmController) :
    (SetAlarmTime h m s).alarmSettings.enabled = s.alarmSettings.enabled := by
  unfold SetAlarmTime
  split_ifs <;> rfl

theorem fresh_Init_alarmSettings (rate : Nat) (off now : Int) (st : Option Nat)
    (msgs : List Message) (l : HeartRateLogger) (f : Option (Option AlarmSettings)) :
    (LoadSettingsFromFile true (create st msgs l f)).alarmSettings = loadedSettings f ∧
      Hours (Init rate off now true (create st msgs l f)) = (loadedSettings f).hours ∧
      Minutes (Init rate off now true (create st msgs l f)) = (loadedSettings f).minutes ∧
      IsEnabled (Init rate off now true (create st msgs l f)) = (loadedSettings f).enabled := by
  have h0 := (LoadSettingsFromFile_alarmSettings (create st msgs l f) rfl).1
  have h0' : (LoadSettingsFromFile true (create st msgs l f)).alarmSettings = loadedSettings f :=
    h0
  refine ⟨h0', ?_⟩
  unfold Init Hours Minutes IsEnabled
  dsimp only
  have h := LoadSettingsFromFile_alarmSettings
    { create st msgs l f with
      windowStartTimer := { active := false, period := 1 }
      alarmDeadlineTimer := { active := false, period := 1 }
      phaseCheckTimer := { active := false, period := pdMS_TO_TICKS rate (60 * 1000) } } rfl
  generalize LoadSettingsFromFile true _ = t at h ⊢
  have h1 : t.alarmSettings = loadedSettings f := h.1
  by_cases he : t.alarmSettings.enabled = true
  · rw [if_pos he]
    have hf := ScheduleAlarm_fields rate off now t
    rw [hf.1, hf.2.1, hf.2.2.1, ← h1, he]
    exact ⟨rfl, rfl, rfl⟩
  · rw [if_neg he, h1]
    exact ⟨rfl, rfl, rfl⟩

/-- C21 (persist-then-load of alarm settings): in every state reached from `Init` by events of
the system whose saves succeed, set any `hours`, `minutes` (through `SetAlarmTime`) and
`enabled` (through `SetEnabled`), in either order, and call `SaveSettings` with the file
operations succeeding.  Then a freshly constructed controller that loads the resulting settings
file, through `LoadSettingsFromFile` or through `Init`, reports `Hours() == hours`,
`Minutes() == minutes` and `IsEnabled() == enabled`. -/
theorem settings_persist_then_load (rate : Nat) (off now : Int) (st : Option Nat) (msgs : List Message)
    (l : HeartRateLogger) (f : Option (Option AlarmSettings)) (evs : List Event)
    (hours minutes : Nat) (enabled : Bool)
    (rate2 : Nat) (off2 now2 : Int) (st2 : Option Nat) (msgs2 : List Message)
    (l2 : HeartRateLogger) (h : Event.saveSettings false ∉ evs) :
    ∀ s : SmartAlarmController,
      (s = SaveSettings true (SetEnabled enabled (SetAlarmTime hours minutes
          (Sys.run rate off evs (boot rate off now st msgs l f)).ctrl)) ∨
        s = SaveSettings true (SetAlarmTime hours minutes (SetEnabled enabled
          (Sys.run rate off evs (boot rate off now st msgs l f)).ctrl))) →
      (Hours (LoadSettingsFromFile true (create st2 msgs2 l2 s.settingsFile)) = hours ∧
        Minutes (LoadSettingsFromFile true (create st2 msgs2 l2 s.settingsFile)) = minutes ∧
        IsEnabled (LoadSettingsFromFile true (create st2 msgs2 l2 s.settingsFile)) = enabled) ∧
      (Hours (Init rate2 off2 now2 true (create st2 msgs2 l2 s.settingsFile)) = hours ∧
        Minutes (Init rate2 off2 now2 true (create st2 msgs2 l2 s.settingsFile)) = minutes ∧
        IsEnabled (Init rate2 off2 now2 true (create st2 msgs2 l2 s.settingsFile)) = enabled) := by
  have hinv := SettingsInv_boot_run rate off now st msgs l f evs h
  generalize (Sys.run rate off evs (boot rate off now st msgs l f)).ctrl = c at hinv
  have key : ∀ t : SmartAlarmController, SettingsInv t →
      t.alarmSettings.hours = hours → t.alarmSettings.minutes = minutes →
      t.alarmSettings.enabled = enabled →
      (loadedSettings (SaveSettings true t).settingsFile).hours = hours ∧
        (loadedSettings (SaveSettings true t).settingsFile).minutes = minutes ∧
        (loadedSettings (SaveSettings true t).settingsFile).enabled = enabled := by
    intro t ht h1 h2 h3
    rw [(SettingsInv_SaveSettings t ht).2.2.2]
    exact ⟨h1, h2, h3⟩
  have fin : ∀ s : SmartAlarmController,
      ((loadedSettings s.settingsFile).hours = hours ∧
        (loadedSettings s.settingsFile).minutes = minutes ∧
        (loadedSettings s.settingsFile).enabled = enabled) →
      (Hours (LoadSettingsFromFile true (create st2 msgs2 l2 s.settingsFile)) = hours ∧
        Minutes (LoadSettingsFromFile true (create st2 msgs2 l2 s.settingsFile)) = minutes ∧
        IsEnabled (LoadSettingsFromFile true (create st2 msgs2 l2 s.settingsFile)) = enabled) ∧
      (Hours (Init rate2 off2 now2 true (create st2 msgs2 l2 s.settingsFile)) = hours ∧
        Minutes (Init rate2 off2 now2 true (create st2 msgs2 l2 s.settingsFile)) = minutes ∧
        IsEnabled (Init rate2 off2 now2 true (create st2 msgs2 l2 s.settingsFile)) = enabled) := by
    intro s hs
    have hf := fresh_Init_alarmSettings rate2 off2 now2 st2 msgs2 l2 s.settingsFile
    refine ⟨?_, ?_⟩
    · unfold Hours Minutes IsEnabled
      rw [hf.1]
      exact hs
    · rw [hf.2.1, hf.2.2.1, hf.2.2.2]
      exact hs
  rintro s (rfl | rfl)
  · apply fin
    apply key
    · exact SettingsInv_of_step (SettingsInv_of_step hinv (SettingsStep_SetAlarmTime _ _ _))
        (SettingsStep_SetEnabled _ _)
    · rw [(SetEnabled_fields _ _).2.2.1]; exact (SetAlarmTime_alarmSettings _ _ _).1
    · rw [(SetEnabled_fields _ _).2.2.2]; exact (SetAlarmTime_alarmSettings _ _ _).2
    · exact SetEnabled_enabled _ _
  · apply fin
    apply key
    · exact SettingsInv_of_step (SettingsInv_of_step hinv (SettingsStep_SetEnabled _ _))
        (SettingsStep_SetAlarmTime _ _ _)
    · exact (SetAlarmTime_alarmSettings _ _ _).1
    · exact (SetAlarmTime_alarmSettings _ _ _).2
    · rw [SetAlarmTime_enabled]; exact SetEnabled_enabled _ _

/-- Witness for C21: on a device without a settings file, 6:30 enabled is set and saved; a
fresh controller reports 6:30. -/
theorem settings_persist_then_load_witness :
    Event.saveSettings false ∉ [Event.setAlarmTime 8 15, Event.saveSettings true] ∧
      Hours (LoadSettingsFromFile true (create none [] { fs := none }
        (SaveSettings true (SetEnabled true (SetAlarmTime 6 30
          (Sys.run 1024 0 [Event.setAlarmTime 8 15, Event.saveSettings true]
            (boot 1024 0 0 none [] { fs := none } none)).ctrl))).settingsFile)) = 6 :=
  ⟨by simp,
    ((settings_persist_then_load 1024 0 0 none [] { fs := none } none
      [Event.setAlarmTime 8 15, Event.saveSettings true] 6 30 true
      1024 0 0 none [] { fs := none } (by simp)) _ (Or.inl rfl)).1.1⟩

/-- C30 as stated fails in its last part.  The dirty-flag invariant holds, but a write that
`SaveSettings` skips may be one that would change the file: after `Init` on a settings file
whose record has version 2 (not accepted by the load), and likewise after `Init` without a
settings file, `settingsChanged` is false, `SaveSettings` does nothing, and the write it skips
would replace the file's contents by the default record. -/
theorem skipped_write_would_change_file_counterexample :
    (boot 1024 0 0 none [] { fs := none }
        (some (some { version := 2, hours := 9 }))).ctrl.settingsChanged = false ∧
      (SaveSettings true (boot 1024 0 0 none [] { fs := none }
        (some (some { version := 2, hours := 9 }))).ctrl).settingsFile =
          some (some { version := 2, hours := 9 }) ∧
      (SaveSettingsToFile true (boot 1024 0 0 none [] { fs := none }
        (some (some { version := 2, hours := 9 }))).ctrl).settingsFile =
          some (some { version := 1, hours := 7, minutes := 0, padding := 0, enabled := false }) ∧
      (SaveSettings true (boot 1024 0 0 none [] { fs := none } none).ctrl).settingsFile = none ∧
      (SaveSettingsToFile true (boot 1024 0 0 none [] { fs := none } none).ctrl).settingsFile =
        some (some { version := 1, hours := 7, minutes := 0, padding := 0, enabled := false }) := by
  refine ⟨by decide, by decide, by decide, by decide, by decide⟩

/-- C30 amended (dirty-flag invariant): in every state reached from `Init` by events of the
system whose saves succeed, `settingsChanged == false` implies that the in-RAM record equals
what a load of the settings file yields: the file's record when it holds one of version 1, and
the defaults 7:00, disabled, when there is no file or its record is short or of another
version.  Hence the write that `SaveSettings` then skips would not change what a load of the
file yields, and would leave the file itself unchanged whenever it holds a version-1 record. -/
theorem dirty_flag_invariant (rate : Nat) (off now : Int) (st : Option Nat)
    (msgs : List Message) (l : HeartRateLogger) (f : Option (Option AlarmSettings))
    (evs : List Event) (h : Event.saveSettings false ∉ evs) :
    ∀ s : SmartAlarmController,
      s = (Sys.run rate off evs (boot rate off now st msgs l f)).ctrl →
      s.settingsChanged = false →
      s.alarmSettings = loadedSettings s.settingsFile ∧
        (∀ r : AlarmSettings, s.settingsFile = some (some r) → r.version = 1 →
          Hours s = r.hours ∧ Minutes s = r.minutes ∧ IsEnabled s = r.enabled) ∧
        ((s.settingsFile = none ∨ s.settingsFile = some none ∨
            ∃ r : AlarmSettings, s.settingsFile = some (some r) ∧ r.version ≠ 1) →
          Hours s = 7 ∧ Minutes s = 0 ∧ IsEnabled s = false) ∧
        SaveSettings true s = s ∧
        loadedSettings (SaveSettingsToFile true s).settingsFile =
          loadedSettings s.settingsFile ∧
        (∀ r : AlarmSettings, s.settingsFile = some (some r) → r.version = 1 →
          (SaveSettingsToFile true s).settingsFile = s.settingsFile) := by
  intro s hs hc
  have hinv : SettingsInv s := by
    rw [hs]
    exact SettingsInv_boot_run rate off now st msgs l f evs h
  have heq := hinv.2 hc
  have hrec : ∀ r : AlarmSettings, s.settingsFile = some (some r) → r.version = 1 →
      s.alarmSettings = r := by
    intro r hr hv
    rw [heq, hr, loadedSettings_record, if_pos hv]
  refine ⟨heq, ?_, ?_, ?_, ?_, ?_⟩
  · intro r hr hv
    unfold Hours Minutes IsEnabled
    rw [hrec r hr hv]
    exact ⟨rfl, rfl, rfl⟩
  · unfold Hours Minutes IsEnabled
    rintro (hf | hf | ⟨r, hf, hv⟩)
    · rw [heq, hf]; exact ⟨rfl, rfl, rfl⟩
    · rw [heq, hf]; exact ⟨rfl, rfl, rfl⟩
    · rw [heq, hf, loadedSettings_record, if_neg hv]; exact ⟨rfl, rfl, rfl⟩
  · unfold SaveSettings
    rw [if_neg (by simp [hc])]
  · unfold SaveSettingsToFile
    rw [if_pos rfl]
    show loadedSettings (some (some s.alarmSettings)) = loadedSettings s.settingsFile
    rw [loadedSettings_record, if_pos hinv.1]
    exact heq
  · intro r hr hv
    unfold SaveSettingsToFile
    rw [if_pos rfl]
    show some (some s.alarmSettings) = s.settingsFile
    rw [hrec r hr hv, hr]

/-- Witness for C30 amended: 6:30 is set and saved on a device without a settings file; the
flag is then clear and the in-RAM record is what a load of the file yields. -/
theorem dirty_flag_invariant_witness :
    Event.saveSettings false ∉ [Event.setAlarmTime 6 30, Event.saveSettings true] ∧
      (Sys.run 1024 0 [Event.setAlarmTime 6 30, Event.saveSettings true]
          (boot 1024 0 0 none [] { fs := none } none)).ctrl.alarmSettings =
        loadedSettings (Sys.run 1024 0 [Event.setAlarmTime 6 30, Event.saveSettings true]
          (boot 1024 0 0 none [] { fs := none } none)).ctrl.settingsFile :=
  ⟨by simp,
    ((dirty_flag_invariant 1024 0 0 none [] { fs := none } none
      [Event.setAlarmTime 6 30, Event.saveSettings true] (by simp)) _ rfl (by decide)).1⟩

end SmartAlarmController

namespace Binary32

/-! ## Facts about the binary32 model -/

theorem bitLengthAux_zero (fuel : Nat) : bitLengthAux fuel 0 = 0 := by
  cases fuel <;> simp [bitLengthAux]

theorem bitLengthAux_spec (fuel n : Nat) (h : n ≤ fuel) :
    n < 2 ^ bitLengthAux fuel n ∧ (0 < n → 2 ^ (bitLengthAux fuel n - 1) ≤ n) := by
  induction fuel generalizing n with
  | zero =>
    have h0 : n = 0 := by omega
    subst h0
    simp [bitLengthAux]
  | succ fuel ih =>
    unfold bitLengthAux
    by_cases hn : n = 0
    · subst hn
      simp
    · rw [if_neg hn]
      have hle : n / 2 ≤ fuel := by omega
      obtain ⟨h1, h2⟩ := ih (n / 2) hle
      by_cases hh : 0 < n / 2
      · have h3 := h2 hh
        generalize bitLengthAux fuel (n / 2) = k at h1 h3
        have hk : k ≠ 0 := by
          rintro rfl
          simp at h1
          omega
        obtain ⟨j, rfl⟩ : ∃ j, k = j + 1 := ⟨k - 1, by omega⟩
        rw [Nat.add_sub_cancel] at h3
        rw [Nat.add_sub_cancel]
        constructor
        · rw [pow_succ (n := j + 1)]
          omega
        · intro _
          rw [pow_succ]
          omega
      · have hz : n / 2 = 0 := by omega
        have hk : n = 1 := by omega
        rw [hz, bitLengthAux_zero]
        subst hk
        simp

/-- The function `bitLength` counts the binary digits: `2^(L-1) <= n < 2^L`. -/
theorem bitLength_spec (n : Nat) :
    n < 2 ^ bitLength n ∧ (0 < n → 2 ^ (bitLength n - 1) ≤ n) :=
  bitLengthAux_spec n n (Nat.le_refl n)

theorem bitLength_eq_size (n : Nat) : bitLength n = Nat.size n := by
  apply Nat.le_antisymm
  · by_cases hn : n = 0
    · subst hn
      simp [bitLength, bitLengthAux]
    · have h := (bitLength_spec n).2 (by omega)
      have := Nat.lt_size.mpr h
      omega
  · exact Nat.size_le.mpr (bitLength_spec n).1

theorem isqrtAux_spec (b r n : Nat) (h1 : r * r ≤ n) (h2 : n < (r + 2 ^ b) * (r + 2 ^ b)) :
    isqrtAux b r n * isqrtAux b r n ≤ n ∧
      n < (isqrtAux b r n + 1) * (isqrtAux b r n + 1) := by
  induction b generalizing r with
  | zero =>
    simp only [isqrtAux]
    simpa using ⟨h1, h2⟩
  | succ b ih =>
    simp only [isqrtAux]
    by_cases hc : (r + 2 ^ b) * (r + 2 ^ b) ≤ n
    · rw [if_pos hc]
      apply ih _ hc
      have e : r + 2 ^ b + 2 ^ b = r + 2 ^ (b + 1) := by
        rw [pow_succ]
        omega
      rw [e]
      exact h2
    · rw [if_neg hc]
      exact ih _ h1 (by omega)

/-- The function `isqrt` is the integer square root. -/
theorem isqrt_eq_sqrt (n : Nat) : isqrt n = Nat.sqrt n := by
  have hb := (bitLength_spec n).1
  have h2 : n < (0 + 2 ^ (bitLength n / 2 + 1)) * (0 + 2 ^ (bitLength n / 2 + 1)) := by
    rw [Nat.zero_add, ← pow_add]
    calc n < 2 ^ bitLength n := hb
      _ ≤ 2 ^ (bitLength n / 2 + 1 + (bitLength n / 2 + 1)) :=
        Nat.pow_le_pow_right (by norm_num) (by omega)
  have h := isqrtAux_spec (bitLength n / 2 + 1) 0 n (by simp) h2
  exact Nat.eq_sqrt.mpr h

/-- The function `roundHalfEven` returns an integer within one half of `p / q`, and in the case
of a tie the even one. -/
theorem roundHalfEven_spec (p : Int) (q : Nat) (hq : 0 < q) :
    2 * |p - roundHalfEven p q * (q : Int)| ≤ (q : Int) ∧
      (2 * |p - roundHalfEven p q * (q : Int)| = (q : Int) → roundHalfEven p q % 2 = 0) := by
  have hq' : (0 : Int) < (q : Int) := by exact_mod_cast hq
  have hm1 := Int.emod_nonneg p (ne_of_gt hq')
  have hm2 := Int.emod_lt_of_pos p hq'
  have hd := Int.emod_add_ediv p (q : Int)
  unfold roundHalfEven
  generalize p % (q : Int) = r at hm1 hm2 hd ⊢
  generalize p / (q : Int) = f at hd ⊢
  have e1 : p - f * (q : Int) = r := by rw [← hd]; ring
  have e2 : p - (f + 1) * (q : Int) = r - (q : Int) := by rw [← hd]; ring
  split_ifs with c1 c2 c3
  · rw [e1, abs_of_nonneg hm1]
    exact ⟨by omega, fun h => by omega⟩
  · rw [e2, abs_of_nonpos (by omega)]
    exact ⟨by omega, fun h => by omega⟩
  · rw [e1, abs_of_nonneg hm1]
    exact ⟨by omega, fun _ => c3⟩
  · rw [e2, abs_of_nonpos (by omega)]
    exact ⟨by omega, fun _ => by omega⟩

/-- A value with a 24-bit significand is not changed by rounding: `round` fixes every
`m * 2^k` with `|m| < 2^24`. -/
theorem round_of_representable (m : Int) (k : Nat) (hm : m.natAbs < 2 ^ 24) :
    round (m * 2 ^ k) 1 = m * 2 ^ k := by
  unfold round
  simp only [Nat.div_one, Nat.one_mul]
  have hL := bitLength_spec (m * 2 ^ k : Int).natAbs
  generalize hLdef : bitLength (m * 2 ^ k : Int).natAbs = L at hL
  have habs : (m * 2 ^ k : Int).natAbs = m.natAbs * 2 ^ k := by
    rw [Int.natAbs_mul, Int.natAbs_pow]
    rfl
  rw [habs] at hL
  -- the quantum divides 2^k
  have hle : L - 24 ≤ k := by
    by_contra hc
    have hc' : k + 24 + 1 ≤ L := by omega
    by_cases hm0 : m.natAbs = 0
    · have h0 : m.natAbs * 2 ^ k = 0 := by rw [hm0, Nat.zero_mul]
      have hL0 : L = 0 := by
        rw [← hLdef, habs, h0]
        rfl
      omega
    · have hlow := hL.2 (Nat.mul_pos (by omega) (by positivity))
      have hup : m.natAbs * 2 ^ k < 2 ^ 24 * 2 ^ k :=
        Nat.mul_lt_mul_of_pos_right hm (by positivity)
      have hpow : 2 ^ 24 * 2 ^ k ≤ 2 ^ (L - 1) := by
        rw [← pow_add]
        exact Nat.pow_le_pow_right (by norm_num) (by omega)
      omega
  obtain ⟨d, hd⟩ : ∃ d, k = (L - 24) + d := ⟨k - (L - 24), by omega⟩
  generalize L - 24 = e at hd
  subst hd
  have hdiv : (m * 2 ^ (e + d) : Int) = (m * 2 ^ d) * ((2 ^ e : Nat) : Int) := by
    push_cast
    ring
  have hQ : (0 : Int) < ((2 ^ e : Nat) : Int) := by positivity
  have hmod : (m * 2 ^ (e + d) : Int) % ((2 ^ e : Nat) : Int) = 0 := by
    rw [hdiv]
    exact Int.mul_emod_left _ _
  have hquot : (m * 2 ^ (e + d) : Int) / ((2 ^ e : Nat) : Int) = m * 2 ^ d := by
    rw [hdiv]
    exact Int.mul_ediv_cancel _ (ne_of_gt hQ)
  unfold roundHalfEven
  rw [hmod, hquot, if_pos (by omega)]
  rw [hdiv]

theorem unitsPerOne_cast : (unitsPerOne : Int) = 2 ^ 149 := by
  unfold unitsPerOne
  rw [Int.natCast_pow]
  rfl

/-- The conversion of an integer below `2^24` to `float` is exact. -/
theorem ofNat_exact (n : Nat) (hn : n < 2 ^ 24) :
    ofNat n = (n : Int) * (unitsPerOne : Int) := by
  unfold ofNat
  rw [unitsPerOne_cast]
  exact round_of_representable (n : Int) 149 (by rw [Int.natAbs_ofNat]; exact hn)

/-- The result of `round` is a multiple `r` of the quantum of the binade of the exact value,
with `|r| <= 2^24`, and no other multiple of the quantum is nearer to the exact value. -/
theorem round_spec (p : Int) (q : Nat) (hq : 0 < q) :
    ∃ r : Int, round p q = r * ((2 ^ (bitLength (p.natAbs / q) - 24) : Nat) : Int) ∧
      |r| ≤ 2 ^ 24 ∧
      2 * |p - r * ((q * 2 ^ (bitLength (p.natAbs / q) - 24) : Nat) : Int)|
        ≤ ((q * 2 ^ (bitLength (p.natAbs / q) - 24) : Nat) : Int) := by
  have hL := (bitLength_spec (p.natAbs / q)).1
  unfold round
  simp only
  generalize bitLength (p.natAbs / q) = L at hL
  have hD : 0 < q * 2 ^ (L - 24) := Nat.mul_pos hq (by positivity)
  have hnear := (roundHalfEven_spec p (q * 2 ^ (L - 24)) hD).1
  refine ⟨roundHalfEven p (q * 2 ^ (L - 24)), rfl, ?_, hnear⟩
  -- the exact value is below 2^24 quanta
  have hp : p.natAbs < q * 2 ^ (L - 24) * 2 ^ 24 := by
    have h1 : p.natAbs < q * 2 ^ L := by
      have := Nat.lt_of_div_lt_div (a := p.natAbs) (b := q * 2 ^ L) (c := q)
        (by rw [Nat.mul_div_cancel_left _ hq]; exact hL)
      exact this
    have h2 : 2 ^ L ≤ 2 ^ (L - 24) * 2 ^ 24 := by
      rw [← pow_add]
      exact Nat.pow_le_pow_right (by norm_num) (by omega)
    calc p.natAbs < q * 2 ^ L := h1
      _ ≤ q * (2 ^ (L - 24) * 2 ^ 24) := Nat.mul_le_mul_left q h2
      _ = q * 2 ^ (L - 24) * 2 ^ 24 := by rw [Nat.mul_assoc]
  generalize q * 2 ^ (L - 24) = D at hD hnear hp
  generalize roundHalfEven p D = r at hnear
  have hD' : (0 : Int) < (D : Int) := by exact_mod_cast hD
  have hp' : |p| < (D : Int) * 2 ^ 24 := by
    rw [Int.abs_eq_natAbs]
    exact_mod_cast hp
  by_contra hc
  have hr : (2 : Int) ^ 24 + 1 ≤ |r| := by omega
  have htri : |r * (D : Int)| ≤ |p| + |p - r * (D : Int)| := by
    have := abs_sub_abs_le_abs_sub (r * (D : Int)) p
    rw [abs_sub_comm] at this
    linarith
  rw [abs_mul, abs_of_pos hD'] at htri
  have hmul : ((2 : Int) ^ 24 + 1) * (D : Int) ≤ |r| * (D : Int) :=
    Int.mul_le_mul_of_nonneg_right hr (le_of_lt hD')
  nlinarith

/-- The result `s` of `sqrt` is a multiple of the quantum `Q` of the binade of the root, and
the root of `y = a * 2^149` lies within half a quantum of it:
`(2 s - Q)^2 <= 4 y <= (2 s + Q)^2`. -/
theorem sqrt_spec (a : Int) :
    ∃ s t Q : Nat, sqrt a = (s : Int) ∧
      Q = 2 ^ (bitLength (Nat.sqrt (a.toNat * unitsPerOne)) - 24) ∧ s = t * Q ∧
      4 * (a.toNat * unitsPerOne) ≤ (2 * s + Q) * (2 * s + Q) ∧
      (2 * s - Q) * (2 * s - Q) ≤ 4 * (a.toNat * unitsPerOne) := by
  unfold sqrt
  simp only [isqrt_eq_sqrt]
  generalize a.toNat * unitsPerOne = y
  have hk1 := Nat.sqrt_le y
  have hk2 := Nat.lt_succ_sqrt y
  generalize Nat.sqrt y = k at hk1 hk2
  have hQ : 0 < 2 ^ (bitLength k - 24) := by positivity
  generalize hQdef : 2 ^ (bitLength k - 24) = Q at hQ
  have ht1 : k / Q * Q ≤ k := Nat.div_mul_le_self k Q
  have ht2 : k < (k / Q + 1) * Q := by
    have := Nat.lt_succ_self (k / Q)
    exact (Nat.div_lt_iff_lt_mul hQ).mp this
  generalize k / Q = t at ht1 ht2
  have hlow : (2 * (t * Q)) * (2 * (t * Q)) ≤ 4 * y := by
    have : (t * Q) * (t * Q) ≤ k * k := Nat.mul_le_mul ht1 ht1
    nlinarith
  have hup : 4 * y ≤ (2 * ((t + 1) * Q)) * (2 * ((t + 1) * Q)) := by
    have h1 : k + 1 ≤ (t + 1) * Q := ht2
    have : (k + 1) * (k + 1) ≤ ((t + 1) * Q) * ((t + 1) * Q) := Nat.mul_le_mul h1 h1
    have hk2' : y < (k + 1) * (k + 1) := hk2
    nlinarith
  have e1 : 2 * (t * Q) + Q = (2 * t + 1) * Q := by ring
  have e2 : 2 * ((t + 1) * Q) - Q = (2 * t + 1) * Q := by
    have : 2 * ((t + 1) * Q) = (2 * t + 1) * Q + Q := by ring
    omega
  have hsub : (2 * (t * Q) - Q) * (2 * (t * Q) - Q) ≤ (2 * (t * Q)) * (2 * (t * Q)) :=
    Nat.mul_le_mul (Nat.sub_le _ _) (Nat.sub_le _ _)
  have hadd : (2 * ((t + 1) * Q)) * (2 * ((t + 1) * Q))
      ≤ (2 * ((t + 1) * Q) + Q) * (2 * ((t + 1) * Q) + Q) :=
    Nat.mul_le_mul (Nat.le_add_right _ _) (Nat.le_add_right _ _)
  split_ifs with c1 c2 c3
  · exact ⟨t * Q, t, Q, rfl, rfl, rfl, by rw [e1]; omega, by omega⟩
  · exact ⟨(t + 1) * Q, t + 1, Q, rfl, rfl, rfl, by omega, by rw [e2]; omega⟩
  · exact ⟨t * Q, t, Q, rfl, rfl, rfl, by rw [e1]; omega, by omega⟩
  · exact ⟨(t + 1) * Q, t + 1, Q, rfl, rfl, rfl, by omega, by rw [e2]; omega⟩

end Binary32
